import Mathlib

set_option maxHeartbeats 2000000

set_option maxRecDepth 8000

/-!
Verification of the forecast-batch collector core (`src/kiwoom.py`):
token TTL computation, numeric normalization, the instrument
classifier, the retrying request layer and the collection pipeline,
shallowly embedded in Lean 4.

Modelling conventions:
* Python strings are Lean `String`s.  `str.strip()`, `str.upper()`,
  the regex classes `\d` and `\w` and substring search are modelled
  exactly: the character tables `PY_WHITESPACE`, `upperLookup`,
  `ND_RANGES` and `WORD_RANGES` below are generated from CPython's own
  Unicode database (`str.isspace`, `str.upper`, category Nd,
  `str.isalnum`), so they agree with Python on every character.
* Python `None` / JSON null and absent dict keys are both modelled as
  `PyVal.none`, matching `dict.get` returning `None` for absent keys.
* Exceptions are modelled with `Except`; network and cache effects are
  oracles passed in as explicit parameters.
* `time.sleep` calls are recorded in the result (their durations as
  rationals) instead of being performed.
-/

/-- Python `str.replace(",", "")`: drop every comma. -/
def removeCommas (s : String) : String :=
  ⟨s.data.filter (fun c => c ≠ ',')⟩

/-- The exact set of code points Python `str.strip()` removes
(characters with `str.isspace()`), from CPython's Unicode database. -/
def PY_WHITESPACE : List Nat :=
  [9, 10, 11, 12, 13, 28, 29, 30, 31, 32, 133, 160, 5760, 8192, 8193, 8194, 8195, 8196, 8197, 8198, 8199, 8200, 8201, 8202, 8232, 8233, 8239, 8287, 12288]

/-- A character Python `str.strip()` strips. -/
def isPyWhitespace (c : Char) : Bool :=
  PY_WHITESPACE.contains c.toNat

/-- Python `str.strip()`: remove leading and trailing whitespace. -/
def pyStrip (s : String) : String :=
  ⟨((s.data.dropWhile isPyWhitespace).reverse.dropWhile isPyWhitespace).reverse⟩

/-- The exact uppercase mapping of Python `str.upper()`: for every
code point whose `str.upper()` differs from itself, the code points of
its uppercase form (possibly several, e.g. ß ↦ "SS"); generated from
CPython's Unicode database as a balanced decision tree on the code
point. -/
def upperLookup (n : Nat) : Option (List Nat) :=
  if n < 8066 then
  if n < 1167 then
    if n < 541 then
      if n < 329 then
        if n < 243 then
          if n < 120 then
            if n < 108 then
              if n < 102 then
                if n < 99 then
                  if n < 98 then
                    if n = 97 then some [65] else Option.none
                  else
                    if n = 98 then some [66] else Option.none
                else
                  if n < 100 then
                    if n = 99 then some [67] else Option.none
                  else
                    if n < 101 then
                      if n = 100 then some [68] else Option.none
                    else
                      if n = 101 then some [69] else Option.none
              else
                if n < 105 then
                  if n < 103 then
                    if n = 102 then some [70] else Option.none
                  else
                    if n < 104 then
                      if n = 103 then some [71] else Option.none
                    else
                      if n = 104 then some [72] else Option.none
                else
                  if n < 106 then
                    if n = 105 then some [73] else Option.none
                  else
                    if n < 107 then
                      if n = 106 then some [74] else Option.none
                    else
                      if n = 107 then some [75] else Option.none
            else
              if n < 114 then
                if n < 111 then
                  if n < 109 then
                    if n = 108 then some [76] else Option.none
                  else
                    if n < 110 then
                      if n = 109 then some [77] else Option.none
                    else
                      if n = 110 then some [78] else Option.none
                else
                  if n < 112 then
                    if n = 111 then some [79] else Option.none
                  else
                    if n < 113 then
                      if n = 112 then some [80] else Option.none
                    else
                      if n = 113 then some [81] else Option.none
              else
                if n < 117 then
                  if n < 115 then
                    if n = 114 then some [82] else Option.none
                  else
                    if n < 116 then
                      if n = 115 then some [83] else Option.none
                    else
                      if n = 116 then some [84] else Option.none
                else
                  if n < 118 then
                    if n = 117 then some [85] else Option.none
                  else
                    if n < 119 then
                      if n = 118 then some [86] else Option.none
                    else
                      if n = 119 then some [87] else Option.none
          else
            if n < 231 then
              if n < 225 then
                if n < 181 then
                  if n < 121 then
                    if n = 120 then some [88] else Option.none
                  else
                    if n < 122 then
                      if n = 121 then some [89] else Option.none
                    else
                      if n = 122 then some [90] else Option.none
                else
                  if n < 223 then
                    if n = 181 then some [924] else Option.none
                  else
                    if n < 224 then
                      if n = 223 then some [83, 83] else Option.none
                    else
                      if n = 224 then some [192] else Option.none
              else
                if n < 228 then
                  if n < 226 then
                    if n = 225 then some [193] else Option.none
                  else
                    if n < 227 then
                      if n = 226 then some [194] else Option.none
                    else
                      if n = 227 then some [195] else Option.none
                else
                  if n < 229 then
                    if n = 228 then some [196] else Option.none
                  else
                    if n < 230 then
                      if n = 229 then some [197] else Option.none
                    else
                      if n = 230 then some [198] else Option.none
            else
              if n < 237 then
                if n < 234 then
                  if n < 232 then
                    if n = 231 then some [199] else Option.none
                  else
                    if n < 233 then
                      if n = 232 then some [200] else Option.none
                    else
                      if n = 233 then some [201] else Option.none
                else
                  if n < 235 then
                    if n = 234 then some [202] else Option.none
                  else
                    if n < 236 then
                      if n = 235 then some [203] else Option.none
                    else
                      if n = 236 then some [204] else Option.none
              else
                if n < 240 then
                  if n < 238 then
                    if n = 237 then some [205] else Option.none
                  else
                    if n < 239 then
                      if n = 238 then some [206] else Option.none
                    else
                      if n = 239 then some [207] else Option.none
                else
                  if n < 241 then
                    if n = 240 then some [208] else Option.none
                  else
                    if n < 242 then
                      if n = 241 then some [209] else Option.none
                    else
                      if n = 242 then some [210] else Option.none
        else
          if n < 281 then
            if n < 257 then
              if n < 250 then
                if n < 246 then
                  if n < 244 then
                    if n = 243 then some [211] else Option.none
                  else
                    if n < 245 then
                      if n = 244 then some [212] else Option.none
                    else
                      if n = 245 then some [213] else Option.none
                else
                  if n < 248 then
                    if n = 246 then some [214] else Option.none
                  else
                    if n < 249 then
                      if n = 248 then some [216] else Option.none
                    else
                      if n = 249 then some [217] else Option.none
              else
                if n < 253 then
                  if n < 251 then
                    if n = 250 then some [218] else Option.none
                  else
                    if n < 252 then
                      if n = 251 then some [219] else Option.none
                    else
                      if n = 252 then some [220] else Option.none
                else
                  if n < 254 then
                    if n = 253 then some [221] else Option.none
                  else
                    if n < 255 then
                      if n = 254 then some [222] else Option.none
                    else
                      if n = 255 then some [376] else Option.none
            else
              if n < 269 then
                if n < 263 then
                  if n < 259 then
                    if n = 257 then some [256] else Option.none
                  else
                    if n < 261 then
                      if n = 259 then some [258] else Option.none
                    else
                      if n = 261 then some [260] else Option.none
                else
                  if n < 265 then
                    if n = 263 then some [262] else Option.none
                  else
                    if n < 267 then
                      if n = 265 then some [264] else Option.none
                    else
                      if n = 267 then some [266] else Option.none
              else
                if n < 275 then
                  if n < 271 then
                    if n = 269 then some [268] else Option.none
                  else
                    if n < 273 then
                      if n = 271 then some [270] else Option.none
                    else
                      if n = 273 then some [272] else Option.none
                else
                  if n < 277 then
                    if n = 275 then some [274] else Option.none
                  else
                    if n < 279 then
                      if n = 277 then some [276] else Option.none
                    else
                      if n = 279 then some [278] else Option.none
          else
            if n < 305 then
              if n < 293 then
                if n < 287 then
                  if n < 283 then
                    if n = 281 then some [280] else Option.none
                  else
                    if n < 285 then
                      if n = 283 then some [282] else Option.none
                    else
                      if n = 285 then some [284] else Option.none
                else
                  if n < 289 then
                    if n = 287 then some [286] else Option.none
                  else
                    if n < 291 then
                      if n = 289 then some [288] else Option.none
                    else
                      if n = 291 then some [290] else Option.none
              else
                if n < 299 then
                  if n < 295 then
                    if n = 293 then some [292] else Option.none
                  else
                    if n < 297 then
                      if n = 295 then some [294] else Option.none
                    else
                      if n = 297 then some [296] else Option.none
                else
                  if n < 301 then
                    if n = 299 then some [298] else Option.none
                  else
                    if n < 303 then
                      if n = 301 then some [300] else Option.none
                    else
                      if n = 303 then some [302] else Option.none
            else
              if n < 318 then
                if n < 311 then
                  if n < 307 then
                    if n = 305 then some [73] else Option.none
                  else
                    if n < 309 then
                      if n = 307 then some [306] else Option.none
                    else
                      if n = 309 then some [308] else Option.none
                else
                  if n < 314 then
                    if n = 311 then some [310] else Option.none
                  else
                    if n < 316 then
                      if n = 314 then some [313] else Option.none
                    else
                      if n = 316 then some [315] else Option.none
              else
                if n < 324 then
                  if n < 320 then
                    if n = 318 then some [317] else Option.none
                  else
                    if n < 322 then
                      if n = 320 then some [319] else Option.none
                    else
                      if n = 322 then some [321] else Option.none
                else
                  if n < 326 then
                    if n = 324 then some [323] else Option.none
                  else
                    if n < 328 then
                      if n = 326 then some [325] else Option.none
                    else
                      if n = 328 then some [327] else Option.none
      else
        if n < 445 then
          if n < 375 then
            if n < 351 then
              if n < 339 then
                if n < 333 then
                  if n < 331 then
                    if n = 329 then some [700, 78] else Option.none
                  else
                    if n = 331 then some [330] else Option.none
                else
                  if n < 335 then
                    if n = 333 then some [332] else Option.none
                  else
                    if n < 337 then
                      if n = 335 then some [334] else Option.none
                    else
                      if n = 337 then some [336] else Option.none
              else
                if n < 345 then
                  if n < 341 then
                    if n = 339 then some [338] else Option.none
                  else
                    if n < 343 then
                      if n = 341 then some [340] else Option.none
                    else
                      if n = 343 then some [342] else Option.none
                else
                  if n < 347 then
                    if n = 345 then some [344] else Option.none
                  else
                    if n < 349 then
                      if n = 347 then some [346] else Option.none
                    else
                      if n = 349 then some [348] else Option.none
            else
              if n < 363 then
                if n < 357 then
                  if n < 353 then
                    if n = 351 then some [350] else Option.none
                  else
                    if n < 355 then
                      if n = 353 then some [352] else Option.none
                    else
                      if n = 355 then some [354] else Option.none
                else
                  if n < 359 then
                    if n = 357 then some [356] else Option.none
                  else
                    if n < 361 then
                      if n = 359 then some [358] else Option.none
                    else
                      if n = 361 then some [360] else Option.none
              else
                if n < 369 then
                  if n < 365 then
                    if n = 363 then some [362] else Option.none
                  else
                    if n < 367 then
                      if n = 365 then some [364] else Option.none
                    else
                      if n = 367 then some [366] else Option.none
                else
                  if n < 371 then
                    if n = 369 then some [368] else Option.none
                  else
                    if n < 373 then
                      if n = 371 then some [370] else Option.none
                    else
                      if n = 373 then some [372] else Option.none
          else
            if n < 409 then
              if n < 387 then
                if n < 382 then
                  if n < 378 then
                    if n = 375 then some [374] else Option.none
                  else
                    if n < 380 then
                      if n = 378 then some [377] else Option.none
                    else
                      if n = 380 then some [379] else Option.none
                else
                  if n < 383 then
                    if n = 382 then some [381] else Option.none
                  else
                    if n < 384 then
                      if n = 383 then some [83] else Option.none
                    else
                      if n = 384 then some [579] else Option.none
              else
                if n < 396 then
                  if n < 389 then
                    if n = 387 then some [386] else Option.none
                  else
                    if n < 392 then
                      if n = 389 then some [388] else Option.none
                    else
                      if n = 392 then some [391] else Option.none
                else
                  if n < 402 then
                    if n = 396 then some [395] else Option.none
                  else
                    if n < 405 then
                      if n = 402 then some [401] else Option.none
                    else
                      if n = 405 then some [502] else Option.none
            else
              if n < 424 then
                if n < 417 then
                  if n < 410 then
                    if n = 409 then some [408] else Option.none
                  else
                    if n < 414 then
                      if n = 410 then some [573] else Option.none
                    else
                      if n = 414 then some [544] else Option.none
                else
                  if n < 419 then
                    if n = 417 then some [416] else Option.none
                  else
                    if n < 421 then
                      if n = 419 then some [418] else Option.none
                    else
                      if n = 421 then some [420] else Option.none
              else
                if n < 436 then
                  if n < 429 then
                    if n = 424 then some [423] else Option.none
                  else
                    if n < 432 then
                      if n = 429 then some [428] else Option.none
                    else
                      if n = 432 then some [431] else Option.none
                else
                  if n < 438 then
                    if n = 436 then some [435] else Option.none
                  else
                    if n < 441 then
                      if n = 438 then some [437] else Option.none
                    else
                      if n = 441 then some [440] else Option.none
        else
          if n < 493 then
            if n < 470 then
              if n < 459 then
                if n < 454 then
                  if n < 447 then
                    if n = 445 then some [444] else Option.none
                  else
                    if n < 453 then
                      if n = 447 then some [503] else Option.none
                    else
                      if n = 453 then some [452] else Option.none
                else
                  if n < 456 then
                    if n = 454 then some [452] else Option.none
                  else
                    if n < 457 then
                      if n = 456 then some [455] else Option.none
                    else
                      if n = 457 then some [455] else Option.none
              else
                if n < 464 then
                  if n < 460 then
                    if n = 459 then some [458] else Option.none
                  else
                    if n < 462 then
                      if n = 460 then some [458] else Option.none
                    else
                      if n = 462 then some [461] else Option.none
                else
                  if n < 466 then
                    if n = 464 then some [463] else Option.none
                  else
                    if n < 468 then
                      if n = 466 then some [465] else Option.none
                    else
                      if n = 468 then some [467] else Option.none
            else
              if n < 481 then
                if n < 476 then
                  if n < 472 then
                    if n = 470 then some [469] else Option.none
                  else
                    if n < 474 then
                      if n = 472 then some [471] else Option.none
                    else
                      if n = 474 then some [473] else Option.none
                else
                  if n < 477 then
                    if n = 476 then some [475] else Option.none
                  else
                    if n < 479 then
                      if n = 477 then some [398] else Option.none
                    else
                      if n = 479 then some [478] else Option.none
              else
                if n < 487 then
                  if n < 483 then
                    if n = 481 then some [480] else Option.none
                  else
                    if n < 485 then
                      if n = 483 then some [482] else Option.none
                    else
                      if n = 485 then some [484] else Option.none
                else
                  if n < 489 then
                    if n = 487 then some [486] else Option.none
                  else
                    if n < 491 then
                      if n = 489 then some [488] else Option.none
                    else
                      if n = 491 then some [490] else Option.none
          else
            if n < 517 then
              if n < 505 then
                if n < 498 then
                  if n < 495 then
                    if n = 493 then some [492] else Option.none
                  else
                    if n < 496 then
                      if n = 495 then some [494] else Option.none
                    else
                      if n = 496 then some [74, 780] else Option.none
                else
                  if n < 499 then
                    if n = 498 then some [497] else Option.none
                  else
                    if n < 501 then
                      if n = 499 then some [497] else Option.none
                    else
                      if n = 501 then some [500] else Option.none
              else
                if n < 511 then
                  if n < 507 then
                    if n = 505 then some [504] else Option.none
                  else
                    if n < 509 then
                      if n = 507 then some [506] else Option.none
                    else
                      if n = 509 then some [508] else Option.none
                else
                  if n < 513 then
                    if n = 511 then some [510] else Option.none
                  else
                    if n < 515 then
                      if n = 513 then some [512] else Option.none
                    else
                      if n = 515 then some [514] else Option.none
            else
              if n < 529 then
                if n < 523 then
                  if n < 519 then
                    if n = 517 then some [516] else Option.none
                  else
                    if n < 521 then
                      if n = 519 then some [518] else Option.none
                    else
                      if n = 521 then some [520] else Option.none
                else
                  if n < 525 then
                    if n = 523 then some [522] else Option.none
                  else
                    if n < 527 then
                      if n = 525 then some [524] else Option.none
                    else
                      if n = 527 then some [526] else Option.none
              else
                if n < 535 then
                  if n < 531 then
                    if n = 529 then some [528] else Option.none
                  else
                    if n < 533 then
                      if n = 531 then some [530] else Option.none
                    else
                      if n = 533 then some [532] else Option.none
                else
                  if n < 537 then
                    if n = 535 then some [534] else Option.none
                  else
                    if n < 539 then
                      if n = 537 then some [536] else Option.none
                    else
                      if n = 539 then some [538] else Option.none
    else
      if n < 970 then
        if n < 643 then
          if n < 595 then
            if n < 572 then
              if n < 553 then
                if n < 547 then
                  if n < 543 then
                    if n = 541 then some [540] else Option.none
                  else
                    if n = 543 then some [542] else Option.none
                else
                  if n < 549 then
                    if n = 547 then some [546] else Option.none
                  else
                    if n < 551 then
                      if n = 549 then some [548] else Option.none
                    else
                      if n = 551 then some [550] else Option.none
              else
                if n < 559 then
                  if n < 555 then
                    if n = 553 then some [552] else Option.none
                  else
                    if n < 557 then
                      if n = 555 then some [554] else Option.none
                    else
                      if n = 557 then some [556] else Option.none
                else
                  if n < 561 then
                    if n = 559 then some [558] else Option.none
                  else
                    if n < 563 then
                      if n = 561 then some [560] else Option.none
                    else
                      if n = 563 then some [562] else Option.none
            else
              if n < 587 then
                if n < 578 then
                  if n < 575 then
                    if n = 572 then some [571] else Option.none
                  else
                    if n < 576 then
                      if n = 575 then some [11390] else Option.none
                    else
                      if n = 576 then some [11391] else Option.none
                else
                  if n < 583 then
                    if n = 578 then some [577] else Option.none
                  else
                    if n < 585 then
                      if n = 583 then some [582] else Option.none
                    else
                      if n = 585 then some [584] else Option.none
              else
                if n < 592 then
                  if n < 589 then
                    if n = 587 then some [586] else Option.none
                  else
                    if n < 591 then
                      if n = 589 then some [588] else Option.none
                    else
                      if n = 591 then some [590] else Option.none
                else
                  if n < 593 then
                    if n = 592 then some [11375] else Option.none
                  else
                    if n < 594 then
                      if n = 593 then some [11373] else Option.none
                    else
                      if n = 594 then some [11376] else Option.none
          else
            if n < 616 then
              if n < 604 then
                if n < 599 then
                  if n < 596 then
                    if n = 595 then some [385] else Option.none
                  else
                    if n < 598 then
                      if n = 596 then some [390] else Option.none
                    else
                      if n = 598 then some [393] else Option.none
                else
                  if n < 601 then
                    if n = 599 then some [394] else Option.none
                  else
                    if n < 603 then
                      if n = 601 then some [399] else Option.none
                    else
                      if n = 603 then some [400] else Option.none
              else
                if n < 611 then
                  if n < 608 then
                    if n = 604 then some [42923] else Option.none
                  else
                    if n < 609 then
                      if n = 608 then some [403] else Option.none
                    else
                      if n = 609 then some [42924] else Option.none
                else
                  if n < 613 then
                    if n = 611 then some [404] else Option.none
                  else
                    if n < 614 then
                      if n = 613 then some [42893] else Option.none
                    else
                      if n = 614 then some [42922] else Option.none
            else
              if n < 625 then
                if n < 619 then
                  if n < 617 then
                    if n = 616 then some [407] else Option.none
                  else
                    if n < 618 then
                      if n = 617 then some [406] else Option.none
                    else
                      if n = 618 then some [42926] else Option.none
                else
                  if n < 620 then
                    if n = 619 then some [11362] else Option.none
                  else
                    if n < 623 then
                      if n = 620 then some [42925] else Option.none
                    else
                      if n = 623 then some [412] else Option.none
              else
                if n < 637 then
                  if n < 626 then
                    if n = 625 then some [11374] else Option.none
                  else
                    if n < 629 then
                      if n = 626 then some [413] else Option.none
                    else
                      if n = 629 then some [415] else Option.none
                else
                  if n < 640 then
                    if n = 637 then some [11364] else Option.none
                  else
                    if n < 642 then
                      if n = 640 then some [422] else Option.none
                    else
                      if n = 642 then some [42949] else Option.none
        else
          if n < 946 then
            if n < 883 then
              if n < 652 then
                if n < 649 then
                  if n < 647 then
                    if n = 643 then some [425] else Option.none
                  else
                    if n < 648 then
                      if n = 647 then some [42929] else Option.none
                    else
                      if n = 648 then some [430] else Option.none
                else
                  if n < 650 then
                    if n = 649 then some [580] else Option.none
                  else
                    if n < 651 then
                      if n = 650 then some [433] else Option.none
                    else
                      if n = 651 then some [434] else Option.none
              else
                if n < 670 then
                  if n < 658 then
                    if n = 652 then some [581] else Option.none
                  else
                    if n < 669 then
                      if n = 658 then some [439] else Option.none
                    else
                      if n = 669 then some [42930] else Option.none
                else
                  if n < 837 then
                    if n = 670 then some [42928] else Option.none
                  else
                    if n < 881 then
                      if n = 837 then some [921] else Option.none
                    else
                      if n = 881 then some [880] else Option.none
            else
              if n < 940 then
                if n < 892 then
                  if n < 887 then
                    if n = 883 then some [882] else Option.none
                  else
                    if n < 891 then
                      if n = 887 then some [886] else Option.none
                    else
                      if n = 891 then some [1021] else Option.none
                else
                  if n < 893 then
                    if n = 892 then some [1022] else Option.none
                  else
                    if n < 912 then
                      if n = 893 then some [1023] else Option.none
                    else
                      if n = 912 then some [921, 776, 769] else Option.none
              else
                if n < 943 then
                  if n < 941 then
                    if n = 940 then some [902] else Option.none
                  else
                    if n < 942 then
                      if n = 941 then some [904] else Option.none
                    else
                      if n = 942 then some [905] else Option.none
                else
                  if n < 944 then
                    if n = 943 then some [906] else Option.none
                  else
                    if n < 945 then
                      if n = 944 then some [933, 776, 769] else Option.none
                    else
                      if n = 945 then some [913] else Option.none
          else
            if n < 958 then
              if n < 952 then
                if n < 949 then
                  if n < 947 then
                    if n = 946 then some [914] else Option.none
                  else
                    if n < 948 then
                      if n = 947 then some [915] else Option.none
                    else
                      if n = 948 then some [916] else Option.none
                else
                  if n < 950 then
                    if n = 949 then some [917] else Option.none
                  else
                    if n < 951 then
                      if n = 950 then some [918] else Option.none
                    else
                      if n = 951 then some [919] else Option.none
              else
                if n < 955 then
                  if n < 953 then
                    if n = 952 then some [920] else Option.none
                  else
                    if n < 954 then
                      if n = 953 then some [921] else Option.none
                    else
                      if n = 954 then some [922] else Option.none
                else
                  if n < 956 then
                    if n = 955 then some [923] else Option.none
                  else
                    if n < 957 then
                      if n = 956 then some [924] else Option.none
                    else
                      if n = 957 then some [925] else Option.none
            else
              if n < 964 then
                if n < 961 then
                  if n < 959 then
                    if n = 958 then some [926] else Option.none
                  else
                    if n < 960 then
                      if n = 959 then some [927] else Option.none
                    else
                      if n = 960 then some [928] else Option.none
                else
                  if n < 962 then
                    if n = 961 then some [929] else Option.none
                  else
                    if n < 963 then
                      if n = 962 then some [931] else Option.none
                    else
                      if n = 963 then some [931] else Option.none
              else
                if n < 967 then
                  if n < 965 then
                    if n = 964 then some [932] else Option.none
                  else
                    if n < 966 then
                      if n = 965 then some [933] else Option.none
                    else
                      if n = 966 then some [934] else Option.none
                else
                  if n < 968 then
                    if n = 967 then some [935] else Option.none
                  else
                    if n < 969 then
                      if n = 968 then some [936] else Option.none
                    else
                      if n = 969 then some [937] else Option.none
      else
        if n < 1091 then
          if n < 1010 then
            if n < 989 then
              if n < 977 then
                if n < 973 then
                  if n < 971 then
                    if n = 970 then some [938] else Option.none
                  else
                    if n < 972 then
                      if n = 971 then some [939] else Option.none
                    else
                      if n = 972 then some [908] else Option.none
                else
                  if n < 974 then
                    if n = 973 then some [910] else Option.none
                  else
                    if n < 976 then
                      if n = 974 then some [911] else Option.none
                    else
                      if n = 976 then some [914] else Option.none
              else
                if n < 983 then
                  if n < 981 then
                    if n = 977 then some [920] else Option.none
                  else
                    if n < 982 then
                      if n = 981 then some [934] else Option.none
                    else
                      if n = 982 then some [928] else Option.none
                else
                  if n < 985 then
                    if n = 983 then some [975] else Option.none
                  else
                    if n < 987 then
                      if n = 985 then some [984] else Option.none
                    else
                      if n = 987 then some [986] else Option.none
            else
              if n < 1001 then
                if n < 995 then
                  if n < 991 then
                    if n = 989 then some [988] else Option.none
                  else
                    if n < 993 then
                      if n = 991 then some [990] else Option.none
                    else
                      if n = 993 then some [992] else Option.none
                else
                  if n < 997 then
                    if n = 995 then some [994] else Option.none
                  else
                    if n < 999 then
                      if n = 997 then some [996] else Option.none
                    else
                      if n = 999 then some [998] else Option.none
              else
                if n < 1007 then
                  if n < 1003 then
                    if n = 1001 then some [1000] else Option.none
                  else
                    if n < 1005 then
                      if n = 1003 then some [1002] else Option.none
                    else
                      if n = 1005 then some [1004] else Option.none
                else
                  if n < 1008 then
                    if n = 1007 then some [1006] else Option.none
                  else
                    if n < 1009 then
                      if n = 1008 then some [922] else Option.none
                    else
                      if n = 1009 then some [929] else Option.none
          else
            if n < 1079 then
              if n < 1073 then
                if n < 1016 then
                  if n < 1011 then
                    if n = 1010 then some [1017] else Option.none
                  else
                    if n < 1013 then
                      if n = 1011 then some [895] else Option.none
                    else
                      if n = 1013 then some [917] else Option.none
                else
                  if n < 1019 then
                    if n = 1016 then some [1015] else Option.none
                  else
                    if n < 1072 then
                      if n = 1019 then some [1018] else Option.none
                    else
                      if n = 1072 then some [1040] else Option.none
              else
                if n < 1076 then
                  if n < 1074 then
                    if n = 1073 then some [1041] else Option.none
                  else
                    if n < 1075 then
                      if n = 1074 then some [1042] else Option.none
                    else
                      if n = 1075 then some [1043] else Option.none
                else
                  if n < 1077 then
                    if n = 1076 then some [1044] else Option.none
                  else
                    if n < 1078 then
                      if n = 1077 then some [1045] else Option.none
                    else
                      if n = 1078 then some [1046] else Option.none
            else
              if n < 1085 then
                if n < 1082 then
                  if n < 1080 then
                    if n = 1079 then some [1047] else Option.none
                  else
                    if n < 1081 then
                      if n = 1080 then some [1048] else Option.none
                    else
                      if n = 1081 then some [1049] else Option.none
                else
                  if n < 1083 then
                    if n = 1082 then some [1050] else Option.none
                  else
                    if n < 1084 then
                      if n = 1083 then some [1051] else Option.none
                    else
                      if n = 1084 then some [1052] else Option.none
              else
                if n < 1088 then
                  if n < 1086 then
                    if n = 1085 then some [1053] else Option.none
                  else
                    if n < 1087 then
                      if n = 1086 then some [1054] else Option.none
                    else
                      if n = 1087 then some [1055] else Option.none
                else
                  if n < 1089 then
                    if n = 1088 then some [1056] else Option.none
                  else
                    if n < 1090 then
                      if n = 1089 then some [1057] else Option.none
                    else
                      if n = 1090 then some [1058] else Option.none
        else
          if n < 1115 then
            if n < 1103 then
              if n < 1097 then
                if n < 1094 then
                  if n < 1092 then
                    if n = 1091 then some [1059] else Option.none
                  else
                    if n < 1093 then
                      if n = 1092 then some [1060] else Option.none
                    else
                      if n = 1093 then some [1061] else Option.none
                else
                  if n < 1095 then
                    if n = 1094 then some [1062] else Option.none
                  else
                    if n < 1096 then
                      if n = 1095 then some [1063] else Option.none
                    else
                      if n = 1096 then some [1064] else Option.none
              else
                if n < 1100 then
                  if n < 1098 then
                    if n = 1097 then some [1065] else Option.none
                  else
                    if n < 1099 then
                      if n = 1098 then some [1066] else Option.none
                    else
                      if n = 1099 then some [1067] else Option.none
                else
                  if n < 1101 then
                    if n = 1100 then some [1068] else Option.none
                  else
                    if n < 1102 then
                      if n = 1101 then some [1069] else Option.none
                    else
                      if n = 1102 then some [1070] else Option.none
            else
              if n < 1109 then
                if n < 1106 then
                  if n < 1104 then
                    if n = 1103 then some [1071] else Option.none
                  else
                    if n < 1105 then
                      if n = 1104 then some [1024] else Option.none
                    else
                      if n = 1105 then some [1025] else Option.none
                else
                  if n < 1107 then
                    if n = 1106 then some [1026] else Option.none
                  else
                    if n < 1108 then
                      if n = 1107 then some [1027] else Option.none
                    else
                      if n = 1108 then some [1028] else Option.none
              else
                if n < 1112 then
                  if n < 1110 then
                    if n = 1109 then some [1029] else Option.none
                  else
                    if n < 1111 then
                      if n = 1110 then some [1030] else Option.none
                    else
                      if n = 1111 then some [1031] else Option.none
                else
                  if n < 1113 then
                    if n = 1112 then some [1032] else Option.none
                  else
                    if n < 1114 then
                      if n = 1113 then some [1033] else Option.none
                    else
                      if n = 1114 then some [1034] else Option.none
          else
            if n < 1135 then
              if n < 1123 then
                if n < 1118 then
                  if n < 1116 then
                    if n = 1115 then some [1035] else Option.none
                  else
                    if n < 1117 then
                      if n = 1116 then some [1036] else Option.none
                    else
                      if n = 1117 then some [1037] else Option.none
                else
                  if n < 1119 then
                    if n = 1118 then some [1038] else Option.none
                  else
                    if n < 1121 then
                      if n = 1119 then some [1039] else Option.none
                    else
                      if n = 1121 then some [1120] else Option.none
              else
                if n < 1129 then
                  if n < 1125 then
                    if n = 1123 then some [1122] else Option.none
                  else
                    if n < 1127 then
                      if n = 1125 then some [1124] else Option.none
                    else
                      if n = 1127 then some [1126] else Option.none
                else
                  if n < 1131 then
                    if n = 1129 then some [1128] else Option.none
                  else
                    if n < 1133 then
                      if n = 1131 then some [1130] else Option.none
                    else
                      if n = 1133 then some [1132] else Option.none
            else
              if n < 1147 then
                if n < 1141 then
                  if n < 1137 then
                    if n = 1135 then some [1134] else Option.none
                  else
                    if n < 1139 then
                      if n = 1137 then some [1136] else Option.none
                    else
                      if n = 1139 then some [1138] else Option.none
                else
                  if n < 1143 then
                    if n = 1141 then some [1140] else Option.none
                  else
                    if n < 1145 then
                      if n = 1143 then some [1142] else Option.none
                    else
                      if n = 1145 then some [1144] else Option.none
              else
                if n < 1153 then
                  if n < 1149 then
                    if n = 1147 then some [1146] else Option.none
                  else
                    if n < 1151 then
                      if n = 1149 then some [1148] else Option.none
                    else
                      if n = 1151 then some [1150] else Option.none
                else
                  if n < 1163 then
                    if n = 1153 then some [1152] else Option.none
                  else
                    if n < 1165 then
                      if n = 1163 then some [1162] else Option.none
                    else
                      if n = 1165 then some [1164] else Option.none
  else
    if n < 7693 then
      if n < 1391 then
        if n < 1261 then
          if n < 1213 then
            if n < 1189 then
              if n < 1177 then
                if n < 1171 then
                  if n < 1169 then
                    if n = 1167 then some [1166] else Option.none
                  else
                    if n = 1169 then some [1168] else Option.none
                else
                  if n < 1173 then
                    if n = 1171 then some [1170] else Option.none
                  else
                    if n < 1175 then
                      if n = 1173 then some [1172] else Option.none
                    else
                      if n = 1175 then some [1174] else Option.none
              else
                if n < 1183 then
                  if n < 1179 then
                    if n = 1177 then some [1176] else Option.none
                  else
                    if n < 1181 then
                      if n = 1179 then some [1178] else Option.none
                    else
                      if n = 1181 then some [1180] else Option.none
                else
                  if n < 1185 then
                    if n = 1183 then some [1182] else Option.none
                  else
                    if n < 1187 then
                      if n = 1185 then some [1184] else Option.none
                    else
                      if n = 1187 then some [1186] else Option.none
            else
              if n < 1201 then
                if n < 1195 then
                  if n < 1191 then
                    if n = 1189 then some [1188] else Option.none
                  else
                    if n < 1193 then
                      if n = 1191 then some [1190] else Option.none
                    else
                      if n = 1193 then some [1192] else Option.none
                else
                  if n < 1197 then
                    if n = 1195 then some [1194] else Option.none
                  else
                    if n < 1199 then
                      if n = 1197 then some [1196] else Option.none
                    else
                      if n = 1199 then some [1198] else Option.none
              else
                if n < 1207 then
                  if n < 1203 then
                    if n = 1201 then some [1200] else Option.none
                  else
                    if n < 1205 then
                      if n = 1203 then some [1202] else Option.none
                    else
                      if n = 1205 then some [1204] else Option.none
                else
                  if n < 1209 then
                    if n = 1207 then some [1206] else Option.none
                  else
                    if n < 1211 then
                      if n = 1209 then some [1208] else Option.none
                    else
                      if n = 1211 then some [1210] else Option.none
          else
            if n < 1237 then
              if n < 1226 then
                if n < 1220 then
                  if n < 1215 then
                    if n = 1213 then some [1212] else Option.none
                  else
                    if n < 1218 then
                      if n = 1215 then some [1214] else Option.none
                    else
                      if n = 1218 then some [1217] else Option.none
                else
                  if n < 1222 then
                    if n = 1220 then some [1219] else Option.none
                  else
                    if n < 1224 then
                      if n = 1222 then some [1221] else Option.none
                    else
                      if n = 1224 then some [1223] else Option.none
              else
                if n < 1231 then
                  if n < 1228 then
                    if n = 1226 then some [1225] else Option.none
                  else
                    if n < 1230 then
                      if n = 1228 then some [1227] else Option.none
                    else
                      if n = 1230 then some [1229] else Option.none
                else
                  if n < 1233 then
                    if n = 1231 then some [1216] else Option.none
                  else
                    if n < 1235 then
                      if n = 1233 then some [1232] else Option.none
                    else
                      if n = 1235 then some [1234] else Option.none
            else
              if n < 1249 then
                if n < 1243 then
                  if n < 1239 then
                    if n = 1237 then some [1236] else Option.none
                  else
                    if n < 1241 then
                      if n = 1239 then some [1238] else Option.none
                    else
                      if n = 1241 then some [1240] else Option.none
                else
                  if n < 1245 then
                    if n = 1243 then some [1242] else Option.none
                  else
                    if n < 1247 then
                      if n = 1245 then some [1244] else Option.none
                    else
                      if n = 1247 then some [1246] else Option.none
              else
                if n < 1255 then
                  if n < 1251 then
                    if n = 1249 then some [1248] else Option.none
                  else
                    if n < 1253 then
                      if n = 1251 then some [1250] else Option.none
                    else
                      if n = 1253 then some [1252] else Option.none
                else
                  if n < 1257 then
                    if n = 1255 then some [1254] else Option.none
                  else
                    if n < 1259 then
                      if n = 1257 then some [1256] else Option.none
                    else
                      if n = 1259 then some [1258] else Option.none
        else
          if n < 1309 then
            if n < 1285 then
              if n < 1273 then
                if n < 1267 then
                  if n < 1263 then
                    if n = 1261 then some [1260] else Option.none
                  else
                    if n < 1265 then
                      if n = 1263 then some [1262] else Option.none
                    else
                      if n = 1265 then some [1264] else Option.none
                else
                  if n < 1269 then
                    if n = 1267 then some [1266] else Option.none
                  else
                    if n < 1271 then
                      if n = 1269 then some [1268] else Option.none
                    else
                      if n = 1271 then some [1270] else Option.none
              else
                if n < 1279 then
                  if n < 1275 then
                    if n = 1273 then some [1272] else Option.none
                  else
                    if n < 1277 then
                      if n = 1275 then some [1274] else Option.none
                    else
                      if n = 1277 then some [1276] else Option.none
                else
                  if n < 1281 then
                    if n = 1279 then some [1278] else Option.none
                  else
                    if n < 1283 then
                      if n = 1281 then some [1280] else Option.none
                    else
                      if n = 1283 then some [1282] else Option.none
            else
              if n < 1297 then
                if n < 1291 then
                  if n < 1287 then
                    if n = 1285 then some [1284] else Option.none
                  else
                    if n < 1289 then
                      if n = 1287 then some [1286] else Option.none
                    else
                      if n = 1289 then some [1288] else Option.none
                else
                  if n < 1293 then
                    if n = 1291 then some [1290] else Option.none
                  else
                    if n < 1295 then
                      if n = 1293 then some [1292] else Option.none
                    else
                      if n = 1295 then some [1294] else Option.none
              else
                if n < 1303 then
                  if n < 1299 then
                    if n = 1297 then some [1296] else Option.none
                  else
                    if n < 1301 then
                      if n = 1299 then some [1298] else Option.none
                    else
                      if n = 1301 then some [1300] else Option.none
                else
                  if n < 1305 then
                    if n = 1303 then some [1302] else Option.none
                  else
                    if n < 1307 then
                      if n = 1305 then some [1304] else Option.none
                    else
                      if n = 1307 then some [1306] else Option.none
          else
            if n < 1379 then
              if n < 1321 then
                if n < 1315 then
                  if n < 1311 then
                    if n = 1309 then some [1308] else Option.none
                  else
                    if n < 1313 then
                      if n = 1311 then some [1310] else Option.none
                    else
                      if n = 1313 then some [1312] else Option.none
                else
                  if n < 1317 then
                    if n = 1315 then some [1314] else Option.none
                  else
                    if n < 1319 then
                      if n = 1317 then some [1316] else Option.none
                    else
                      if n = 1319 then some [1318] else Option.none
              else
                if n < 1327 then
                  if n < 1323 then
                    if n = 1321 then some [1320] else Option.none
                  else
                    if n < 1325 then
                      if n = 1323 then some [1322] else Option.none
                    else
                      if n = 1325 then some [1324] else Option.none
                else
                  if n < 1377 then
                    if n = 1327 then some [1326] else Option.none
                  else
                    if n < 1378 then
                      if n = 1377 then some [1329] else Option.none
                    else
                      if n = 1378 then some [1330] else Option.none
            else
              if n < 1385 then
                if n < 1382 then
                  if n < 1380 then
                    if n = 1379 then some [1331] else Option.none
                  else
                    if n < 1381 then
                      if n = 1380 then some [1332] else Option.none
                    else
                      if n = 1381 then some [1333] else Option.none
                else
                  if n < 1383 then
                    if n = 1382 then some [1334] else Option.none
                  else
                    if n < 1384 then
                      if n = 1383 then some [1335] else Option.none
                    else
                      if n = 1384 then some [1336] else Option.none
              else
                if n < 1388 then
                  if n < 1386 then
                    if n = 1385 then some [1337] else Option.none
                  else
                    if n < 1387 then
                      if n = 1386 then some [1338] else Option.none
                    else
                      if n = 1387 then some [1339] else Option.none
                else
                  if n < 1389 then
                    if n = 1388 then some [1340] else Option.none
                  else
                    if n < 1390 then
                      if n = 1389 then some [1341] else Option.none
                    else
                      if n = 1390 then some [1342] else Option.none
      else
        if n < 4326 then
          if n < 1414 then
            if n < 1402 then
              if n < 1396 then
                if n < 1393 then
                  if n < 1392 then
                    if n = 1391 then some [1343] else Option.none
                  else
                    if n = 1392 then some [1344] else Option.none
                else
                  if n < 1394 then
                    if n = 1393 then some [1345] else Option.none
                  else
                    if n < 1395 then
                      if n = 1394 then some [1346] else Option.none
                    else
                      if n = 1395 then some [1347] else Option.none
              else
                if n < 1399 then
                  if n < 1397 then
                    if n = 1396 then some [1348] else Option.none
                  else
                    if n < 1398 then
                      if n = 1397 then some [1349] else Option.none
                    else
                      if n = 1398 then some [1350] else Option.none
                else
                  if n < 1400 then
                    if n = 1399 then some [1351] else Option.none
                  else
                    if n < 1401 then
                      if n = 1400 then some [1352] else Option.none
                    else
                      if n = 1401 then some [1353] else Option.none
            else
              if n < 1408 then
                if n < 1405 then
                  if n < 1403 then
                    if n = 1402 then some [1354] else Option.none
                  else
                    if n < 1404 then
                      if n = 1403 then some [1355] else Option.none
                    else
                      if n = 1404 then some [1356] else Option.none
                else
                  if n < 1406 then
                    if n = 1405 then some [1357] else Option.none
                  else
                    if n < 1407 then
                      if n = 1406 then some [1358] else Option.none
                    else
                      if n = 1407 then some [1359] else Option.none
              else
                if n < 1411 then
                  if n < 1409 then
                    if n = 1408 then some [1360] else Option.none
                  else
                    if n < 1410 then
                      if n = 1409 then some [1361] else Option.none
                    else
                      if n = 1410 then some [1362] else Option.none
                else
                  if n < 1412 then
                    if n = 1411 then some [1363] else Option.none
                  else
                    if n < 1413 then
                      if n = 1412 then some [1364] else Option.none
                    else
                      if n = 1413 then some [1365] else Option.none
          else
            if n < 4314 then
              if n < 4308 then
                if n < 4305 then
                  if n < 1415 then
                    if n = 1414 then some [1366] else Option.none
                  else
                    if n < 4304 then
                      if n = 1415 then some [1333, 1362] else Option.none
                    else
                      if n = 4304 then some [7312] else Option.none
                else
                  if n < 4306 then
                    if n = 4305 then some [7313] else Option.none
                  else
                    if n < 4307 then
                      if n = 4306 then some [7314] else Option.none
                    else
                      if n = 4307 then some [7315] else Option.none
              else
                if n < 4311 then
                  if n < 4309 then
                    if n = 4308 then some [7316] else Option.none
                  else
                    if n < 4310 then
                      if n = 4309 then some [7317] else Option.none
                    else
                      if n = 4310 then some [7318] else Option.none
                else
                  if n < 4312 then
                    if n = 4311 then some [7319] else Option.none
                  else
                    if n < 4313 then
                      if n = 4312 then some [7320] else Option.none
                    else
                      if n = 4313 then some [7321] else Option.none
            else
              if n < 4320 then
                if n < 4317 then
                  if n < 4315 then
                    if n = 4314 then some [7322] else Option.none
                  else
                    if n < 4316 then
                      if n = 4315 then some [7323] else Option.none
                    else
                      if n = 4316 then some [7324] else Option.none
                else
                  if n < 4318 then
                    if n = 4317 then some [7325] else Option.none
                  else
                    if n < 4319 then
                      if n = 4318 then some [7326] else Option.none
                    else
                      if n = 4319 then some [7327] else Option.none
              else
                if n < 4323 then
                  if n < 4321 then
                    if n = 4320 then some [7328] else Option.none
                  else
                    if n < 4322 then
                      if n = 4321 then some [7329] else Option.none
                    else
                      if n = 4322 then some [7330] else Option.none
                else
                  if n < 4324 then
                    if n = 4323 then some [7331] else Option.none
                  else
                    if n < 4325 then
                      if n = 4324 then some [7332] else Option.none
                    else
                      if n = 4325 then some [7333] else Option.none
        else
          if n < 5112 then
            if n < 4338 then
              if n < 4332 then
                if n < 4329 then
                  if n < 4327 then
                    if n = 4326 then some [7334] else Option.none
                  else
                    if n < 4328 then
                      if n = 4327 then some [7335] else Option.none
                    else
                      if n = 4328 then some [7336] else Option.none
                else
                  if n < 4330 then
                    if n = 4329 then some [7337] else Option.none
                  else
                    if n < 4331 then
                      if n = 4330 then some [7338] else Option.none
                    else
                      if n = 4331 then some [7339] else Option.none
              else
                if n < 4335 then
                  if n < 4333 then
                    if n = 4332 then some [7340] else Option.none
                  else
                    if n < 4334 then
                      if n = 4333 then some [7341] else Option.none
                    else
                      if n = 4334 then some [7342] else Option.none
                else
                  if n < 4336 then
                    if n = 4335 then some [7343] else Option.none
                  else
                    if n < 4337 then
                      if n = 4336 then some [7344] else Option.none
                    else
                      if n = 4337 then some [7345] else Option.none
            else
              if n < 4344 then
                if n < 4341 then
                  if n < 4339 then
                    if n = 4338 then some [7346] else Option.none
                  else
                    if n < 4340 then
                      if n = 4339 then some [7347] else Option.none
                    else
                      if n = 4340 then some [7348] else Option.none
                else
                  if n < 4342 then
                    if n = 4341 then some [7349] else Option.none
                  else
                    if n < 4343 then
                      if n = 4342 then some [7350] else Option.none
                    else
                      if n = 4343 then some [7351] else Option.none
              else
                if n < 4349 then
                  if n < 4345 then
                    if n = 4344 then some [7352] else Option.none
                  else
                    if n < 4346 then
                      if n = 4345 then some [7353] else Option.none
                    else
                      if n = 4346 then some [7354] else Option.none
                else
                  if n < 4350 then
                    if n = 4349 then some [7357] else Option.none
                  else
                    if n < 4351 then
                      if n = 4350 then some [7358] else Option.none
                    else
                      if n = 4351 then some [7359] else Option.none
          else
            if n < 7302 then
              if n < 7296 then
                if n < 5115 then
                  if n < 5113 then
                    if n = 5112 then some [5104] else Option.none
                  else
                    if n < 5114 then
                      if n = 5113 then some [5105] else Option.none
                    else
                      if n = 5114 then some [5106] else Option.none
                else
                  if n < 5116 then
                    if n = 5115 then some [5107] else Option.none
                  else
                    if n < 5117 then
                      if n = 5116 then some [5108] else Option.none
                    else
                      if n = 5117 then some [5109] else Option.none
              else
                if n < 7299 then
                  if n < 7297 then
                    if n = 7296 then some [1042] else Option.none
                  else
                    if n < 7298 then
                      if n = 7297 then some [1044] else Option.none
                    else
                      if n = 7298 then some [1054] else Option.none
                else
                  if n < 7300 then
                    if n = 7299 then some [1057] else Option.none
                  else
                    if n < 7301 then
                      if n = 7300 then some [1058] else Option.none
                    else
                      if n = 7301 then some [1058] else Option.none
            else
              if n < 7681 then
                if n < 7545 then
                  if n < 7303 then
                    if n = 7302 then some [1066] else Option.none
                  else
                    if n < 7304 then
                      if n = 7303 then some [1122] else Option.none
                    else
                      if n = 7304 then some [42570] else Option.none
                else
                  if n < 7549 then
                    if n = 7545 then some [42877] else Option.none
                  else
                    if n < 7566 then
                      if n = 7549 then some [11363] else Option.none
                    else
                      if n = 7566 then some [42950] else Option.none
              else
                if n < 7687 then
                  if n < 7683 then
                    if n = 7681 then some [7680] else Option.none
                  else
                    if n < 7685 then
                      if n = 7683 then some [7682] else Option.none
                    else
                      if n = 7685 then some [7684] else Option.none
                else
                  if n < 7689 then
                    if n = 7687 then some [7686] else Option.none
                  else
                    if n < 7691 then
                      if n = 7689 then some [7688] else Option.none
                    else
                      if n = 7691 then some [7690] else Option.none
    else
      if n < 7881 then
        if n < 7787 then
          if n < 7739 then
            if n < 7715 then
              if n < 7703 then
                if n < 7697 then
                  if n < 7695 then
                    if n = 7693 then some [7692] else Option.none
                  else
                    if n = 7695 then some [7694] else Option.none
                else
                  if n < 7699 then
                    if n = 7697 then some [7696] else Option.none
                  else
                    if n < 7701 then
                      if n = 7699 then some [7698] else Option.none
                    else
                      if n = 7701 then some [7700] else Option.none
              else
                if n < 7709 then
                  if n < 7705 then
                    if n = 7703 then some [7702] else Option.none
                  else
                    if n < 7707 then
                      if n = 7705 then some [7704] else Option.none
                    else
                      if n = 7707 then some [7706] else Option.none
                else
                  if n < 7711 then
                    if n = 7709 then some [7708] else Option.none
                  else
                    if n < 7713 then
                      if n = 7711 then some [7710] else Option.none
                    else
                      if n = 7713 then some [7712] else Option.none
            else
              if n < 7727 then
                if n < 7721 then
                  if n < 7717 then
                    if n = 7715 then some [7714] else Option.none
                  else
                    if n < 7719 then
                      if n = 7717 then some [7716] else Option.none
                    else
                      if n = 7719 then some [7718] else Option.none
                else
                  if n < 7723 then
                    if n = 7721 then some [7720] else Option.none
                  else
                    if n < 7725 then
                      if n = 7723 then some [7722] else Option.none
                    else
                      if n = 7725 then some [7724] else Option.none
              else
                if n < 7733 then
                  if n < 7729 then
                    if n = 7727 then some [7726] else Option.none
                  else
                    if n < 7731 then
                      if n = 7729 then some [7728] else Option.none
                    else
                      if n = 7731 then some [7730] else Option.none
                else
                  if n < 7735 then
                    if n = 7733 then some [7732] else Option.none
                  else
                    if n < 7737 then
                      if n = 7735 then some [7734] else Option.none
                    else
                      if n = 7737 then some [7736] else Option.none
          else
            if n < 7763 then
              if n < 7751 then
                if n < 7745 then
                  if n < 7741 then
                    if n = 7739 then some [7738] else Option.none
                  else
                    if n < 7743 then
                      if n = 7741 then some [7740] else Option.none
                    else
                      if n = 7743 then some [7742] else Option.none
                else
                  if n < 7747 then
                    if n = 7745 then some [7744] else Option.none
                  else
                    if n < 7749 then
                      if n = 7747 then some [7746] else Option.none
                    else
                      if n = 7749 then some [7748] else Option.none
              else
                if n < 7757 then
                  if n < 7753 then
                    if n = 7751 then some [7750] else Option.none
                  else
                    if n < 7755 then
                      if n = 7753 then some [7752] else Option.none
                    else
                      if n = 7755 then some [7754] else Option.none
                else
                  if n < 7759 then
                    if n = 7757 then some [7756] else Option.none
                  else
                    if n < 7761 then
                      if n = 7759 then some [7758] else Option.none
                    else
                      if n = 7761 then some [7760] else Option.none
            else
              if n < 7775 then
                if n < 7769 then
                  if n < 7765 then
                    if n = 7763 then some [7762] else Option.none
                  else
                    if n < 7767 then
                      if n = 7765 then some [7764] else Option.none
                    else
                      if n = 7767 then some [7766] else Option.none
                else
                  if n < 7771 then
                    if n = 7769 then some [7768] else Option.none
                  else
                    if n < 7773 then
                      if n = 7771 then some [7770] else Option.none
                    else
                      if n = 7773 then some [7772] else Option.none
              else
                if n < 7781 then
                  if n < 7777 then
                    if n = 7775 then some [7774] else Option.none
                  else
                    if n < 7779 then
                      if n = 7777 then some [7776] else Option.none
                    else
                      if n = 7779 then some [7778] else Option.none
                else
                  if n < 7783 then
                    if n = 7781 then some [7780] else Option.none
                  else
                    if n < 7785 then
                      if n = 7783 then some [7782] else Option.none
                    else
                      if n = 7785 then some [7784] else Option.none
        else
          if n < 7832 then
            if n < 7811 then
              if n < 7799 then
                if n < 7793 then
                  if n < 7789 then
                    if n = 7787 then some [7786] else Option.none
                  else
                    if n < 7791 then
                      if n = 7789 then some [7788] else Option.none
                    else
                      if n = 7791 then some [7790] else Option.none
                else
                  if n < 7795 then
                    if n = 7793 then some [7792] else Option.none
                  else
                    if n < 7797 then
                      if n = 7795 then some [7794] else Option.none
                    else
                      if n = 7797 then some [7796] else Option.none
              else
                if n < 7805 then
                  if n < 7801 then
                    if n = 7799 then some [7798] else Option.none
                  else
                    if n < 7803 then
                      if n = 7801 then some [7800] else Option.none
                    else
                      if n = 7803 then some [7802] else Option.none
                else
                  if n < 7807 then
                    if n = 7805 then some [7804] else Option.none
                  else
                    if n < 7809 then
                      if n = 7807 then some [7806] else Option.none
                    else
                      if n = 7809 then some [7808] else Option.none
            else
              if n < 7823 then
                if n < 7817 then
                  if n < 7813 then
                    if n = 7811 then some [7810] else Option.none
                  else
                    if n < 7815 then
                      if n = 7813 then some [7812] else Option.none
                    else
                      if n = 7815 then some [7814] else Option.none
                else
                  if n < 7819 then
                    if n = 7817 then some [7816] else Option.none
                  else
                    if n < 7821 then
                      if n = 7819 then some [7818] else Option.none
                    else
                      if n = 7821 then some [7820] else Option.none
              else
                if n < 7829 then
                  if n < 7825 then
                    if n = 7823 then some [7822] else Option.none
                  else
                    if n < 7827 then
                      if n = 7825 then some [7824] else Option.none
                    else
                      if n = 7827 then some [7826] else Option.none
                else
                  if n < 7830 then
                    if n = 7829 then some [7828] else Option.none
                  else
                    if n < 7831 then
                      if n = 7830 then some [72, 817] else Option.none
                    else
                      if n = 7831 then some [84, 776] else Option.none
          else
            if n < 7857 then
              if n < 7845 then
                if n < 7835 then
                  if n < 7833 then
                    if n = 7832 then some [87, 778] else Option.none
                  else
                    if n < 7834 then
                      if n = 7833 then some [89, 778] else Option.none
                    else
                      if n = 7834 then some [65, 702] else Option.none
                else
                  if n < 7841 then
                    if n = 7835 then some [7776] else Option.none
                  else
                    if n < 7843 then
                      if n = 7841 then some [7840] else Option.none
                    else
                      if n = 7843 then some [7842] else Option.none
              else
                if n < 7851 then
                  if n < 7847 then
                    if n = 7845 then some [7844] else Option.none
                  else
                    if n < 7849 then
                      if n = 7847 then some [7846] else Option.none
                    else
                      if n = 7849 then some [7848] else Option.none
                else
                  if n < 7853 then
                    if n = 7851 then some [7850] else Option.none
                  else
                    if n < 7855 then
                      if n = 7853 then some [7852] else Option.none
                    else
                      if n = 7855 then some [7854] else Option.none
            else
              if n < 7869 then
                if n < 7863 then
                  if n < 7859 then
                    if n = 7857 then some [7856] else Option.none
                  else
                    if n < 7861 then
                      if n = 7859 then some [7858] else Option.none
                    else
                      if n = 7861 then some [7860] else Option.none
                else
                  if n < 7865 then
                    if n = 7863 then some [7862] else Option.none
                  else
                    if n < 7867 then
                      if n = 7865 then some [7864] else Option.none
                    else
                      if n = 7867 then some [7866] else Option.none
              else
                if n < 7875 then
                  if n < 7871 then
                    if n = 7869 then some [7868] else Option.none
                  else
                    if n < 7873 then
                      if n = 7871 then some [7870] else Option.none
                    else
                      if n = 7873 then some [7872] else Option.none
                else
                  if n < 7877 then
                    if n = 7875 then some [7874] else Option.none
                  else
                    if n < 7879 then
                      if n = 7877 then some [7876] else Option.none
                    else
                      if n = 7879 then some [7878] else Option.none
      else
        if n < 7974 then
          if n < 7929 then
            if n < 7905 then
              if n < 7893 then
                if n < 7887 then
                  if n < 7883 then
                    if n = 7881 then some [7880] else Option.none
                  else
                    if n < 7885 then
                      if n = 7883 then some [7882] else Option.none
                    else
                      if n = 7885 then some [7884] else Option.none
                else
                  if n < 7889 then
                    if n = 7887 then some [7886] else Option.none
                  else
                    if n < 7891 then
                      if n = 7889 then some [7888] else Option.none
                    else
                      if n = 7891 then some [7890] else Option.none
              else
                if n < 7899 then
                  if n < 7895 then
                    if n = 7893 then some [7892] else Option.none
                  else
                    if n < 7897 then
                      if n = 7895 then some [7894] else Option.none
                    else
                      if n = 7897 then some [7896] else Option.none
                else
                  if n < 7901 then
                    if n = 7899 then some [7898] else Option.none
                  else
                    if n < 7903 then
                      if n = 7901 then some [7900] else Option.none
                    else
                      if n = 7903 then some [7902] else Option.none
            else
              if n < 7917 then
                if n < 7911 then
                  if n < 7907 then
                    if n = 7905 then some [7904] else Option.none
                  else
                    if n < 7909 then
                      if n = 7907 then some [7906] else Option.none
                    else
                      if n = 7909 then some [7908] else Option.none
                else
                  if n < 7913 then
                    if n = 7911 then some [7910] else Option.none
                  else
                    if n < 7915 then
                      if n = 7913 then some [7912] else Option.none
                    else
                      if n = 7915 then some [7914] else Option.none
              else
                if n < 7923 then
                  if n < 7919 then
                    if n = 7917 then some [7916] else Option.none
                  else
                    if n < 7921 then
                      if n = 7919 then some [7918] else Option.none
                    else
                      if n = 7921 then some [7920] else Option.none
                else
                  if n < 7925 then
                    if n = 7923 then some [7922] else Option.none
                  else
                    if n < 7927 then
                      if n = 7925 then some [7924] else Option.none
                    else
                      if n = 7927 then some [7926] else Option.none
          else
            if n < 7952 then
              if n < 7938 then
                if n < 7935 then
                  if n < 7931 then
                    if n = 7929 then some [7928] else Option.none
                  else
                    if n < 7933 then
                      if n = 7931 then some [7930] else Option.none
                    else
                      if n = 7933 then some [7932] else Option.none
                else
                  if n < 7936 then
                    if n = 7935 then some [7934] else Option.none
                  else
                    if n < 7937 then
                      if n = 7936 then some [7944] else Option.none
                    else
                      if n = 7937 then some [7945] else Option.none
              else
                if n < 7941 then
                  if n < 7939 then
                    if n = 7938 then some [7946] else Option.none
                  else
                    if n < 7940 then
                      if n = 7939 then some [7947] else Option.none
                    else
                      if n = 7940 then some [7948] else Option.none
                else
                  if n < 7942 then
                    if n = 7941 then some [7949] else Option.none
                  else
                    if n < 7943 then
                      if n = 7942 then some [7950] else Option.none
                    else
                      if n = 7943 then some [7951] else Option.none
            else
              if n < 7968 then
                if n < 7955 then
                  if n < 7953 then
                    if n = 7952 then some [7960] else Option.none
                  else
                    if n < 7954 then
                      if n = 7953 then some [7961] else Option.none
                    else
                      if n = 7954 then some [7962] else Option.none
                else
                  if n < 7956 then
                    if n = 7955 then some [7963] else Option.none
                  else
                    if n < 7957 then
                      if n = 7956 then some [7964] else Option.none
                    else
                      if n = 7957 then some [7965] else Option.none
              else
                if n < 7971 then
                  if n < 7969 then
                    if n = 7968 then some [7976] else Option.none
                  else
                    if n < 7970 then
                      if n = 7969 then some [7977] else Option.none
                    else
                      if n = 7970 then some [7978] else Option.none
                else
                  if n < 7972 then
                    if n = 7971 then some [7979] else Option.none
                  else
                    if n < 7973 then
                      if n = 7972 then some [7980] else Option.none
                    else
                      if n = 7973 then some [7981] else Option.none
        else
          if n < 8032 then
            if n < 8002 then
              if n < 7988 then
                if n < 7985 then
                  if n < 7975 then
                    if n = 7974 then some [7982] else Option.none
                  else
                    if n < 7984 then
                      if n = 7975 then some [7983] else Option.none
                    else
                      if n = 7984 then some [7992] else Option.none
                else
                  if n < 7986 then
                    if n = 7985 then some [7993] else Option.none
                  else
                    if n < 7987 then
                      if n = 7986 then some [7994] else Option.none
                    else
                      if n = 7987 then some [7995] else Option.none
              else
                if n < 7991 then
                  if n < 7989 then
                    if n = 7988 then some [7996] else Option.none
                  else
                    if n < 7990 then
                      if n = 7989 then some [7997] else Option.none
                    else
                      if n = 7990 then some [7998] else Option.none
                else
                  if n < 8000 then
                    if n = 7991 then some [7999] else Option.none
                  else
                    if n < 8001 then
                      if n = 8000 then some [8008] else Option.none
                    else
                      if n = 8001 then some [8009] else Option.none
            else
              if n < 8018 then
                if n < 8005 then
                  if n < 8003 then
                    if n = 8002 then some [8010] else Option.none
                  else
                    if n < 8004 then
                      if n = 8003 then some [8011] else Option.none
                    else
                      if n = 8004 then some [8012] else Option.none
                else
                  if n < 8016 then
                    if n = 8005 then some [8013] else Option.none
                  else
                    if n < 8017 then
                      if n = 8016 then some [933, 787] else Option.none
                    else
                      if n = 8017 then some [8025] else Option.none
              else
                if n < 8021 then
                  if n < 8019 then
                    if n = 8018 then some [933, 787, 768] else Option.none
                  else
                    if n < 8020 then
                      if n = 8019 then some [8027] else Option.none
                    else
                      if n = 8020 then some [933, 787, 769] else Option.none
                else
                  if n < 8022 then
                    if n = 8021 then some [8029] else Option.none
                  else
                    if n < 8023 then
                      if n = 8022 then some [933, 787, 834] else Option.none
                    else
                      if n = 8023 then some [8031] else Option.none
          else
            if n < 8052 then
              if n < 8038 then
                if n < 8035 then
                  if n < 8033 then
                    if n = 8032 then some [8040] else Option.none
                  else
                    if n < 8034 then
                      if n = 8033 then some [8041] else Option.none
                    else
                      if n = 8034 then some [8042] else Option.none
                else
                  if n < 8036 then
                    if n = 8035 then some [8043] else Option.none
                  else
                    if n < 8037 then
                      if n = 8036 then some [8044] else Option.none
                    else
                      if n = 8037 then some [8045] else Option.none
              else
                if n < 8049 then
                  if n < 8039 then
                    if n = 8038 then some [8046] else Option.none
                  else
                    if n < 8048 then
                      if n = 8039 then some [8047] else Option.none
                    else
                      if n = 8048 then some [8122] else Option.none
                else
                  if n < 8050 then
                    if n = 8049 then some [8123] else Option.none
                  else
                    if n < 8051 then
                      if n = 8050 then some [8136] else Option.none
                    else
                      if n = 8051 then some [8137] else Option.none
            else
              if n < 8058 then
                if n < 8055 then
                  if n < 8053 then
                    if n = 8052 then some [8138] else Option.none
                  else
                    if n < 8054 then
                      if n = 8053 then some [8139] else Option.none
                    else
                      if n = 8054 then some [8154] else Option.none
                else
                  if n < 8056 then
                    if n = 8055 then some [8155] else Option.none
                  else
                    if n < 8057 then
                      if n = 8056 then some [8184] else Option.none
                    else
                      if n = 8057 then some [8185] else Option.none
              else
                if n < 8061 then
                  if n < 8059 then
                    if n = 8058 then some [8170] else Option.none
                  else
                    if n < 8060 then
                      if n = 8059 then some [8171] else Option.none
                    else
                      if n = 8060 then some [8186] else Option.none
                else
                  if n < 8064 then
                    if n = 8061 then some [8187] else Option.none
                  else
                    if n < 8065 then
                      if n = 8064 then some [7944, 921] else Option.none
                    else
                      if n = 8065 then some [7945, 921] else Option.none
else
  if n < 42967 then
    if n < 11411 then
      if n < 8573 then
        if n < 8113 then
          if n < 8089 then
            if n < 8077 then
              if n < 8071 then
                if n < 8068 then
                  if n < 8067 then
                    if n = 8066 then some [7946, 921] else Option.none
                  else
                    if n = 8067 then some [7947, 921] else Option.none
                else
                  if n < 8069 then
                    if n = 8068 then some [7948, 921] else Option.none
                  else
                    if n < 8070 then
                      if n = 8069 then some [7949, 921] else Option.none
                    else
                      if n = 8070 then some [7950, 921] else Option.none
              else
                if n < 8074 then
                  if n < 8072 then
                    if n = 8071 then some [7951, 921] else Option.none
                  else
                    if n < 8073 then
                      if n = 8072 then some [7944, 921] else Option.none
                    else
                      if n = 8073 then some [7945, 921] else Option.none
                else
                  if n < 8075 then
                    if n = 8074 then some [7946, 921] else Option.none
                  else
                    if n < 8076 then
                      if n = 8075 then some [7947, 921] else Option.none
                    else
                      if n = 8076 then some [7948, 921] else Option.none
            else
              if n < 8083 then
                if n < 8080 then
                  if n < 8078 then
                    if n = 8077 then some [7949, 921] else Option.none
                  else
                    if n < 8079 then
                      if n = 8078 then some [7950, 921] else Option.none
                    else
                      if n = 8079 then some [7951, 921] else Option.none
                else
                  if n < 8081 then
                    if n = 8080 then some [7976, 921] else Option.none
                  else
                    if n < 8082 then
                      if n = 8081 then some [7977, 921] else Option.none
                    else
                      if n = 8082 then some [7978, 921] else Option.none
              else
                if n < 8086 then
                  if n < 8084 then
                    if n = 8083 then some [7979, 921] else Option.none
                  else
                    if n < 8085 then
                      if n = 8084 then some [7980, 921] else Option.none
                    else
                      if n = 8085 then some [7981, 921] else Option.none
                else
                  if n < 8087 then
                    if n = 8086 then some [7982, 921] else Option.none
                  else
                    if n < 8088 then
                      if n = 8087 then some [7983, 921] else Option.none
                    else
                      if n = 8088 then some [7976, 921] else Option.none
          else
            if n < 8101 then
              if n < 8095 then
                if n < 8092 then
                  if n < 8090 then
                    if n = 8089 then some [7977, 921] else Option.none
                  else
                    if n < 8091 then
                      if n = 8090 then some [7978, 921] else Option.none
                    else
                      if n = 8091 then some [7979, 921] else Option.none
                else
                  if n < 8093 then
                    if n = 8092 then some [7980, 921] else Option.none
                  else
                    if n < 8094 then
                      if n = 8093 then some [7981, 921] else Option.none
                    else
                      if n = 8094 then some [7982, 921] else Option.none
              else
                if n < 8098 then
                  if n < 8096 then
                    if n = 8095 then some [7983, 921] else Option.none
                  else
                    if n < 8097 then
                      if n = 8096 then some [8040, 921] else Option.none
                    else
                      if n = 8097 then some [8041, 921] else Option.none
                else
                  if n < 8099 then
                    if n = 8098 then some [8042, 921] else Option.none
                  else
                    if n < 8100 then
                      if n = 8099 then some [8043, 921] else Option.none
                    else
                      if n = 8100 then some [8044, 921] else Option.none
            else
              if n < 8107 then
                if n < 8104 then
                  if n < 8102 then
                    if n = 8101 then some [8045, 921] else Option.none
                  else
                    if n < 8103 then
                      if n = 8102 then some [8046, 921] else Option.none
                    else
                      if n = 8103 then some [8047, 921] else Option.none
                else
                  if n < 8105 then
                    if n = 8104 then some [8040, 921] else Option.none
                  else
                    if n < 8106 then
                      if n = 8105 then some [8041, 921] else Option.none
                    else
                      if n = 8106 then some [8042, 921] else Option.none
              else
                if n < 8110 then
                  if n < 8108 then
                    if n = 8107 then some [8043, 921] else Option.none
                  else
                    if n < 8109 then
                      if n = 8108 then some [8044, 921] else Option.none
                    else
                      if n = 8109 then some [8045, 921] else Option.none
                else
                  if n < 8111 then
                    if n = 8110 then some [8046, 921] else Option.none
                  else
                    if n < 8112 then
                      if n = 8111 then some [8047, 921] else Option.none
                    else
                      if n = 8112 then some [8120] else Option.none
        else
          if n < 8164 then
            if n < 8135 then
              if n < 8124 then
                if n < 8116 then
                  if n < 8114 then
                    if n = 8113 then some [8121] else Option.none
                  else
                    if n < 8115 then
                      if n = 8114 then some [8122, 921] else Option.none
                    else
                      if n = 8115 then some [913, 921] else Option.none
                else
                  if n < 8118 then
                    if n = 8116 then some [902, 921] else Option.none
                  else
                    if n < 8119 then
                      if n = 8118 then some [913, 834] else Option.none
                    else
                      if n = 8119 then some [913, 834, 921] else Option.none
              else
                if n < 8131 then
                  if n < 8126 then
                    if n = 8124 then some [913, 921] else Option.none
                  else
                    if n < 8130 then
                      if n = 8126 then some [921] else Option.none
                    else
                      if n = 8130 then some [8138, 921] else Option.none
                else
                  if n < 8132 then
                    if n = 8131 then some [919, 921] else Option.none
                  else
                    if n < 8134 then
                      if n = 8132 then some [905, 921] else Option.none
                    else
                      if n = 8134 then some [919, 834] else Option.none
            else
              if n < 8150 then
                if n < 8145 then
                  if n < 8140 then
                    if n = 8135 then some [919, 834, 921] else Option.none
                  else
                    if n < 8144 then
                      if n = 8140 then some [919, 921] else Option.none
                    else
                      if n = 8144 then some [8152] else Option.none
                else
                  if n < 8146 then
                    if n = 8145 then some [8153] else Option.none
                  else
                    if n < 8147 then
                      if n = 8146 then some [921, 776, 768] else Option.none
                    else
                      if n = 8147 then some [921, 776, 769] else Option.none
              else
                if n < 8161 then
                  if n < 8151 then
                    if n = 8150 then some [921, 834] else Option.none
                  else
                    if n < 8160 then
                      if n = 8151 then some [921, 776, 834] else Option.none
                    else
                      if n = 8160 then some [8168] else Option.none
                else
                  if n < 8162 then
                    if n = 8161 then some [8169] else Option.none
                  else
                    if n < 8163 then
                      if n = 8162 then some [933, 776, 768] else Option.none
                    else
                      if n = 8163 then some [933, 776, 769] else Option.none
          else
            if n < 8561 then
              if n < 8180 then
                if n < 8167 then
                  if n < 8165 then
                    if n = 8164 then some [929, 787] else Option.none
                  else
                    if n < 8166 then
                      if n = 8165 then some [8172] else Option.none
                    else
                      if n = 8166 then some [933, 834] else Option.none
                else
                  if n < 8178 then
                    if n = 8167 then some [933, 776, 834] else Option.none
                  else
                    if n < 8179 then
                      if n = 8178 then some [8186, 921] else Option.none
                    else
                      if n = 8179 then some [937, 921] else Option.none
              else
                if n < 8188 then
                  if n < 8182 then
                    if n = 8180 then some [911, 921] else Option.none
                  else
                    if n < 8183 then
                      if n = 8182 then some [937, 834] else Option.none
                    else
                      if n = 8183 then some [937, 834, 921] else Option.none
                else
                  if n < 8526 then
                    if n = 8188 then some [937, 921] else Option.none
                  else
                    if n < 8560 then
                      if n = 8526 then some [8498] else Option.none
                    else
                      if n = 8560 then some [8544] else Option.none
            else
              if n < 8567 then
                if n < 8564 then
                  if n < 8562 then
                    if n = 8561 then some [8545] else Option.none
                  else
                    if n < 8563 then
                      if n = 8562 then some [8546] else Option.none
                    else
                      if n = 8563 then some [8547] else Option.none
                else
                  if n < 8565 then
                    if n = 8564 then some [8548] else Option.none
                  else
                    if n < 8566 then
                      if n = 8565 then some [8549] else Option.none
                    else
                      if n = 8566 then some [8550] else Option.none
              else
                if n < 8570 then
                  if n < 8568 then
                    if n = 8567 then some [8551] else Option.none
                  else
                    if n < 8569 then
                      if n = 8568 then some [8552] else Option.none
                    else
                      if n = 8569 then some [8553] else Option.none
                else
                  if n < 8571 then
                    if n = 8570 then some [8554] else Option.none
                  else
                    if n < 8572 then
                      if n = 8571 then some [8555] else Option.none
                    else
                      if n = 8572 then some [8556] else Option.none
      else
        if n < 11329 then
          if n < 9443 then
            if n < 9431 then
              if n < 9425 then
                if n < 8575 then
                  if n < 8574 then
                    if n = 8573 then some [8557] else Option.none
                  else
                    if n = 8574 then some [8558] else Option.none
                else
                  if n < 8580 then
                    if n = 8575 then some [8559] else Option.none
                  else
                    if n < 9424 then
                      if n = 8580 then some [8579] else Option.none
                    else
                      if n = 9424 then some [9398] else Option.none
              else
                if n < 9428 then
                  if n < 9426 then
                    if n = 9425 then some [9399] else Option.none
                  else
                    if n < 9427 then
                      if n = 9426 then some [9400] else Option.none
                    else
                      if n = 9427 then some [9401] else Option.none
                else
                  if n < 9429 then
                    if n = 9428 then some [9402] else Option.none
                  else
                    if n < 9430 then
                      if n = 9429 then some [9403] else Option.none
                    else
                      if n = 9430 then some [9404] else Option.none
            else
              if n < 9437 then
                if n < 9434 then
                  if n < 9432 then
                    if n = 9431 then some [9405] else Option.none
                  else
                    if n < 9433 then
                      if n = 9432 then some [9406] else Option.none
                    else
                      if n = 9433 then some [9407] else Option.none
                else
                  if n < 9435 then
                    if n = 9434 then some [9408] else Option.none
                  else
                    if n < 9436 then
                      if n = 9435 then some [9409] else Option.none
                    else
                      if n = 9436 then some [9410] else Option.none
              else
                if n < 9440 then
                  if n < 9438 then
                    if n = 9437 then some [9411] else Option.none
                  else
                    if n < 9439 then
                      if n = 9438 then some [9412] else Option.none
                    else
                      if n = 9439 then some [9413] else Option.none
                else
                  if n < 9441 then
                    if n = 9440 then some [9414] else Option.none
                  else
                    if n < 9442 then
                      if n = 9441 then some [9415] else Option.none
                    else
                      if n = 9442 then some [9416] else Option.none
          else
            if n < 11317 then
              if n < 9449 then
                if n < 9446 then
                  if n < 9444 then
                    if n = 9443 then some [9417] else Option.none
                  else
                    if n < 9445 then
                      if n = 9444 then some [9418] else Option.none
                    else
                      if n = 9445 then some [9419] else Option.none
                else
                  if n < 9447 then
                    if n = 9446 then some [9420] else Option.none
                  else
                    if n < 9448 then
                      if n = 9447 then some [9421] else Option.none
                    else
                      if n = 9448 then some [9422] else Option.none
              else
                if n < 11314 then
                  if n < 11312 then
                    if n = 9449 then some [9423] else Option.none
                  else
                    if n < 11313 then
                      if n = 11312 then some [11264] else Option.none
                    else
                      if n = 11313 then some [11265] else Option.none
                else
                  if n < 11315 then
                    if n = 11314 then some [11266] else Option.none
                  else
                    if n < 11316 then
                      if n = 11315 then some [11267] else Option.none
                    else
                      if n = 11316 then some [11268] else Option.none
            else
              if n < 11323 then
                if n < 11320 then
                  if n < 11318 then
                    if n = 11317 then some [11269] else Option.none
                  else
                    if n < 11319 then
                      if n = 11318 then some [11270] else Option.none
                    else
                      if n = 11319 then some [11271] else Option.none
                else
                  if n < 11321 then
                    if n = 11320 then some [11272] else Option.none
                  else
                    if n < 11322 then
                      if n = 11321 then some [11273] else Option.none
                    else
                      if n = 11322 then some [11274] else Option.none
              else
                if n < 11326 then
                  if n < 11324 then
                    if n = 11323 then some [11275] else Option.none
                  else
                    if n < 11325 then
                      if n = 11324 then some [11276] else Option.none
                    else
                      if n = 11325 then some [11277] else Option.none
                else
                  if n < 11327 then
                    if n = 11326 then some [11278] else Option.none
                  else
                    if n < 11328 then
                      if n = 11327 then some [11279] else Option.none
                    else
                      if n = 11328 then some [11280] else Option.none
        else
          if n < 11353 then
            if n < 11341 then
              if n < 11335 then
                if n < 11332 then
                  if n < 11330 then
                    if n = 11329 then some [11281] else Option.none
                  else
                    if n < 11331 then
                      if n = 11330 then some [11282] else Option.none
                    else
                      if n = 11331 then some [11283] else Option.none
                else
                  if n < 11333 then
                    if n = 11332 then some [11284] else Option.none
                  else
                    if n < 11334 then
                      if n = 11333 then some [11285] else Option.none
                    else
                      if n = 11334 then some [11286] else Option.none
              else
                if n < 11338 then
                  if n < 11336 then
                    if n = 11335 then some [11287] else Option.none
                  else
                    if n < 11337 then
                      if n = 11336 then some [11288] else Option.none
                    else
                      if n = 11337 then some [11289] else Option.none
                else
                  if n < 11339 then
                    if n = 11338 then some [11290] else Option.none
                  else
                    if n < 11340 then
                      if n = 11339 then some [11291] else Option.none
                    else
                      if n = 11340 then some [11292] else Option.none
            else
              if n < 11347 then
                if n < 11344 then
                  if n < 11342 then
                    if n = 11341 then some [11293] else Option.none
                  else
                    if n < 11343 then
                      if n = 11342 then some [11294] else Option.none
                    else
                      if n = 11343 then some [11295] else Option.none
                else
                  if n < 11345 then
                    if n = 11344 then some [11296] else Option.none
                  else
                    if n < 11346 then
                      if n = 11345 then some [11297] else Option.none
                    else
                      if n = 11346 then some [11298] else Option.none
              else
                if n < 11350 then
                  if n < 11348 then
                    if n = 11347 then some [11299] else Option.none
                  else
                    if n < 11349 then
                      if n = 11348 then some [11300] else Option.none
                    else
                      if n = 11349 then some [11301] else Option.none
                else
                  if n < 11351 then
                    if n = 11350 then some [11302] else Option.none
                  else
                    if n < 11352 then
                      if n = 11351 then some [11303] else Option.none
                    else
                      if n = 11352 then some [11304] else Option.none
          else
            if n < 11372 then
              if n < 11359 then
                if n < 11356 then
                  if n < 11354 then
                    if n = 11353 then some [11305] else Option.none
                  else
                    if n < 11355 then
                      if n = 11354 then some [11306] else Option.none
                    else
                      if n = 11355 then some [11307] else Option.none
                else
                  if n < 11357 then
                    if n = 11356 then some [11308] else Option.none
                  else
                    if n < 11358 then
                      if n = 11357 then some [11309] else Option.none
                    else
                      if n = 11358 then some [11310] else Option.none
              else
                if n < 11366 then
                  if n < 11361 then
                    if n = 11359 then some [11311] else Option.none
                  else
                    if n < 11365 then
                      if n = 11361 then some [11360] else Option.none
                    else
                      if n = 11365 then some [570] else Option.none
                else
                  if n < 11368 then
                    if n = 11366 then some [574] else Option.none
                  else
                    if n < 11370 then
                      if n = 11368 then some [11367] else Option.none
                    else
                      if n = 11370 then some [11369] else Option.none
            else
              if n < 11399 then
                if n < 11393 then
                  if n < 11379 then
                    if n = 11372 then some [11371] else Option.none
                  else
                    if n < 11382 then
                      if n = 11379 then some [11378] else Option.none
                    else
                      if n = 11382 then some [11381] else Option.none
                else
                  if n < 11395 then
                    if n = 11393 then some [11392] else Option.none
                  else
                    if n < 11397 then
                      if n = 11395 then some [11394] else Option.none
                    else
                      if n = 11397 then some [11396] else Option.none
              else
                if n < 11405 then
                  if n < 11401 then
                    if n = 11399 then some [11398] else Option.none
                  else
                    if n < 11403 then
                      if n = 11401 then some [11400] else Option.none
                    else
                      if n = 11403 then some [11402] else Option.none
                else
                  if n < 11407 then
                    if n = 11405 then some [11404] else Option.none
                  else
                    if n < 11409 then
                      if n = 11407 then some [11406] else Option.none
                    else
                      if n = 11409 then some [11408] else Option.none
    else
      if n < 42583 then
        if n < 11523 then
          if n < 11457 then
            if n < 11433 then
              if n < 11421 then
                if n < 11415 then
                  if n < 11413 then
                    if n = 11411 then some [11410] else Option.none
                  else
                    if n = 11413 then some [11412] else Option.none
                else
                  if n < 11417 then
                    if n = 11415 then some [11414] else Option.none
                  else
                    if n < 11419 then
                      if n = 11417 then some [11416] else Option.none
                    else
                      if n = 11419 then some [11418] else Option.none
              else
                if n < 11427 then
                  if n < 11423 then
                    if n = 11421 then some [11420] else Option.none
                  else
                    if n < 11425 then
                      if n = 11423 then some [11422] else Option.none
                    else
                      if n = 11425 then some [11424] else Option.none
                else
                  if n < 11429 then
                    if n = 11427 then some [11426] else Option.none
                  else
                    if n < 11431 then
                      if n = 11429 then some [11428] else Option.none
                    else
                      if n = 11431 then some [11430] else Option.none
            else
              if n < 11445 then
                if n < 11439 then
                  if n < 11435 then
                    if n = 11433 then some [11432] else Option.none
                  else
                    if n < 11437 then
                      if n = 11435 then some [11434] else Option.none
                    else
                      if n = 11437 then some [11436] else Option.none
                else
                  if n < 11441 then
                    if n = 11439 then some [11438] else Option.none
                  else
                    if n < 11443 then
                      if n = 11441 then some [11440] else Option.none
                    else
                      if n = 11443 then some [11442] else Option.none
              else
                if n < 11451 then
                  if n < 11447 then
                    if n = 11445 then some [11444] else Option.none
                  else
                    if n < 11449 then
                      if n = 11447 then some [11446] else Option.none
                    else
                      if n = 11449 then some [11448] else Option.none
                else
                  if n < 11453 then
                    if n = 11451 then some [11450] else Option.none
                  else
                    if n < 11455 then
                      if n = 11453 then some [11452] else Option.none
                    else
                      if n = 11455 then some [11454] else Option.none
          else
            if n < 11481 then
              if n < 11469 then
                if n < 11463 then
                  if n < 11459 then
                    if n = 11457 then some [11456] else Option.none
                  else
                    if n < 11461 then
                      if n = 11459 then some [11458] else Option.none
                    else
                      if n = 11461 then some [11460] else Option.none
                else
                  if n < 11465 then
                    if n = 11463 then some [11462] else Option.none
                  else
                    if n < 11467 then
                      if n = 11465 then some [11464] else Option.none
                    else
                      if n = 11467 then some [11466] else Option.none
              else
                if n < 11475 then
                  if n < 11471 then
                    if n = 11469 then some [11468] else Option.none
                  else
                    if n < 11473 then
                      if n = 11471 then some [11470] else Option.none
                    else
                      if n = 11473 then some [11472] else Option.none
                else
                  if n < 11477 then
                    if n = 11475 then some [11474] else Option.none
                  else
                    if n < 11479 then
                      if n = 11477 then some [11476] else Option.none
                    else
                      if n = 11479 then some [11478] else Option.none
            else
              if n < 11500 then
                if n < 11487 then
                  if n < 11483 then
                    if n = 11481 then some [11480] else Option.none
                  else
                    if n < 11485 then
                      if n = 11483 then some [11482] else Option.none
                    else
                      if n = 11485 then some [11484] else Option.none
                else
                  if n < 11489 then
                    if n = 11487 then some [11486] else Option.none
                  else
                    if n < 11491 then
                      if n = 11489 then some [11488] else Option.none
                    else
                      if n = 11491 then some [11490] else Option.none
              else
                if n < 11520 then
                  if n < 11502 then
                    if n = 11500 then some [11499] else Option.none
                  else
                    if n < 11507 then
                      if n = 11502 then some [11501] else Option.none
                    else
                      if n = 11507 then some [11506] else Option.none
                else
                  if n < 11521 then
                    if n = 11520 then some [4256] else Option.none
                  else
                    if n < 11522 then
                      if n = 11521 then some [4257] else Option.none
                    else
                      if n = 11522 then some [4258] else Option.none
        else
          if n < 11547 then
            if n < 11535 then
              if n < 11529 then
                if n < 11526 then
                  if n < 11524 then
                    if n = 11523 then some [4259] else Option.none
                  else
                    if n < 11525 then
                      if n = 11524 then some [4260] else Option.none
                    else
                      if n = 11525 then some [4261] else Option.none
                else
                  if n < 11527 then
                    if n = 11526 then some [4262] else Option.none
                  else
                    if n < 11528 then
                      if n = 11527 then some [4263] else Option.none
                    else
                      if n = 11528 then some [4264] else Option.none
              else
                if n < 11532 then
                  if n < 11530 then
                    if n = 11529 then some [4265] else Option.none
                  else
                    if n < 11531 then
                      if n = 11530 then some [4266] else Option.none
                    else
                      if n = 11531 then some [4267] else Option.none
                else
                  if n < 11533 then
                    if n = 11532 then some [4268] else Option.none
                  else
                    if n < 11534 then
                      if n = 11533 then some [4269] else Option.none
                    else
                      if n = 11534 then some [4270] else Option.none
            else
              if n < 11541 then
                if n < 11538 then
                  if n < 11536 then
                    if n = 11535 then some [4271] else Option.none
                  else
                    if n < 11537 then
                      if n = 11536 then some [4272] else Option.none
                    else
                      if n = 11537 then some [4273] else Option.none
                else
                  if n < 11539 then
                    if n = 11538 then some [4274] else Option.none
                  else
                    if n < 11540 then
                      if n = 11539 then some [4275] else Option.none
                    else
                      if n = 11540 then some [4276] else Option.none
              else
                if n < 11544 then
                  if n < 11542 then
                    if n = 11541 then some [4277] else Option.none
                  else
                    if n < 11543 then
                      if n = 11542 then some [4278] else Option.none
                    else
                      if n = 11543 then some [4279] else Option.none
                else
                  if n < 11545 then
                    if n = 11544 then some [4280] else Option.none
                  else
                    if n < 11546 then
                      if n = 11545 then some [4281] else Option.none
                    else
                      if n = 11546 then some [4282] else Option.none
          else
            if n < 11565 then
              if n < 11553 then
                if n < 11550 then
                  if n < 11548 then
                    if n = 11547 then some [4283] else Option.none
                  else
                    if n < 11549 then
                      if n = 11548 then some [4284] else Option.none
                    else
                      if n = 11549 then some [4285] else Option.none
                else
                  if n < 11551 then
                    if n = 11550 then some [4286] else Option.none
                  else
                    if n < 11552 then
                      if n = 11551 then some [4287] else Option.none
                    else
                      if n = 11552 then some [4288] else Option.none
              else
                if n < 11556 then
                  if n < 11554 then
                    if n = 11553 then some [4289] else Option.none
                  else
                    if n < 11555 then
                      if n = 11554 then some [4290] else Option.none
                    else
                      if n = 11555 then some [4291] else Option.none
                else
                  if n < 11557 then
                    if n = 11556 then some [4292] else Option.none
                  else
                    if n < 11559 then
                      if n = 11557 then some [4293] else Option.none
                    else
                      if n = 11559 then some [4295] else Option.none
            else
              if n < 42571 then
                if n < 42565 then
                  if n < 42561 then
                    if n = 11565 then some [4301] else Option.none
                  else
                    if n < 42563 then
                      if n = 42561 then some [42560] else Option.none
                    else
                      if n = 42563 then some [42562] else Option.none
                else
                  if n < 42567 then
                    if n = 42565 then some [42564] else Option.none
                  else
                    if n < 42569 then
                      if n = 42567 then some [42566] else Option.none
                    else
                      if n = 42569 then some [42568] else Option.none
              else
                if n < 42577 then
                  if n < 42573 then
                    if n = 42571 then some [42570] else Option.none
                  else
                    if n < 42575 then
                      if n = 42573 then some [42572] else Option.none
                    else
                      if n = 42575 then some [42574] else Option.none
                else
                  if n < 42579 then
                    if n = 42577 then some [42576] else Option.none
                  else
                    if n < 42581 then
                      if n = 42579 then some [42578] else Option.none
                    else
                      if n = 42581 then some [42580] else Option.none
      else
        if n < 42833 then
          if n < 42649 then
            if n < 42625 then
              if n < 42595 then
                if n < 42589 then
                  if n < 42585 then
                    if n = 42583 then some [42582] else Option.none
                  else
                    if n < 42587 then
                      if n = 42585 then some [42584] else Option.none
                    else
                      if n = 42587 then some [42586] else Option.none
                else
                  if n < 42591 then
                    if n = 42589 then some [42588] else Option.none
                  else
                    if n < 42593 then
                      if n = 42591 then some [42590] else Option.none
                    else
                      if n = 42593 then some [42592] else Option.none
              else
                if n < 42601 then
                  if n < 42597 then
                    if n = 42595 then some [42594] else Option.none
                  else
                    if n < 42599 then
                      if n = 42597 then some [42596] else Option.none
                    else
                      if n = 42599 then some [42598] else Option.none
                else
                  if n < 42603 then
                    if n = 42601 then some [42600] else Option.none
                  else
                    if n < 42605 then
                      if n = 42603 then some [42602] else Option.none
                    else
                      if n = 42605 then some [42604] else Option.none
            else
              if n < 42637 then
                if n < 42631 then
                  if n < 42627 then
                    if n = 42625 then some [42624] else Option.none
                  else
                    if n < 42629 then
                      if n = 42627 then some [42626] else Option.none
                    else
                      if n = 42629 then some [42628] else Option.none
                else
                  if n < 42633 then
                    if n = 42631 then some [42630] else Option.none
                  else
                    if n < 42635 then
                      if n = 42633 then some [42632] else Option.none
                    else
                      if n = 42635 then some [42634] else Option.none
              else
                if n < 42643 then
                  if n < 42639 then
                    if n = 42637 then some [42636] else Option.none
                  else
                    if n < 42641 then
                      if n = 42639 then some [42638] else Option.none
                    else
                      if n = 42641 then some [42640] else Option.none
                else
                  if n < 42645 then
                    if n = 42643 then some [42642] else Option.none
                  else
                    if n < 42647 then
                      if n = 42645 then some [42644] else Option.none
                    else
                      if n = 42647 then some [42646] else Option.none
          else
            if n < 42809 then
              if n < 42795 then
                if n < 42789 then
                  if n < 42651 then
                    if n = 42649 then some [42648] else Option.none
                  else
                    if n < 42787 then
                      if n = 42651 then some [42650] else Option.none
                    else
                      if n = 42787 then some [42786] else Option.none
                else
                  if n < 42791 then
                    if n = 42789 then some [42788] else Option.none
                  else
                    if n < 42793 then
                      if n = 42791 then some [42790] else Option.none
                    else
                      if n = 42793 then some [42792] else Option.none
              else
                if n < 42803 then
                  if n < 42797 then
                    if n = 42795 then some [42794] else Option.none
                  else
                    if n < 42799 then
                      if n = 42797 then some [42796] else Option.none
                    else
                      if n = 42799 then some [42798] else Option.none
                else
                  if n < 42805 then
                    if n = 42803 then some [42802] else Option.none
                  else
                    if n < 42807 then
                      if n = 42805 then some [42804] else Option.none
                    else
                      if n = 42807 then some [42806] else Option.none
            else
              if n < 42821 then
                if n < 42815 then
                  if n < 42811 then
                    if n = 42809 then some [42808] else Option.none
                  else
                    if n < 42813 then
                      if n = 42811 then some [42810] else Option.none
                    else
                      if n = 42813 then some [42812] else Option.none
                else
                  if n < 42817 then
                    if n = 42815 then some [42814] else Option.none
                  else
                    if n < 42819 then
                      if n = 42817 then some [42816] else Option.none
                    else
                      if n = 42819 then some [42818] else Option.none
              else
                if n < 42827 then
                  if n < 42823 then
                    if n = 42821 then some [42820] else Option.none
                  else
                    if n < 42825 then
                      if n = 42823 then some [42822] else Option.none
                    else
                      if n = 42825 then some [42824] else Option.none
                else
                  if n < 42829 then
                    if n = 42827 then some [42826] else Option.none
                  else
                    if n < 42831 then
                      if n = 42829 then some [42828] else Option.none
                    else
                      if n = 42831 then some [42830] else Option.none
        else
          if n < 42897 then
            if n < 42857 then
              if n < 42845 then
                if n < 42839 then
                  if n < 42835 then
                    if n = 42833 then some [42832] else Option.none
                  else
                    if n < 42837 then
                      if n = 42835 then some [42834] else Option.none
                    else
                      if n = 42837 then some [42836] else Option.none
                else
                  if n < 42841 then
                    if n = 42839 then some [42838] else Option.none
                  else
                    if n < 42843 then
                      if n = 42841 then some [42840] else Option.none
                    else
                      if n = 42843 then some [42842] else Option.none
              else
                if n < 42851 then
                  if n < 42847 then
                    if n = 42845 then some [42844] else Option.none
                  else
                    if n < 42849 then
                      if n = 42847 then some [42846] else Option.none
                    else
                      if n = 42849 then some [42848] else Option.none
                else
                  if n < 42853 then
                    if n = 42851 then some [42850] else Option.none
                  else
                    if n < 42855 then
                      if n = 42853 then some [42852] else Option.none
                    else
                      if n = 42855 then some [42854] else Option.none
            else
              if n < 42879 then
                if n < 42863 then
                  if n < 42859 then
                    if n = 42857 then some [42856] else Option.none
                  else
                    if n < 42861 then
                      if n = 42859 then some [42858] else Option.none
                    else
                      if n = 42861 then some [42860] else Option.none
                else
                  if n < 42874 then
                    if n = 42863 then some [42862] else Option.none
                  else
                    if n < 42876 then
                      if n = 42874 then some [42873] else Option.none
                    else
                      if n = 42876 then some [42875] else Option.none
              else
                if n < 42885 then
                  if n < 42881 then
                    if n = 42879 then some [42878] else Option.none
                  else
                    if n < 42883 then
                      if n = 42881 then some [42880] else Option.none
                    else
                      if n = 42883 then some [42882] else Option.none
                else
                  if n < 42887 then
                    if n = 42885 then some [42884] else Option.none
                  else
                    if n < 42892 then
                      if n = 42887 then some [42886] else Option.none
                    else
                      if n = 42892 then some [42891] else Option.none
          else
            if n < 42921 then
              if n < 42909 then
                if n < 42903 then
                  if n < 42899 then
                    if n = 42897 then some [42896] else Option.none
                  else
                    if n < 42900 then
                      if n = 42899 then some [42898] else Option.none
                    else
                      if n = 42900 then some [42948] else Option.none
                else
                  if n < 42905 then
                    if n = 42903 then some [42902] else Option.none
                  else
                    if n < 42907 then
                      if n = 42905 then some [42904] else Option.none
                    else
                      if n = 42907 then some [42906] else Option.none
              else
                if n < 42915 then
                  if n < 42911 then
                    if n = 42909 then some [42908] else Option.none
                  else
                    if n < 42913 then
                      if n = 42911 then some [42910] else Option.none
                    else
                      if n = 42913 then some [42912] else Option.none
                else
                  if n < 42917 then
                    if n = 42915 then some [42914] else Option.none
                  else
                    if n < 42919 then
                      if n = 42917 then some [42916] else Option.none
                    else
                      if n = 42919 then some [42918] else Option.none
            else
              if n < 42943 then
                if n < 42937 then
                  if n < 42933 then
                    if n = 42921 then some [42920] else Option.none
                  else
                    if n < 42935 then
                      if n = 42933 then some [42932] else Option.none
                    else
                      if n = 42935 then some [42934] else Option.none
                else
                  if n < 42939 then
                    if n = 42937 then some [42936] else Option.none
                  else
                    if n < 42941 then
                      if n = 42939 then some [42938] else Option.none
                    else
                      if n = 42941 then some [42940] else Option.none
              else
                if n < 42952 then
                  if n < 42945 then
                    if n = 42943 then some [42942] else Option.none
                  else
                    if n < 42947 then
                      if n = 42945 then some [42944] else Option.none
                    else
                      if n = 42947 then some [42946] else Option.none
                else
                  if n < 42954 then
                    if n = 42952 then some [42951] else Option.none
                  else
                    if n < 42961 then
                      if n = 42954 then some [42953] else Option.none
                    else
                      if n = 42961 then some [42960] else Option.none
  else
    if n < 66805 then
      if n < 64279 then
        if n < 43931 then
          if n < 43907 then
            if n < 43895 then
              if n < 43889 then
                if n < 42998 then
                  if n < 42969 then
                    if n = 42967 then some [42966] else Option.none
                  else
                    if n = 42969 then some [42968] else Option.none
                else
                  if n < 43859 then
                    if n = 42998 then some [42997] else Option.none
                  else
                    if n < 43888 then
                      if n = 43859 then some [42931] else Option.none
                    else
                      if n = 43888 then some [5024] else Option.none
              else
                if n < 43892 then
                  if n < 43890 then
                    if n = 43889 then some [5025] else Option.none
                  else
                    if n < 43891 then
                      if n = 43890 then some [5026] else Option.none
                    else
                      if n = 43891 then some [5027] else Option.none
                else
                  if n < 43893 then
                    if n = 43892 then some [5028] else Option.none
                  else
                    if n < 43894 then
                      if n = 43893 then some [5029] else Option.none
                    else
                      if n = 43894 then some [5030] else Option.none
            else
              if n < 43901 then
                if n < 43898 then
                  if n < 43896 then
                    if n = 43895 then some [5031] else Option.none
                  else
                    if n < 43897 then
                      if n = 43896 then some [5032] else Option.none
                    else
                      if n = 43897 then some [5033] else Option.none
                else
                  if n < 43899 then
                    if n = 43898 then some [5034] else Option.none
                  else
                    if n < 43900 then
                      if n = 43899 then some [5035] else Option.none
                    else
                      if n = 43900 then some [5036] else Option.none
              else
                if n < 43904 then
                  if n < 43902 then
                    if n = 43901 then some [5037] else Option.none
                  else
                    if n < 43903 then
                      if n = 43902 then some [5038] else Option.none
                    else
                      if n = 43903 then some [5039] else Option.none
                else
                  if n < 43905 then
                    if n = 43904 then some [5040] else Option.none
                  else
                    if n < 43906 then
                      if n = 43905 then some [5041] else Option.none
                    else
                      if n = 43906 then some [5042] else Option.none
          else
            if n < 43919 then
              if n < 43913 then
                if n < 43910 then
                  if n < 43908 then
                    if n = 43907 then some [5043] else Option.none
                  else
                    if n < 43909 then
                      if n = 43908 then some [5044] else Option.none
                    else
                      if n = 43909 then some [5045] else Option.none
                else
                  if n < 43911 then
                    if n = 43910 then some [5046] else Option.none
                  else
                    if n < 43912 then
                      if n = 43911 then some [5047] else Option.none
                    else
                      if n = 43912 then some [5048] else Option.none
              else
                if n < 43916 then
                  if n < 43914 then
                    if n = 43913 then some [5049] else Option.none
                  else
                    if n < 43915 then
                      if n = 43914 then some [5050] else Option.none
                    else
                      if n = 43915 then some [5051] else Option.none
                else
                  if n < 43917 then
                    if n = 43916 then some [5052] else Option.none
                  else
                    if n < 43918 then
                      if n = 43917 then some [5053] else Option.none
                    else
                      if n = 43918 then some [5054] else Option.none
            else
              if n < 43925 then
                if n < 43922 then
                  if n < 43920 then
                    if n = 43919 then some [5055] else Option.none
                  else
                    if n < 43921 then
                      if n = 43920 then some [5056] else Option.none
                    else
                      if n = 43921 then some [5057] else Option.none
                else
                  if n < 43923 then
                    if n = 43922 then some [5058] else Option.none
                  else
                    if n < 43924 then
                      if n = 43923 then some [5059] else Option.none
                    else
                      if n = 43924 then some [5060] else Option.none
              else
                if n < 43928 then
                  if n < 43926 then
                    if n = 43925 then some [5061] else Option.none
                  else
                    if n < 43927 then
                      if n = 43926 then some [5062] else Option.none
                    else
                      if n = 43927 then some [5063] else Option.none
                else
                  if n < 43929 then
                    if n = 43928 then some [5064] else Option.none
                  else
                    if n < 43930 then
                      if n = 43929 then some [5065] else Option.none
                    else
                      if n = 43930 then some [5066] else Option.none
        else
          if n < 43955 then
            if n < 43943 then
              if n < 43937 then
                if n < 43934 then
                  if n < 43932 then
                    if n = 43931 then some [5067] else Option.none
                  else
                    if n < 43933 then
                      if n = 43932 then some [5068] else Option.none
                    else
                      if n = 43933 then some [5069] else Option.none
                else
                  if n < 43935 then
                    if n = 43934 then some [5070] else Option.none
                  else
                    if n < 43936 then
                      if n = 43935 then some [5071] else Option.none
                    else
                      if n = 43936 then some [5072] else Option.none
              else
                if n < 43940 then
                  if n < 43938 then
                    if n = 43937 then some [5073] else Option.none
                  else
                    if n < 43939 then
                      if n = 43938 then some [5074] else Option.none
                    else
                      if n = 43939 then some [5075] else Option.none
                else
                  if n < 43941 then
                    if n = 43940 then some [5076] else Option.none
                  else
                    if n < 43942 then
                      if n = 43941 then some [5077] else Option.none
                    else
                      if n = 43942 then some [5078] else Option.none
            else
              if n < 43949 then
                if n < 43946 then
                  if n < 43944 then
                    if n = 43943 then some [5079] else Option.none
                  else
                    if n < 43945 then
                      if n = 43944 then some [5080] else Option.none
                    else
                      if n = 43945 then some [5081] else Option.none
                else
                  if n < 43947 then
                    if n = 43946 then some [5082] else Option.none
                  else
                    if n < 43948 then
                      if n = 43947 then some [5083] else Option.none
                    else
                      if n = 43948 then some [5084] else Option.none
              else
                if n < 43952 then
                  if n < 43950 then
                    if n = 43949 then some [5085] else Option.none
                  else
                    if n < 43951 then
                      if n = 43950 then some [5086] else Option.none
                    else
                      if n = 43951 then some [5087] else Option.none
                else
                  if n < 43953 then
                    if n = 43952 then some [5088] else Option.none
                  else
                    if n < 43954 then
                      if n = 43953 then some [5089] else Option.none
                    else
                      if n = 43954 then some [5090] else Option.none
          else
            if n < 43967 then
              if n < 43961 then
                if n < 43958 then
                  if n < 43956 then
                    if n = 43955 then some [5091] else Option.none
                  else
                    if n < 43957 then
                      if n = 43956 then some [5092] else Option.none
                    else
                      if n = 43957 then some [5093] else Option.none
                else
                  if n < 43959 then
                    if n = 43958 then some [5094] else Option.none
                  else
                    if n < 43960 then
                      if n = 43959 then some [5095] else Option.none
                    else
                      if n = 43960 then some [5096] else Option.none
              else
                if n < 43964 then
                  if n < 43962 then
                    if n = 43961 then some [5097] else Option.none
                  else
                    if n < 43963 then
                      if n = 43962 then some [5098] else Option.none
                    else
                      if n = 43963 then some [5099] else Option.none
                else
                  if n < 43965 then
                    if n = 43964 then some [5100] else Option.none
                  else
                    if n < 43966 then
                      if n = 43965 then some [5101] else Option.none
                    else
                      if n = 43966 then some [5102] else Option.none
            else
              if n < 64261 then
                if n < 64258 then
                  if n < 64256 then
                    if n = 43967 then some [5103] else Option.none
                  else
                    if n < 64257 then
                      if n = 64256 then some [70, 70] else Option.none
                    else
                      if n = 64257 then some [70, 73] else Option.none
                else
                  if n < 64259 then
                    if n = 64258 then some [70, 76] else Option.none
                  else
                    if n < 64260 then
                      if n = 64259 then some [70, 70, 73] else Option.none
                    else
                      if n = 64260 then some [70, 70, 76] else Option.none
              else
                if n < 64276 then
                  if n < 64262 then
                    if n = 64261 then some [83, 84] else Option.none
                  else
                    if n < 64275 then
                      if n = 64262 then some [83, 84] else Option.none
                    else
                      if n = 64275 then some [1348, 1350] else Option.none
                else
                  if n < 64277 then
                    if n = 64276 then some [1348, 1333] else Option.none
                  else
                    if n < 64278 then
                      if n = 64277 then some [1348, 1339] else Option.none
                    else
                      if n = 64278 then some [1358, 1350] else Option.none
      else
        if n < 66621 then
          if n < 65368 then
            if n < 65356 then
              if n < 65350 then
                if n < 65347 then
                  if n < 65345 then
                    if n = 64279 then some [1348, 1341] else Option.none
                  else
                    if n < 65346 then
                      if n = 65345 then some [65313] else Option.none
                    else
                      if n = 65346 then some [65314] else Option.none
                else
                  if n < 65348 then
                    if n = 65347 then some [65315] else Option.none
                  else
                    if n < 65349 then
                      if n = 65348 then some [65316] else Option.none
                    else
                      if n = 65349 then some [65317] else Option.none
              else
                if n < 65353 then
                  if n < 65351 then
                    if n = 65350 then some [65318] else Option.none
                  else
                    if n < 65352 then
                      if n = 65351 then some [65319] else Option.none
                    else
                      if n = 65352 then some [65320] else Option.none
                else
                  if n < 65354 then
                    if n = 65353 then some [65321] else Option.none
                  else
                    if n < 65355 then
                      if n = 65354 then some [65322] else Option.none
                    else
                      if n = 65355 then some [65323] else Option.none
            else
              if n < 65362 then
                if n < 65359 then
                  if n < 65357 then
                    if n = 65356 then some [65324] else Option.none
                  else
                    if n < 65358 then
                      if n = 65357 then some [65325] else Option.none
                    else
                      if n = 65358 then some [65326] else Option.none
                else
                  if n < 65360 then
                    if n = 65359 then some [65327] else Option.none
                  else
                    if n < 65361 then
                      if n = 65360 then some [65328] else Option.none
                    else
                      if n = 65361 then some [65329] else Option.none
              else
                if n < 65365 then
                  if n < 65363 then
                    if n = 65362 then some [65330] else Option.none
                  else
                    if n < 65364 then
                      if n = 65363 then some [65331] else Option.none
                    else
                      if n = 65364 then some [65332] else Option.none
                else
                  if n < 65366 then
                    if n = 65365 then some [65333] else Option.none
                  else
                    if n < 65367 then
                      if n = 65366 then some [65334] else Option.none
                    else
                      if n = 65367 then some [65335] else Option.none
          else
            if n < 66609 then
              if n < 66603 then
                if n < 66600 then
                  if n < 65369 then
                    if n = 65368 then some [65336] else Option.none
                  else
                    if n < 65370 then
                      if n = 65369 then some [65337] else Option.none
                    else
                      if n = 65370 then some [65338] else Option.none
                else
                  if n < 66601 then
                    if n = 66600 then some [66560] else Option.none
                  else
                    if n < 66602 then
                      if n = 66601 then some [66561] else Option.none
                    else
                      if n = 66602 then some [66562] else Option.none
              else
                if n < 66606 then
                  if n < 66604 then
                    if n = 66603 then some [66563] else Option.none
                  else
                    if n < 66605 then
                      if n = 66604 then some [66564] else Option.none
                    else
                      if n = 66605 then some [66565] else Option.none
                else
                  if n < 66607 then
                    if n = 66606 then some [66566] else Option.none
                  else
                    if n < 66608 then
                      if n = 66607 then some [66567] else Option.none
                    else
                      if n = 66608 then some [66568] else Option.none
            else
              if n < 66615 then
                if n < 66612 then
                  if n < 66610 then
                    if n = 66609 then some [66569] else Option.none
                  else
                    if n < 66611 then
                      if n = 66610 then some [66570] else Option.none
                    else
                      if n = 66611 then some [66571] else Option.none
                else
                  if n < 66613 then
                    if n = 66612 then some [66572] else Option.none
                  else
                    if n < 66614 then
                      if n = 66613 then some [66573] else Option.none
                    else
                      if n = 66614 then some [66574] else Option.none
              else
                if n < 66618 then
                  if n < 66616 then
                    if n = 66615 then some [66575] else Option.none
                  else
                    if n < 66617 then
                      if n = 66616 then some [66576] else Option.none
                    else
                      if n = 66617 then some [66577] else Option.none
                else
                  if n < 66619 then
                    if n = 66618 then some [66578] else Option.none
                  else
                    if n < 66620 then
                      if n = 66619 then some [66579] else Option.none
                    else
                      if n = 66620 then some [66580] else Option.none
        else
          if n < 66781 then
            if n < 66633 then
              if n < 66627 then
                if n < 66624 then
                  if n < 66622 then
                    if n = 66621 then some [66581] else Option.none
                  else
                    if n < 66623 then
                      if n = 66622 then some [66582] else Option.none
                    else
                      if n = 66623 then some [66583] else Option.none
                else
                  if n < 66625 then
                    if n = 66624 then some [66584] else Option.none
                  else
                    if n < 66626 then
                      if n = 66625 then some [66585] else Option.none
                    else
                      if n = 66626 then some [66586] else Option.none
              else
                if n < 66630 then
                  if n < 66628 then
                    if n = 66627 then some [66587] else Option.none
                  else
                    if n < 66629 then
                      if n = 66628 then some [66588] else Option.none
                    else
                      if n = 66629 then some [66589] else Option.none
                else
                  if n < 66631 then
                    if n = 66630 then some [66590] else Option.none
                  else
                    if n < 66632 then
                      if n = 66631 then some [66591] else Option.none
                    else
                      if n = 66632 then some [66592] else Option.none
            else
              if n < 66639 then
                if n < 66636 then
                  if n < 66634 then
                    if n = 66633 then some [66593] else Option.none
                  else
                    if n < 66635 then
                      if n = 66634 then some [66594] else Option.none
                    else
                      if n = 66635 then some [66595] else Option.none
                else
                  if n < 66637 then
                    if n = 66636 then some [66596] else Option.none
                  else
                    if n < 66638 then
                      if n = 66637 then some [66597] else Option.none
                    else
                      if n = 66638 then some [66598] else Option.none
              else
                if n < 66778 then
                  if n < 66776 then
                    if n = 66639 then some [66599] else Option.none
                  else
                    if n < 66777 then
                      if n = 66776 then some [66736] else Option.none
                    else
                      if n = 66777 then some [66737] else Option.none
                else
                  if n < 66779 then
                    if n = 66778 then some [66738] else Option.none
                  else
                    if n < 66780 then
                      if n = 66779 then some [66739] else Option.none
                    else
                      if n = 66780 then some [66740] else Option.none
          else
            if n < 66793 then
              if n < 66787 then
                if n < 66784 then
                  if n < 66782 then
                    if n = 66781 then some [66741] else Option.none
                  else
                    if n < 66783 then
                      if n = 66782 then some [66742] else Option.none
                    else
                      if n = 66783 then some [66743] else Option.none
                else
                  if n < 66785 then
                    if n = 66784 then some [66744] else Option.none
                  else
                    if n < 66786 then
                      if n = 66785 then some [66745] else Option.none
                    else
                      if n = 66786 then some [66746] else Option.none
              else
                if n < 66790 then
                  if n < 66788 then
                    if n = 66787 then some [66747] else Option.none
                  else
                    if n < 66789 then
                      if n = 66788 then some [66748] else Option.none
                    else
                      if n = 66789 then some [66749] else Option.none
                else
                  if n < 66791 then
                    if n = 66790 then some [66750] else Option.none
                  else
                    if n < 66792 then
                      if n = 66791 then some [66751] else Option.none
                    else
                      if n = 66792 then some [66752] else Option.none
            else
              if n < 66799 then
                if n < 66796 then
                  if n < 66794 then
                    if n = 66793 then some [66753] else Option.none
                  else
                    if n < 66795 then
                      if n = 66794 then some [66754] else Option.none
                    else
                      if n = 66795 then some [66755] else Option.none
                else
                  if n < 66797 then
                    if n = 66796 then some [66756] else Option.none
                  else
                    if n < 66798 then
                      if n = 66797 then some [66757] else Option.none
                    else
                      if n = 66798 then some [66758] else Option.none
              else
                if n < 66802 then
                  if n < 66800 then
                    if n = 66799 then some [66759] else Option.none
                  else
                    if n < 66801 then
                      if n = 66800 then some [66760] else Option.none
                    else
                      if n = 66801 then some [66761] else Option.none
                else
                  if n < 66803 then
                    if n = 66802 then some [66762] else Option.none
                  else
                    if n < 66804 then
                      if n = 66803 then some [66763] else Option.none
                    else
                      if n = 66804 then some [66764] else Option.none
    else
      if n < 71874 then
        if n < 68805 then
          if n < 66984 then
            if n < 66971 then
              if n < 66810 then
                if n < 66807 then
                  if n < 66806 then
                    if n = 66805 then some [66765] else Option.none
                  else
                    if n = 66806 then some [66766] else Option.none
                else
                  if n < 66808 then
                    if n = 66807 then some [66767] else Option.none
                  else
                    if n < 66809 then
                      if n = 66808 then some [66768] else Option.none
                    else
                      if n = 66809 then some [66769] else Option.none
              else
                if n < 66968 then
                  if n < 66811 then
                    if n = 66810 then some [66770] else Option.none
                  else
                    if n < 66967 then
                      if n = 66811 then some [66771] else Option.none
                    else
                      if n = 66967 then some [66928] else Option.none
                else
                  if n < 66969 then
                    if n = 66968 then some [66929] else Option.none
                  else
                    if n < 66970 then
                      if n = 66969 then some [66930] else Option.none
                    else
                      if n = 66970 then some [66931] else Option.none
            else
              if n < 66977 then
                if n < 66974 then
                  if n < 66972 then
                    if n = 66971 then some [66932] else Option.none
                  else
                    if n < 66973 then
                      if n = 66972 then some [66933] else Option.none
                    else
                      if n = 66973 then some [66934] else Option.none
                else
                  if n < 66975 then
                    if n = 66974 then some [66935] else Option.none
                  else
                    if n < 66976 then
                      if n = 66975 then some [66936] else Option.none
                    else
                      if n = 66976 then some [66937] else Option.none
              else
                if n < 66981 then
                  if n < 66979 then
                    if n = 66977 then some [66938] else Option.none
                  else
                    if n < 66980 then
                      if n = 66979 then some [66940] else Option.none
                    else
                      if n = 66980 then some [66941] else Option.none
                else
                  if n < 66982 then
                    if n = 66981 then some [66942] else Option.none
                  else
                    if n < 66983 then
                      if n = 66982 then some [66943] else Option.none
                    else
                      if n = 66983 then some [66944] else Option.none
          else
            if n < 66997 then
              if n < 66990 then
                if n < 66987 then
                  if n < 66985 then
                    if n = 66984 then some [66945] else Option.none
                  else
                    if n < 66986 then
                      if n = 66985 then some [66946] else Option.none
                    else
                      if n = 66986 then some [66947] else Option.none
                else
                  if n < 66988 then
                    if n = 66987 then some [66948] else Option.none
                  else
                    if n < 66989 then
                      if n = 66988 then some [66949] else Option.none
                    else
                      if n = 66989 then some [66950] else Option.none
              else
                if n < 66993 then
                  if n < 66991 then
                    if n = 66990 then some [66951] else Option.none
                  else
                    if n < 66992 then
                      if n = 66991 then some [66952] else Option.none
                    else
                      if n = 66992 then some [66953] else Option.none
                else
                  if n < 66995 then
                    if n = 66993 then some [66954] else Option.none
                  else
                    if n < 66996 then
                      if n = 66995 then some [66956] else Option.none
                    else
                      if n = 66996 then some [66957] else Option.none
            else
              if n < 67004 then
                if n < 67000 then
                  if n < 66998 then
                    if n = 66997 then some [66958] else Option.none
                  else
                    if n < 66999 then
                      if n = 66998 then some [66959] else Option.none
                    else
                      if n = 66999 then some [66960] else Option.none
                else
                  if n < 67001 then
                    if n = 67000 then some [66961] else Option.none
                  else
                    if n < 67003 then
                      if n = 67001 then some [66962] else Option.none
                    else
                      if n = 67003 then some [66964] else Option.none
              else
                if n < 68802 then
                  if n < 68800 then
                    if n = 67004 then some [66965] else Option.none
                  else
                    if n < 68801 then
                      if n = 68800 then some [68736] else Option.none
                    else
                      if n = 68801 then some [68737] else Option.none
                else
                  if n < 68803 then
                    if n = 68802 then some [68738] else Option.none
                  else
                    if n < 68804 then
                      if n = 68803 then some [68739] else Option.none
                    else
                      if n = 68804 then some [68740] else Option.none
        else
          if n < 68829 then
            if n < 68817 then
              if n < 68811 then
                if n < 68808 then
                  if n < 68806 then
                    if n = 68805 then some [68741] else Option.none
                  else
                    if n < 68807 then
                      if n = 68806 then some [68742] else Option.none
                    else
                      if n = 68807 then some [68743] else Option.none
                else
                  if n < 68809 then
                    if n = 68808 then some [68744] else Option.none
                  else
                    if n < 68810 then
                      if n = 68809 then some [68745] else Option.none
                    else
                      if n = 68810 then some [68746] else Option.none
              else
                if n < 68814 then
                  if n < 68812 then
                    if n = 68811 then some [68747] else Option.none
                  else
                    if n < 68813 then
                      if n = 68812 then some [68748] else Option.none
                    else
                      if n = 68813 then some [68749] else Option.none
                else
                  if n < 68815 then
                    if n = 68814 then some [68750] else Option.none
                  else
                    if n < 68816 then
                      if n = 68815 then some [68751] else Option.none
                    else
                      if n = 68816 then some [68752] else Option.none
            else
              if n < 68823 then
                if n < 68820 then
                  if n < 68818 then
                    if n = 68817 then some [68753] else Option.none
                  else
                    if n < 68819 then
                      if n = 68818 then some [68754] else Option.none
                    else
                      if n = 68819 then some [68755] else Option.none
                else
                  if n < 68821 then
                    if n = 68820 then some [68756] else Option.none
                  else
                    if n < 68822 then
                      if n = 68821 then some [68757] else Option.none
                    else
                      if n = 68822 then some [68758] else Option.none
              else
                if n < 68826 then
                  if n < 68824 then
                    if n = 68823 then some [68759] else Option.none
                  else
                    if n < 68825 then
                      if n = 68824 then some [68760] else Option.none
                    else
                      if n = 68825 then some [68761] else Option.none
                else
                  if n < 68827 then
                    if n = 68826 then some [68762] else Option.none
                  else
                    if n < 68828 then
                      if n = 68827 then some [68763] else Option.none
                    else
                      if n = 68828 then some [68764] else Option.none
          else
            if n < 68841 then
              if n < 68835 then
                if n < 68832 then
                  if n < 68830 then
                    if n = 68829 then some [68765] else Option.none
                  else
                    if n < 68831 then
                      if n = 68830 then some [68766] else Option.none
                    else
                      if n = 68831 then some [68767] else Option.none
                else
                  if n < 68833 then
                    if n = 68832 then some [68768] else Option.none
                  else
                    if n < 68834 then
                      if n = 68833 then some [68769] else Option.none
                    else
                      if n = 68834 then some [68770] else Option.none
              else
                if n < 68838 then
                  if n < 68836 then
                    if n = 68835 then some [68771] else Option.none
                  else
                    if n < 68837 then
                      if n = 68836 then some [68772] else Option.none
                    else
                      if n = 68837 then some [68773] else Option.none
                else
                  if n < 68839 then
                    if n = 68838 then some [68774] else Option.none
                  else
                    if n < 68840 then
                      if n = 68839 then some [68775] else Option.none
                    else
                      if n = 68840 then some [68776] else Option.none
            else
              if n < 68847 then
                if n < 68844 then
                  if n < 68842 then
                    if n = 68841 then some [68777] else Option.none
                  else
                    if n < 68843 then
                      if n = 68842 then some [68778] else Option.none
                    else
                      if n = 68843 then some [68779] else Option.none
                else
                  if n < 68845 then
                    if n = 68844 then some [68780] else Option.none
                  else
                    if n < 68846 then
                      if n = 68845 then some [68781] else Option.none
                    else
                      if n = 68846 then some [68782] else Option.none
              else
                if n < 68850 then
                  if n < 68848 then
                    if n = 68847 then some [68783] else Option.none
                  else
                    if n < 68849 then
                      if n = 68848 then some [68784] else Option.none
                    else
                      if n = 68849 then some [68785] else Option.none
                else
                  if n < 71872 then
                    if n = 68850 then some [68786] else Option.none
                  else
                    if n < 71873 then
                      if n = 71872 then some [71840] else Option.none
                    else
                      if n = 71873 then some [71841] else Option.none
      else
        if n < 93810 then
          if n < 71898 then
            if n < 71886 then
              if n < 71880 then
                if n < 71877 then
                  if n < 71875 then
                    if n = 71874 then some [71842] else Option.none
                  else
                    if n < 71876 then
                      if n = 71875 then some [71843] else Option.none
                    else
                      if n = 71876 then some [71844] else Option.none
                else
                  if n < 71878 then
                    if n = 71877 then some [71845] else Option.none
                  else
                    if n < 71879 then
                      if n = 71878 then some [71846] else Option.none
                    else
                      if n = 71879 then some [71847] else Option.none
              else
                if n < 71883 then
                  if n < 71881 then
                    if n = 71880 then some [71848] else Option.none
                  else
                    if n < 71882 then
                      if n = 71881 then some [71849] else Option.none
                    else
                      if n = 71882 then some [71850] else Option.none
                else
                  if n < 71884 then
                    if n = 71883 then some [71851] else Option.none
                  else
                    if n < 71885 then
                      if n = 71884 then some [71852] else Option.none
                    else
                      if n = 71885 then some [71853] else Option.none
            else
              if n < 71892 then
                if n < 71889 then
                  if n < 71887 then
                    if n = 71886 then some [71854] else Option.none
                  else
                    if n < 71888 then
                      if n = 71887 then some [71855] else Option.none
                    else
                      if n = 71888 then some [71856] else Option.none
                else
                  if n < 71890 then
                    if n = 71889 then some [71857] else Option.none
                  else
                    if n < 71891 then
                      if n = 71890 then some [71858] else Option.none
                    else
                      if n = 71891 then some [71859] else Option.none
              else
                if n < 71895 then
                  if n < 71893 then
                    if n = 71892 then some [71860] else Option.none
                  else
                    if n < 71894 then
                      if n = 71893 then some [71861] else Option.none
                    else
                      if n = 71894 then some [71862] else Option.none
                else
                  if n < 71896 then
                    if n = 71895 then some [71863] else Option.none
                  else
                    if n < 71897 then
                      if n = 71896 then some [71864] else Option.none
                    else
                      if n = 71897 then some [71865] else Option.none
          else
            if n < 93798 then
              if n < 93792 then
                if n < 71901 then
                  if n < 71899 then
                    if n = 71898 then some [71866] else Option.none
                  else
                    if n < 71900 then
                      if n = 71899 then some [71867] else Option.none
                    else
                      if n = 71900 then some [71868] else Option.none
                else
                  if n < 71902 then
                    if n = 71901 then some [71869] else Option.none
                  else
                    if n < 71903 then
                      if n = 71902 then some [71870] else Option.none
                    else
                      if n = 71903 then some [71871] else Option.none
              else
                if n < 93795 then
                  if n < 93793 then
                    if n = 93792 then some [93760] else Option.none
                  else
                    if n < 93794 then
                      if n = 93793 then some [93761] else Option.none
                    else
                      if n = 93794 then some [93762] else Option.none
                else
                  if n < 93796 then
                    if n = 93795 then some [93763] else Option.none
                  else
                    if n < 93797 then
                      if n = 93796 then some [93764] else Option.none
                    else
                      if n = 93797 then some [93765] else Option.none
            else
              if n < 93804 then
                if n < 93801 then
                  if n < 93799 then
                    if n = 93798 then some [93766] else Option.none
                  else
                    if n < 93800 then
                      if n = 93799 then some [93767] else Option.none
                    else
                      if n = 93800 then some [93768] else Option.none
                else
                  if n < 93802 then
                    if n = 93801 then some [93769] else Option.none
                  else
                    if n < 93803 then
                      if n = 93802 then some [93770] else Option.none
                    else
                      if n = 93803 then some [93771] else Option.none
              else
                if n < 93807 then
                  if n < 93805 then
                    if n = 93804 then some [93772] else Option.none
                  else
                    if n < 93806 then
                      if n = 93805 then some [93773] else Option.none
                    else
                      if n = 93806 then some [93774] else Option.none
                else
                  if n < 93808 then
                    if n = 93807 then some [93775] else Option.none
                  else
                    if n < 93809 then
                      if n = 93808 then some [93776] else Option.none
                    else
                      if n = 93809 then some [93777] else Option.none
        else
          if n < 125228 then
            if n < 93822 then
              if n < 93816 then
                if n < 93813 then
                  if n < 93811 then
                    if n = 93810 then some [93778] else Option.none
                  else
                    if n < 93812 then
                      if n = 93811 then some [93779] else Option.none
                    else
                      if n = 93812 then some [93780] else Option.none
                else
                  if n < 93814 then
                    if n = 93813 then some [93781] else Option.none
                  else
                    if n < 93815 then
                      if n = 93814 then some [93782] else Option.none
                    else
                      if n = 93815 then some [93783] else Option.none
              else
                if n < 93819 then
                  if n < 93817 then
                    if n = 93816 then some [93784] else Option.none
                  else
                    if n < 93818 then
                      if n = 93817 then some [93785] else Option.none
                    else
                      if n = 93818 then some [93786] else Option.none
                else
                  if n < 93820 then
                    if n = 93819 then some [93787] else Option.none
                  else
                    if n < 93821 then
                      if n = 93820 then some [93788] else Option.none
                    else
                      if n = 93821 then some [93789] else Option.none
            else
              if n < 125222 then
                if n < 125219 then
                  if n < 93823 then
                    if n = 93822 then some [93790] else Option.none
                  else
                    if n < 125218 then
                      if n = 93823 then some [93791] else Option.none
                    else
                      if n = 125218 then some [125184] else Option.none
                else
                  if n < 125220 then
                    if n = 125219 then some [125185] else Option.none
                  else
                    if n < 125221 then
                      if n = 125220 then some [125186] else Option.none
                    else
                      if n = 125221 then some [125187] else Option.none
              else
                if n < 125225 then
                  if n < 125223 then
                    if n = 125222 then some [125188] else Option.none
                  else
                    if n < 125224 then
                      if n = 125223 then some [125189] else Option.none
                    else
                      if n = 125224 then some [125190] else Option.none
                else
                  if n < 125226 then
                    if n = 125225 then some [125191] else Option.none
                  else
                    if n < 125227 then
                      if n = 125226 then some [125192] else Option.none
                    else
                      if n = 125227 then some [125193] else Option.none
          else
            if n < 125240 then
              if n < 125234 then
                if n < 125231 then
                  if n < 125229 then
                    if n = 125228 then some [125194] else Option.none
                  else
                    if n < 125230 then
                      if n = 125229 then some [125195] else Option.none
                    else
                      if n = 125230 then some [125196] else Option.none
                else
                  if n < 125232 then
                    if n = 125231 then some [125197] else Option.none
                  else
                    if n < 125233 then
                      if n = 125232 then some [125198] else Option.none
                    else
                      if n = 125233 then some [125199] else Option.none
              else
                if n < 125237 then
                  if n < 125235 then
                    if n = 125234 then some [125200] else Option.none
                  else
                    if n < 125236 then
                      if n = 125235 then some [125201] else Option.none
                    else
                      if n = 125236 then some [125202] else Option.none
                else
                  if n < 125238 then
                    if n = 125237 then some [125203] else Option.none
                  else
                    if n < 125239 then
                      if n = 125238 then some [125204] else Option.none
                    else
                      if n = 125239 then some [125205] else Option.none
            else
              if n < 125246 then
                if n < 125243 then
                  if n < 125241 then
                    if n = 125240 then some [125206] else Option.none
                  else
                    if n < 125242 then
                      if n = 125241 then some [125207] else Option.none
                    else
                      if n = 125242 then some [125208] else Option.none
                else
                  if n < 125244 then
                    if n = 125243 then some [125209] else Option.none
                  else
                    if n < 125245 then
                      if n = 125244 then some [125210] else Option.none
                    else
                      if n = 125245 then some [125211] else Option.none
              else
                if n < 125249 then
                  if n < 125247 then
                    if n = 125246 then some [125212] else Option.none
                  else
                    if n < 125248 then
                      if n = 125247 then some [125213] else Option.none
                    else
                      if n = 125248 then some [125214] else Option.none
                else
                  if n < 125250 then
                    if n = 125249 then some [125215] else Option.none
                  else
                    if n < 125251 then
                      if n = 125250 then some [125216] else Option.none
                    else
                      if n = 125251 then some [125217] else Option.none

/-- Python `str.upper()` of one character (a caseless character maps
to itself). -/
def upperChars (c : Char) : List Char :=
  match upperLookup c.toNat with
  | some us => us.map Char.ofNat
  | Option.none => [c]

/-- Python `str.upper()`. -/
def pyUpper (s : String) : String :=
  ⟨(s.data.map upperChars).flatten⟩

/-- `needle` is a prefix of `hay` (character lists). -/
def isPrefixChars : List Char → List Char → Bool
  | [], _ => true
  | _ :: _, [] => false
  | a :: as, b :: bs => a = b && isPrefixChars as bs

/-- Python `needle in hay`: substring containment. -/
def strContains (hay needle : String) : Bool :=
  (List.range (hay.data.length + 1)).any
    (fun i => isPrefixChars needle.data (hay.data.drop i))

/-- A Python value as it appears in a parsed JSON response body:
`None` (also used for an absent key, per `dict.get`), an int, or a
string.  Floats do not occur in the reponse fields modelled here. -/
inductive PyVal where
  | none
  | int (n : ℤ)
  | str (s : String)
deriving DecidableEq, Repr

/-- Digit characters to a natural number (left-to-right). -/
def digitsToNat (cs : List Char) : ℕ :=
  cs.foldl (fun a c => a * 10 + (c.toNat - 48)) 0

/-- Python `float(s)` on the decimal fragment
`[+-]? (digits [. digits?] | . digits)` — the only shapes that occur in
the numeric response fields.  Exponents, `inf`, `nan`, underscores are
outside the model and would parse to `Option.none` (raise `ValueError`). -/
def pyParseFloat (s : String) : Option ℚ :=
  let (sign, cs) : ℤ × List Char :=
    match s.data with
    | '+' :: t => (1, t)
    | '-' :: t => (-1, t)
    | t => (1, t)
  let ip := cs.takeWhile Char.isDigit
  let rest := cs.dropWhile Char.isDigit
  match rest with
  | [] => if ip.isEmpty then Option.none else some ((sign * digitsToNat ip : ℤ) : ℚ)
  | '.' :: fp =>
    if fp.all Char.isDigit && !(ip.isEmpty && fp.isEmpty) then
      some (Rat.divInt
        (sign * (digitsToNat ip * 10 ^ fp.length + digitsToNat fp : ℤ))
        ((10 : ℤ) ^ fp.length))
    else Option.none
  | _ => Option.none

/-- Python `int(q)` for a real `q`: truncation toward zero. -/
def ratTrunc (q : ℚ) : ℤ :=
  if 0 ≤ q.num then q.num / (q.den : ℤ) else -((-q.num) / (q.den : ℤ))

/-- `src/kiwoom.py` `_normalize_int`: `None` ↦ 0, int/float ↦ `int(x)`,
else strip commas and whitespace from `str(x)`, `""` ↦ 0, otherwise
`int(float(s))`; a non-numeric string raises `ValueError`. -/
def _normalize_int (x : PyVal) : Except String ℤ :=
  match x with
  | .none => .ok 0
  | .int n => .ok n
  | .str x =>
    let s := pyStrip (removeCommas x)
    if s = "" then .ok 0
    else
      match pyParseFloat s with
      | some q => .ok (ratTrunc q)
      | Option.none => .error "ValueError"

/-! ## Instrument classifier (`ETF_BRANDS`, `NON_STOCK_TOKENS`, the
three regexes, `is_non_common_stock`, `filter_stock_list`) -/

def ETF_BRANDS : List String :=
  ["TIGER", "KODEX", "KOSEF", "KBSTAR", "ARIRANG", "HANARO", "SOL",
   "ACE", "TIMEFOLIO", "TREX", "KINDEX", "RISE", "FOCUS", "PLUS",
   "UNICORN", "1Q", "QV", "KIWOOM", "KB발해"]

def NON_STOCK_TOKENS : List String :=
  ["ETF", "ETN", "ETC", "리츠", "REIT", "스팩", "SPAC", "우선",
   "선물", "인버스", "레버리지", "커버드콜", "합성",
   "(H)", "H)", "환헤지", "헤지",
   "S&P", "NASDAQ", "NIKKEI", "DAX", "EURO", "KOSPI200", "코스피200",
   "코스피", "200", "100", "미국", "액티브", "BNK", "부동산",
   "국채", "채권", "단기채", "중기채", "장기채",
   "원유", "WTI", "브렌트", "금", "은", "구리", "철강", "곡물",
   "달러", "USD", "엔", "JPY", "유로", "EUR", "위안", "CNY"]

/-- The code-point ranges of Unicode category Nd — what `\d` matches
in a Python `str` pattern without `re.ASCII` — from CPython's Unicode
database. -/
def ND_RANGES : List (Nat × Nat) :=
  [(48, 57), (1632, 1641), (1776, 1785), (1984, 1993), (2406, 2415), (2534, 2543),
   (2662, 2671), (2790, 2799), (2918, 2927), (3046, 3055), (3174, 3183), (3302, 3311),
   (3430, 3439), (3558, 3567), (3664, 3673), (3792, 3801), (3872, 3881), (4160, 4169),
   (4240, 4249), (6112, 6121), (6160, 6169), (6470, 6479), (6608, 6617), (6784, 6793),
   (6800, 6809), (6992, 7001), (7088, 7097), (7232, 7241), (7248, 7257), (42528, 42537),
   (43216, 43225), (43264, 43273), (43472, 43481), (43504, 43513), (43600, 43609), (44016, 44025),
   (65296, 65305), (66720, 66729), (68912, 68921), (69734, 69743), (69872, 69881), (69942, 69951),
   (70096, 70105), (70384, 70393), (70736, 70745), (70864, 70873), (71248, 71257), (71360, 71369),
   (71472, 71481), (71904, 71913), (72016, 72025), (72784, 72793), (73040, 73049), (73120, 73129),
   (92768, 92777), (92864, 92873), (93008, 93017), (120782, 120831), (123200, 123209), (123632, 123641),
   (125264, 125273), (130032, 130041)]

/-- A character Python's `\d` matches: a Unicode decimal digit. -/
def isPyDigit (c : Char) : Bool :=
  ND_RANGES.any (fun p => decide (p.1 ≤ c.toNat) && decide (c.toNat ≤ p.2))

/-- `re.search` of `PREFERRED_REGEX = (?:\d*우[B-C]?|우선|우선주)`
(IGNORECASE): at some position, either zero or more ASCII digits
followed by '우' (the optional `[B-C]?` suffix does not affect whether
a match exists), or the literal "우선" / "우선주".  Since digits are
not '우', consuming `\d*` and then requiring '우' is the same as the
first non-digit character from that position being '우'. -/
def PREFERRED_SEARCH (s : String) : Bool :=
  (List.range s.data.length).any (fun i =>
    let cs := s.data.drop i
    ((cs.dropWhile isPyDigit).head? = some '우')
    || isPrefixChars "우선".data cs
    || isPrefixChars "우선주".data cs)

/-- The code-point ranges of `str.isalnum()` characters, from
CPython's Unicode database; Python's `\w` is exactly these plus the
underscore. -/
def WORD_RANGES : List (Nat × Nat) :=
  [(48, 57), (65, 90), (97, 122), (170, 170), (178, 179), (181, 181),
   (185, 186), (188, 190), (192, 214), (216, 246), (248, 705), (710, 721),
   (736, 740), (748, 748), (750, 750), (880, 884), (886, 887), (890, 893),
   (895, 895), (902, 902), (904, 906), (908, 908), (910, 929), (931, 1013),
   (1015, 1153), (1162, 1327), (1329, 1366), (1369, 1369), (1376, 1416), (1488, 1514),
   (1519, 1522), (1568, 1610), (1632, 1641), (1646, 1647), (1649, 1747), (1749, 1749),
   (1765, 1766), (1774, 1788), (1791, 1791), (1808, 1808), (1810, 1839), (1869, 1957),
   (1969, 1969), (1984, 2026), (2036, 2037), (2042, 2042), (2048, 2069), (2074, 2074),
   (2084, 2084), (2088, 2088), (2112, 2136), (2144, 2154), (2160, 2183), (2185, 2190),
   (2208, 2249), (2308, 2361), (2365, 2365), (2384, 2384), (2392, 2401), (2406, 2415),
   (2417, 2432), (2437, 2444), (2447, 2448), (2451, 2472), (2474, 2480), (2482, 2482),
   (2486, 2489), (2493, 2493), (2510, 2510), (2524, 2525), (2527, 2529), (2534, 2545),
   (2548, 2553), (2556, 2556), (2565, 2570), (2575, 2576), (2579, 2600), (2602, 2608),
   (2610, 2611), (2613, 2614), (2616, 2617), (2649, 2652), (2654, 2654), (2662, 2671),
   (2674, 2676), (2693, 2701), (2703, 2705), (2707, 2728), (2730, 2736), (2738, 2739),
   (2741, 2745), (2749, 2749), (2768, 2768), (2784, 2785), (2790, 2799), (2809, 2809),
   (2821, 2828), (2831, 2832), (2835, 2856), (2858, 2864), (2866, 2867), (2869, 2873),
   (2877, 2877), (2908, 2909), (2911, 2913), (2918, 2927), (2929, 2935), (2947, 2947),
   (2949, 2954), (2958, 2960), (2962, 2965), (2969, 2970), (2972, 2972), (2974, 2975),
   (2979, 2980), (2984, 2986), (2990, 3001), (3024, 3024), (3046, 3058), (3077, 3084),
   (3086, 3088), (3090, 3112), (3114, 3129), (3133, 3133), (3160, 3162), (3165, 3165),
   (3168, 3169), (3174, 3183), (3192, 3198), (3200, 3200), (3205, 3212), (3214, 3216),
   (3218, 3240), (3242, 3251), (3253, 3257), (3261, 3261), (3293, 3294), (3296, 3297),
   (3302, 3311), (3313, 3314), (3332, 3340), (3342, 3344), (3346, 3386), (3389, 3389),
   (3406, 3406), (3412, 3414), (3416, 3425), (3430, 3448), (3450, 3455), (3461, 3478),
   (3482, 3505), (3507, 3515), (3517, 3517), (3520, 3526), (3558, 3567), (3585, 3632),
   (3634, 3635), (3648, 3654), (3664, 3673), (3713, 3714), (3716, 3716), (3718, 3722),
   (3724, 3747), (3749, 3749), (3751, 3760), (3762, 3763), (3773, 3773), (3776, 3780),
   (3782, 3782), (3792, 3801), (3804, 3807), (3840, 3840), (3872, 3891), (3904, 3911),
   (3913, 3948), (3976, 3980), (4096, 4138), (4159, 4169), (4176, 4181), (4186, 4189),
   (4193, 4193), (4197, 4198), (4206, 4208), (4213, 4225), (4238, 4238), (4240, 4249),
   (4256, 4293), (4295, 4295), (4301, 4301), (4304, 4346), (4348, 4680), (4682, 4685),
   (4688, 4694), (4696, 4696), (4698, 4701), (4704, 4744), (4746, 4749), (4752, 4784),
   (4786, 4789), (4792, 4798), (4800, 4800), (4802, 4805), (4808, 4822), (4824, 4880),
   (4882, 4885), (4888, 4954), (4969, 4988), (4992, 5007), (5024, 5109), (5112, 5117),
   (5121, 5740), (5743, 5759), (5761, 5786), (5792, 5866), (5870, 5880), (5888, 5905),
   (5919, 5937), (5952, 5969), (5984, 5996), (5998, 6000), (6016, 6067), (6103, 6103),
   (6108, 6108), (6112, 6121), (6128, 6137), (6160, 6169), (6176, 6264), (6272, 6276),
   (6279, 6312), (6314, 6314), (6320, 6389), (6400, 6430), (6470, 6509), (6512, 6516),
   (6528, 6571), (6576, 6601), (6608, 6618), (6656, 6678), (6688, 6740), (6784, 6793),
   (6800, 6809), (6823, 6823), (6917, 6963), (6981, 6988), (6992, 7001), (7043, 7072),
   (7086, 7141), (7168, 7203), (7232, 7241), (7245, 7293), (7296, 7304), (7312, 7354),
   (7357, 7359), (7401, 7404), (7406, 7411), (7413, 7414), (7418, 7418), (7424, 7615),
   (7680, 7957), (7960, 7965), (7968, 8005), (8008, 8013), (8016, 8023), (8025, 8025),
   (8027, 8027), (8029, 8029), (8031, 8061), (8064, 8116), (8118, 8124), (8126, 8126),
   (8130, 8132), (8134, 8140), (8144, 8147), (8150, 8155), (8160, 8172), (8178, 8180),
   (8182, 8188), (8304, 8305), (8308, 8313), (8319, 8329), (8336, 8348), (8450, 8450),
   (8455, 8455), (8458, 8467), (8469, 8469), (8473, 8477), (8484, 8484), (8486, 8486),
   (8488, 8488), (8490, 8493), (8495, 8505), (8508, 8511), (8517, 8521), (8526, 8526),
   (8528, 8585), (9312, 9371), (9450, 9471), (10102, 10131), (11264, 11492), (11499, 11502),
   (11506, 11507), (11517, 11517), (11520, 11557), (11559, 11559), (11565, 11565), (11568, 11623),
   (11631, 11631), (11648, 11670), (11680, 11686), (11688, 11694), (11696, 11702), (11704, 11710),
   (11712, 11718), (11720, 11726), (11728, 11734), (11736, 11742), (11823, 11823), (12293, 12295),
   (12321, 12329), (12337, 12341), (12344, 12348), (12353, 12438), (12445, 12447), (12449, 12538),
   (12540, 12543), (12549, 12591), (12593, 12686), (12690, 12693), (12704, 12735), (12784, 12799),
   (12832, 12841), (12872, 12879), (12881, 12895), (12928, 12937), (12977, 12991), (13312, 19903),
   (19968, 42124), (42192, 42237), (42240, 42508), (42512, 42539), (42560, 42606), (42623, 42653),
   (42656, 42735), (42775, 42783), (42786, 42888), (42891, 42954), (42960, 42961), (42963, 42963),
   (42965, 42969), (42994, 43009), (43011, 43013), (43015, 43018), (43020, 43042), (43056, 43061),
   (43072, 43123), (43138, 43187), (43216, 43225), (43250, 43255), (43259, 43259), (43261, 43262),
   (43264, 43301), (43312, 43334), (43360, 43388), (43396, 43442), (43471, 43481), (43488, 43492),
   (43494, 43518), (43520, 43560), (43584, 43586), (43588, 43595), (43600, 43609), (43616, 43638),
   (43642, 43642), (43646, 43695), (43697, 43697), (43701, 43702), (43705, 43709), (43712, 43712),
   (43714, 43714), (43739, 43741), (43744, 43754), (43762, 43764), (43777, 43782), (43785, 43790),
   (43793, 43798), (43808, 43814), (43816, 43822), (43824, 43866), (43868, 43881), (43888, 44002),
   (44016, 44025), (44032, 55203), (55216, 55238), (55243, 55291), (63744, 64109), (64112, 64217),
   (64256, 64262), (64275, 64279), (64285, 64285), (64287, 64296), (64298, 64310), (64312, 64316),
   (64318, 64318), (64320, 64321), (64323, 64324), (64326, 64433), (64467, 64829), (64848, 64911),
   (64914, 64967), (65008, 65019), (65136, 65140), (65142, 65276), (65296, 65305), (65313, 65338),
   (65345, 65370), (65382, 65470), (65474, 65479), (65482, 65487), (65490, 65495), (65498, 65500),
   (65536, 65547), (65549, 65574), (65576, 65594), (65596, 65597), (65599, 65613), (65616, 65629),
   (65664, 65786), (65799, 65843), (65856, 65912), (65930, 65931), (66176, 66204), (66208, 66256),
   (66273, 66299), (66304, 66339), (66349, 66378), (66384, 66421), (66432, 66461), (66464, 66499),
   (66504, 66511), (66513, 66517), (66560, 66717), (66720, 66729), (66736, 66771), (66776, 66811),
   (66816, 66855), (66864, 66915), (66928, 66938), (66940, 66954), (66956, 66962), (66964, 66965),
   (66967, 66977), (66979, 66993), (66995, 67001), (67003, 67004), (67072, 67382), (67392, 67413),
   (67424, 67431), (67456, 67461), (67463, 67504), (67506, 67514), (67584, 67589), (67592, 67592),
   (67594, 67637), (67639, 67640), (67644, 67644), (67647, 67669), (67672, 67702), (67705, 67742),
   (67751, 67759), (67808, 67826), (67828, 67829), (67835, 67867), (67872, 67897), (67968, 68023),
   (68028, 68047), (68050, 68096), (68112, 68115), (68117, 68119), (68121, 68149), (68160, 68168),
   (68192, 68222), (68224, 68255), (68288, 68295), (68297, 68324), (68331, 68335), (68352, 68405),
   (68416, 68437), (68440, 68466), (68472, 68497), (68521, 68527), (68608, 68680), (68736, 68786),
   (68800, 68850), (68858, 68899), (68912, 68921), (69216, 69246), (69248, 69289), (69296, 69297),
   (69376, 69415), (69424, 69445), (69457, 69460), (69488, 69505), (69552, 69579), (69600, 69622),
   (69635, 69687), (69714, 69743), (69745, 69746), (69749, 69749), (69763, 69807), (69840, 69864),
   (69872, 69881), (69891, 69926), (69942, 69951), (69956, 69956), (69959, 69959), (69968, 70002),
   (70006, 70006), (70019, 70066), (70081, 70084), (70096, 70106), (70108, 70108), (70113, 70132),
   (70144, 70161), (70163, 70187), (70272, 70278), (70280, 70280), (70282, 70285), (70287, 70301),
   (70303, 70312), (70320, 70366), (70384, 70393), (70405, 70412), (70415, 70416), (70419, 70440),
   (70442, 70448), (70450, 70451), (70453, 70457), (70461, 70461), (70480, 70480), (70493, 70497),
   (70656, 70708), (70727, 70730), (70736, 70745), (70751, 70753), (70784, 70831), (70852, 70853),
   (70855, 70855), (70864, 70873), (71040, 71086), (71128, 71131), (71168, 71215), (71236, 71236),
   (71248, 71257), (71296, 71338), (71352, 71352), (71360, 71369), (71424, 71450), (71472, 71483),
   (71488, 71494), (71680, 71723), (71840, 71922), (71935, 71942), (71945, 71945), (71948, 71955),
   (71957, 71958), (71960, 71983), (71999, 71999), (72001, 72001), (72016, 72025), (72096, 72103),
   (72106, 72144), (72161, 72161), (72163, 72163), (72192, 72192), (72203, 72242), (72250, 72250),
   (72272, 72272), (72284, 72329), (72349, 72349), (72368, 72440), (72704, 72712), (72714, 72750),
   (72768, 72768), (72784, 72812), (72818, 72847), (72960, 72966), (72968, 72969), (72971, 73008),
   (73030, 73030), (73040, 73049), (73056, 73061), (73063, 73064), (73066, 73097), (73112, 73112),
   (73120, 73129), (73440, 73458), (73648, 73648), (73664, 73684), (73728, 74649), (74752, 74862),
   (74880, 75075), (77712, 77808), (77824, 78894), (82944, 83526), (92160, 92728), (92736, 92766),
   (92768, 92777), (92784, 92862), (92864, 92873), (92880, 92909), (92928, 92975), (92992, 92995),
   (93008, 93017), (93019, 93025), (93027, 93047), (93053, 93071), (93760, 93846), (93952, 94026),
   (94032, 94032), (94099, 94111), (94176, 94177), (94179, 94179), (94208, 100343), (100352, 101589),
   (101632, 101640), (110576, 110579), (110581, 110587), (110589, 110590), (110592, 110882), (110928, 110930),
   (110948, 110951), (110960, 111355), (113664, 113770), (113776, 113788), (113792, 113800), (113808, 113817),
   (119520, 119539), (119648, 119672), (119808, 119892), (119894, 119964), (119966, 119967), (119970, 119970),
   (119973, 119974), (119977, 119980), (119982, 119993), (119995, 119995), (119997, 120003), (120005, 120069),
   (120071, 120074), (120077, 120084), (120086, 120092), (120094, 120121), (120123, 120126), (120128, 120132),
   (120134, 120134), (120138, 120144), (120146, 120485), (120488, 120512), (120514, 120538), (120540, 120570),
   (120572, 120596), (120598, 120628), (120630, 120654), (120656, 120686), (120688, 120712), (120714, 120744),
   (120746, 120770), (120772, 120779), (120782, 120831), (122624, 122654), (123136, 123180), (123191, 123197),
   (123200, 123209), (123214, 123214), (123536, 123565), (123584, 123627), (123632, 123641), (124896, 124902),
   (124904, 124907), (124909, 124910), (124912, 124926), (124928, 125124), (125127, 125135), (125184, 125251),
   (125259, 125259), (125264, 125273), (126065, 126123), (126125, 126127), (126129, 126132), (126209, 126253),
   (126255, 126269), (126464, 126467), (126469, 126495), (126497, 126498), (126500, 126500), (126503, 126503),
   (126505, 126514), (126516, 126519), (126521, 126521), (126523, 126523), (126530, 126530), (126535, 126535),
   (126537, 126537), (126539, 126539), (126541, 126543), (126545, 126546), (126548, 126548), (126551, 126551),
   (126553, 126553), (126555, 126555), (126557, 126557), (126559, 126559), (126561, 126562), (126564, 126564),
   (126567, 126570), (126572, 126578), (126580, 126583), (126585, 126588), (126590, 126590), (126592, 126601),
   (126603, 126619), (126625, 126627), (126629, 126633), (126635, 126651), (127232, 127244), (130032, 130041),
   (131072, 173791), (173824, 177976), (177984, 178205), (178208, 183969), (183984, 191456), (194560, 195101),
   (196608, 201546)]

/-- A character Python's `\w` matches.  Used for the `\b` word
boundaries in `NON_STOCK_REGEX`. -/
def isWordChar (c : Char) : Bool :=
  c = '_' || WORD_RANGES.any (fun p => decide (p.1 ≤ c.toNat) && decide (c.toNat ≤ p.2))

/-- The `\b[23]X\b` alternative of `NON_STOCK_REGEX`: a '2' or '3'
followed by 'X' (the input is already uppercased), with a word boundary
on both sides. -/
def search23X (s : String) : Bool :=
  let cs := s.data
  (List.range cs.length).any (fun i =>
    match cs.drop i with
    | c :: 'X' :: rest =>
      (c = '2' || c = '3')
      && (i = 0 || !(isWordChar ((cs.drop (i - 1)).headD ' ')))
      && (match rest with | [] => true | d :: _ => !(isWordChar d))
    | _ => false)

/-- Literal alternatives of `NON_STOCK_REGEX` (all uppercase/Hangul, so
on the already-uppercased name IGNORECASE reduces to plain substring
search). -/
def NON_STOCK_REGEX_LITERALS : List String :=
  ["레버리지", "인버스", "선물", "커버드콜", "합성", "(H)",
   "ETF", "ETN", "REIT", "리츠", "SPAC", "스팩", "우선"]

/-- `re.search` of
`NON_STOCK_REGEX = (?:\b[23]X\b|레버리지|인버스|선물|커버드콜|합성|\(H\)|ETF|ETN|REIT|리츠|SPAC|스팩|우선)`. -/
def NON_STOCK_SEARCH (s : String) : Bool :=
  search23X s || NON_STOCK_REGEX_LITERALS.any (fun t => strContains s t)

/-- `re.fullmatch` of `KR_CODE_REGEX = ^\d{6}$`: exactly six Unicode
decimal digit characters.  Python's `\d` is not ASCII-only, so e.g.
six fullwidth digits also fullmatch. -/
def KR_CODE_FULLMATCH (s : String) : Bool :=
  s.data.length = 6 && s.data.all isPyDigit

/-- Company-class markers checked by `is_non_common_stock`. -/
def COMPANY_CLASS_MARKERS : List String :=
  ["스팩", "SPAC", "리츠", "REIT", "ETF", "ETN"]

/-- `src/kiwoom.py` `is_non_common_stock`: uppercase both inputs, then
short-circuit OR of the five exclusion rules (preferred-share regex,
company-class markers, ETF brand substrings, non-stock token
substrings, non-stock regex). -/
def is_non_common_stock (name : String) (company_class : String := "") : Bool :=
  let n := pyUpper name
  let c := pyUpper company_class
  PREFERRED_SEARCH n
  || COMPANY_CLASS_MARKERS.any (fun x => strContains c x)
  || ETF_BRANDS.any (fun b => strContains n b)
  || NON_STOCK_TOKENS.any (fun t => strContains n (pyUpper t))
  || NON_STOCK_SEARCH n

/-- One item of the ka10099 `list` response, restricted to the fields
read by `filter_stock_list` (the `str(item.get(...))` conversions are
modelled by the fields already being strings). -/
structure StockItem where
  code : String
  name : String
  companyClassName : String
deriving DecidableEq, Repr

/-- `src/kiwoom.py` `filter_stock_list`: keep an item iff its stripped
code fullmatches `^\d{6}$` and `is_non_common_stock` does not fire on
its stripped name and company class. -/
def filter_stock_list (items : List StockItem) : List StockItem :=
  items.filter (fun item =>
    KR_CODE_FULLMATCH (pyStrip item.code)
    && !is_non_common_stock (pyStrip item.name) (pyStrip item.companyClassName))

/-! ## Token TTL (`ttl_from_expires_dt`) -/

/-- `src/kiwoom.py` `ttl_from_expires_dt`.  The two datetimes are
abstracted to seconds on a common axis: `expSecs` is the parsed
`expires_dt` (`YYYYMMDDHHMMSS` interpreted in the fixed UTC+9 zone,
whole seconds, hence `ℤ`), `nowSecs` is `datetime.now(KST)` on the same
axis (microseconds, hence `ℚ`).  The code computes
`max(60, int((exp - now).total_seconds()) - safety_margin)`, where
`int` truncates toward zero. -/
def ttl_from_expires_dt (expSecs : ℤ) (nowSecs : ℚ) (safety_margin : ℤ := 30) : ℤ :=
  let ttl := ratTrunc ((expSecs : ℚ) - nowSecs) - safety_margin
  max 60 ttl

/-! ## Token manager (`get_access_token`, `fn_au10001`) -/

/-- The `{token, token_type}` record stored in / read from the external
cache.  An absent `token` key and an empty token string are both falsy
in Python, so absence is modelled as `""`. -/
structure CachedToken where
  token : String
  token_type : String
deriving DecidableEq, Repr

/-- Error kinds escaping the token manager (spec §7 names the
malformed-response and cache-verification failures TokenIssuanceError). -/
inductive TokenErr where
  | httpError (msg : String)
  | issuanceFailed
  | notFoundAfterWrite
deriving DecidableEq, Repr

/-- Body of a successful `au10001` token response, restricted to the
fields read by `fn_au10001`; an absent field is the empty string
(falsy, like `None`). -/
structure AuBody where
  token : String
  expires_dt : String
deriving DecidableEq, Repr

/-- Oracle for one `get_access_token` call: the first cache read, the
outcome of the `au10001` network exchange, and the cache contents seen
by the verification re-read (left free so that a failed or lost cache
write is representable). -/
structure TokenEnv where
  cacheRead1 : Option CachedToken
  issue : Except String AuBody
  cacheRead2 : Option CachedToken

/-- Result of `get_access_token` together with the number of network
(token-issuance) calls it performed. -/
structure TokenOutcome where
  result : Except TokenErr String
  networkCalls : ℕ
deriving Repr

/-- `src/kiwoom.py` `get_access_token`: return the cached token when
the first read yields a record with a truthy `token`; otherwise call
`fn_au10001` (which validates `token`/`expires_dt` and stores the
token), then re-read the cache and fail with `notFoundAfterWrite`
when the re-read finds no truthy token. -/
def get_access_token (env : TokenEnv) : TokenOutcome :=
  match env.cacheRead1 with
  | some c =>
    if c.token ≠ "" then ⟨.ok c.token, 0⟩
    else get_access_token_issue env
  | none => get_access_token_issue env
where
  /-- The issuance path: `fn_au10001` (HTTP errors propagate; a body
  with missing `token` or `expires_dt` raises), then the verification
  re-read. -/
  get_access_token_issue (env : TokenEnv) : TokenOutcome :=
    match env.issue with
    | .error e => ⟨.error (.httpError e), 1⟩
    | .ok body =>
      if body.token = "" || body.expires_dt = "" then ⟨.error .issuanceFailed, 1⟩
      else
        match env.cacheRead2 with
        | some c2 =>
          if c2.token ≠ "" then ⟨.ok c2.token, 1⟩
          else ⟨.error .notFoundAfterWrite, 1⟩
        | none => ⟨.error .notFoundAfterWrite, 1⟩

/-! ## Resilient request layer (`_post_tr`) -/

/-- Operational retry parameters of `src/kiwoom.py`. -/
def MAX_RETRIES : ℕ := 8

def BASE_SLEEP : ℚ := 6 / 10

def MAX_SLEEP : ℚ := 15

/-- The `Retry-After` header as `_post_tr` consumes it: absent (or the
falsy empty string), carrying a value `float()` parses, or present but
unparseable (`ValueError`). -/
inductive RetryAfterHdr where
  | absent
  | value (secs : ℚ)
  | unparseable
deriving DecidableEq, Repr

/-- One HTTP response, restricted to what `_post_tr` reads. -/
structure HttpResponse where
  status : ℕ
  retryAfter : RetryAfterHdr
  body : String
deriving DecidableEq, Repr

/-- The status set `_post_tr` treats as transient. -/
def isTransientStatus (s : ℕ) : Bool :=
  s = 429 || s = 500 || s = 502 || s = 503 || s = 504

/-- Sleep duration chosen for one transient response: the parsed
`Retry-After` value when it parses, the bare current backoff when the
header is present but unparseable, else `min(MAX_SLEEP, backoff)` plus
the jitter drawn from `random.uniform(0, 0.3)`. -/
def trSleep (r : HttpResponse) (backoff jitter : ℚ) : ℚ :=
  match r.retryAfter with
  | .value secs => secs
  | .unparseable => backoff
  | .absent => min MAX_SLEEP backoff + jitter

/-- Terminal outcome of `_post_tr`. -/
inductive TrOutcome where
  | ok (body : String)
  | transactionError (status : ℕ) (bodyPrefix : String)
  | retryExhausted
  | tokenError (e : TokenErr)
deriving DecidableEq, Repr

/-- The retry loop of `_post_tr`.  `resp i` is the response to the
`i`-th HTTP attempt (0-based), `jit i` the jitter drawn if attempt `i`
sleeps with jitter; `fuel` is the number of loop iterations remaining
(`MAX_RETRIES` at the top).  Returns the outcome, the sleep durations
performed in order, and the number of HTTP attempts made. -/
def post_tr_loop (resp : ℕ → HttpResponse) (jit : ℕ → ℚ) :
    ℕ → ℕ → ℚ → TrOutcome × List ℚ × ℕ
  | 0, _, _ => (.retryExhausted, [], 0)
  | fuel + 1, i, backoff =>
    let r := resp i
    if r.status = 200 then (.ok r.body, [], 1)
    else if isTransientStatus r.status then
      let s := trSleep r backoff (jit i)
      let (out, sleeps, att) :=
        post_tr_loop resp jit fuel (i + 1) (min MAX_SLEEP (backoff * 2))
      (out, s :: sleeps, att + 1)
    else (.transactionError r.status (⟨r.body.data.take 800⟩ : String), [], 1)

/-- Full trace of one `_post_tr` call. -/
structure PostTrace where
  outcome : TrOutcome
  sleeps : List ℚ
  attempts : ℕ
  tokenAcquisitions : ℕ
deriving DecidableEq, Repr

/-- `src/kiwoom.py` `_post_tr`: one `get_access_token()` call before
the loop (the token and headers are built once and reused by every
attempt), then up to `MAX_RETRIES` attempts with the transient-status
retry policy; falling off the loop raises retry-exhausted. -/
def post_tr (tenv : TokenEnv) (resp : ℕ → HttpResponse) (jit : ℕ → ℚ) : PostTrace :=
  match (get_access_token tenv).result with
  | .error e => ⟨.tokenError e, [], 0, 1⟩
  | .ok _token =>
    let (out, sleeps, att) := post_tr_loop resp jit MAX_RETRIES 0 BASE_SLEEP
    ⟨out, sleeps, att, 1⟩

/-! ## Fundamentals (`fn_ka10001_basic`) and the collection pipeline
(`collect_today_snapshot`) -/

/-- One row of the ka10086 `daly_stkpc` response, restricted to the
fields the pipeline reads. -/
structure DailyRec where
  open_pric : PyVal
  high_pric : PyVal
  low_pric : PyVal
  close_pric : PyVal
  trde_qty : PyVal
deriving DecidableEq, Repr

/-- Body of a ka10001 response, restricted to the fields
`fn_ka10001_basic` reads. -/
structure Ka10001Body where
  flo_stk : PyVal
  mac : PyVal
  stk_nm : Option String
deriving DecidableEq, Repr

/-- The dict returned by `fn_ka10001_basic`. -/
structure BasicInfo where
  listed_shares : ℤ
  market_cap : ℤ
  stk_nm : Option String
deriving DecidableEq, Repr

/-- `src/kiwoom.py` `fn_ka10001_basic` (the body-processing part after
`_post_tr`): `listed_shares = abs(_normalize_int(flo_stk)) * 1_000`,
`market_cap = abs(_normalize_int(mac)) * 100_000_000`. -/
def fn_ka10001_basic (body : Ka10001Body) : Except String BasicInfo := do
  let flo_stk_raw ← _normalize_int body.flo_stk
  let mac_raw ← _normalize_int body.mac
  return { listed_shares := |flo_stk_raw| * 1000
           market_cap := |mac_raw| * 100000000
           stk_nm := body.stk_nm }

/-- One output row of `collect_today_snapshot`. -/
structure DailyRow where
  code : String
  dt : String
  «open» : ℤ
  high : ℤ
  low : ℤ
  close : ℤ
  volume : ℤ
  listed_shares : ℤ
  market_cap : ℤ
  name : String
deriving DecidableEq, Repr

/-- The row-merging expression of `collect_today_snapshot`
(`abs(_normalize_int(...))` on the five price fields; `_normalize_int`
may raise `ValueError` inside the per-code `try`). -/
def mkRow (qry_dt code : String) (daily : DailyRec) (basic : BasicInfo) :
    Except String DailyRow := do
  let o ← _normalize_int daily.open_pric
  let h ← _normalize_int daily.high_pric
  let l ← _normalize_int daily.low_pric
  let c ← _normalize_int daily.close_pric
  let v ← _normalize_int daily.trde_qty
  return { code := code
           dt := qry_dt
           «open» := |o|
           high := |h|
           low := |l|
           close := |c|
           volume := |v|
           listed_shares := basic.listed_shares
           market_cap := basic.market_cap
           name := basic.stk_nm.getD "" }

/-- Oracle for the per-code fetches of `collect_today_snapshot`:
`fetchDaily code` is the outcome of `fn_ka10086_daily` (`.ok none`
for a falsy row — empty `daly_stkpc` list or falsy first element;
`.error` for any exception raised inside it, e.g. by `_post_tr`), and
`fetchBasic code` the outcome of `fn_ka10001_basic`. -/
structure CollectEnv where
  fetchDaily : String → Except String (Option DailyRec)
  fetchBasic : String → Except String BasicInfo

/-- What happened for one code in the per-code loop. -/
inductive CodeOutcome where
  | emitted (row : DailyRow)
  | skippedNoPrice
  | errored (e : String)
deriving DecidableEq, Repr

/-- The body of one iteration of the per-code loop of
`collect_today_snapshot`: fetch the daily record (`continue` when it
is falsy), fetch fundamentals, merge; any raised exception is caught
by the `except` clause. -/
def stepOutcome (env : CollectEnv) (qry_dt code : String) : CodeOutcome :=
  match env.fetchDaily code with
  | .error e => .errored e
  | .ok Option.none => .skippedNoPrice
  | .ok (some daily) =>
    match env.fetchBasic code with
    | .error e => .errored e
    | .ok basic =>
      match mkRow qry_dt code daily basic with
      | .error e => .errored e
      | .ok row => .emitted row

/-- The row that one code contributes to the output, if any. -/
def stepRow (env : CollectEnv) (qry_dt code : String) : Option DailyRow :=
  match stepOutcome env qry_dt code with
  | .emitted row => some row
  | _ => Option.none

/-- The per-code loop of `collect_today_snapshot`: rows appended in
order, together with the number of `time.sleep(per_code_sleep)` calls
performed.  `continue` on a falsy daily record jumps straight to the
next iteration, so that path performs no sleep; the emit path and the
caught-exception path fall through to the sleep. -/
def collect_loop (env : CollectEnv) (qry_dt : String) :
    List String → List DailyRow × ℕ
  | [] => ([], 0)
  | code :: rest =>
    let (rows, sleeps) := collect_loop env qry_dt rest
    match stepOutcome env qry_dt code with
    | .emitted row => (row :: rows, sleeps + 1)
    | .skippedNoPrice => (rows, sleeps)
    | .errored _ => (rows, sleeps + 1)

/-- `src/kiwoom.py` `collect_today_snapshot`, for an already-filtered
code list: the per-code loop's output rows. -/
def collect_today_snapshot (env : CollectEnv) (qry_dt : String)
    (codes : List String) : List DailyRow :=
  (collect_loop env qry_dt codes).1

/-- Oracle for the C2/C6 witnesses: the price lookup for "000001"
returns no record, every other code succeeds with constant data. -/
def envC2 : CollectEnv :=
  ⟨fun c => if c = "000001" then .ok Option.none
            else .ok (some ⟨.int 1, .int 2, .int 3, .int 4, .int 5⟩),
   fun _ => .ok ⟨1000, 2000, some "N"⟩⟩

/-- Oracle whose price lookup never returns a record. -/
def envSkipAll : CollectEnv :=
  ⟨fun _ => .ok Option.none, fun _ => .ok ⟨0, 0, Option.none⟩⟩

/-- The backoff value in force at the k-th sleep, starting from `b`:
each step replaces `b` by `min MAX_SLEEP (b * 2)`. -/
def iterCap : ℚ → ℕ → ℚ
  | b, 0 => b
  | b, k + 1 => iterCap (min MAX_SLEEP (b * 2)) k

/-- Rigged responses: two 503s then a 200. -/
def resp503twice : ℕ → HttpResponse :=
  fun i => if i < 2 then ⟨503, .absent, "err"⟩ else ⟨200, .absent, "okbody"⟩

/-- Rigged responses: 503 forever. -/
def resp503always : ℕ → HttpResponse :=
  fun _ => ⟨503, .absent, "err"⟩

/-- A token environment whose first cache read already holds a token. -/
def tenvOK : TokenEnv :=
  ⟨some ⟨"tok", "Bearer"⟩, .error "unused", Option.none⟩

/-! ## Theorems -/

theorem ratTrunc_intCast (n : ℤ) : ratTrunc (n : ℚ) = n := by
  unfold ratTrunc
  rcases le_or_lt 0 n with h | h <;> simp [Rat.num_intCast, Rat.den_intCast]

/-- C4: `ttl_from_expires_dt` returns
`max(60, trunc(expires_dt − now) − 30)` (both times on the fixed UTC+9
axis); for an expiry 3600 seconds after now it returns 3570, and it is
never below 60, even for an expiry in the past. -/
theorem C4_ttl_from_expires_dt (expSecs : ℤ) (nowSecs : ℚ) :
    ttl_from_expires_dt expSecs nowSecs
      = max 60 (ratTrunc ((expSecs : ℚ) - nowSecs) - 30)
    ∧ (∀ n : ℤ, ttl_from_expires_dt (n + 3600) (n : ℚ) = 3570)
    ∧ 60 ≤ ttl_from_expires_dt expSecs nowSecs
    ∧ (∀ past : ℤ, (past : ℚ) < nowSecs → 60 ≤ ttl_from_expires_dt past nowSecs) := by
  refine ⟨rfl, ?_, le_max_left _ _, fun past _ => le_max_left _ _⟩
  intro n
  show max 60 (ratTrunc ((((n + 3600 : ℤ)) : ℚ) - (n : ℚ)) - 30) = 3570
  have h : (((n + 3600 : ℤ)) : ℚ) - (n : ℚ) = ((3600 : ℤ) : ℚ) := by push_cast; ring
  rw [h, ratTrunc_intCast]
  decide

theorem C4_witness :
    ttl_from_expires_dt (0 + 3600) ((0 : ℤ) : ℚ) = 3570
    ∧ 60 ≤ ttl_from_expires_dt (-5) (50 : ℚ) :=
  ⟨(C4_ttl_from_expires_dt 0 0).2.1 0,
   (C4_ttl_from_expires_dt (-5) 50).2.2.2 (-5) (by norm_num)⟩

@[simp]
theorem exceptBind_eq_ok {ε α β : Type} (x : Except ε α) (f : α → Except ε β) (b : β) :
    (x >>= f) = .ok b ↔ ∃ a, x = .ok a ∧ f a = .ok b := by
  cases x <;> simp [Bind.bind, Except.bind]

theorem fn_ka10001_basic_ok (body : Ka10001Body) (r : BasicInfo)
    (h : fn_ka10001_basic body = .ok r) :
    ∃ f m : ℤ, _normalize_int body.flo_stk = .ok f ∧ _normalize_int body.mac = .ok m
      ∧ r = ⟨|f| * 1000, |m| * 100000000, body.stk_nm⟩ := by
  simp only [fn_ka10001_basic, exceptBind_eq_ok] at h
  obtain ⟨f, hf, m, hm, hr⟩ := h
  simp only [pure, Except.pure, Except.ok.injEq] at hr
  exact ⟨f, m, hf, hm, hr.symm⟩

theorem mkRow_ok (q c : String) (d : DailyRec) (b : BasicInfo) (r : DailyRow)
    (h : mkRow q c d b = .ok r) :
    ∃ o hh l cl v : ℤ,
      _normalize_int d.open_pric = .ok o ∧ _normalize_int d.high_pric = .ok hh
      ∧ _normalize_int d.low_pric = .ok l ∧ _normalize_int d.close_pric = .ok cl
      ∧ _normalize_int d.trde_qty = .ok v
      ∧ r = ⟨c, q, |o|, |hh|, |l|, |cl|, |v|,
             b.listed_shares, b.market_cap, b.stk_nm.getD ""⟩ := by
  simp only [mkRow, exceptBind_eq_ok] at h
  obtain ⟨o, ho, hh, hhh, l, hl, cl, hcl, v, hv, hr⟩ := h
  simp only [pure, Except.pure, Except.ok.injEq] at hr
  exact ⟨o, hh, l, cl, v, ho, hhh, hl, hcl, hv, hr.symm⟩

/-- C8: the emitted listed-shares value is the absolute value of the
comma-stripped parsed `flo_stk` times 1000 and the market cap is the
absolute value of the parsed `mac` times 100,000,000; `flo_stk =
"1,234"` and `mac = "-56"` yield 1234000 and 5600000000; and every
numeric field of a `DailyRow` built from them (including the
abs-normalized open/high/low/close/volume) is a non-negative integer. -/
theorem C8_unit_conversion :
    (∀ (body : Ka10001Body) (r : BasicInfo), fn_ka10001_basic body = .ok r →
        ∃ f m : ℤ, _normalize_int body.flo_stk = .ok f ∧ _normalize_int body.mac = .ok m
          ∧ r.listed_shares = |f| * 1000 ∧ r.market_cap = |m| * 100000000)
    ∧ fn_ka10001_basic ⟨.str "1,234", .str "-56", Option.none⟩
        = .ok ⟨1234000, 5600000000, Option.none⟩
    ∧ (∀ (body : Ka10001Body) (b : BasicInfo) (q c : String) (d : DailyRec) (r : DailyRow),
        fn_ka10001_basic body = .ok b → mkRow q c d b = .ok r →
        0 ≤ r.«open» ∧ 0 ≤ r.high ∧ 0 ≤ r.low ∧ 0 ≤ r.close ∧ 0 ≤ r.volume
          ∧ 0 ≤ r.listed_shares ∧ 0 ≤ r.market_cap) := by
  refine ⟨?_, by rfl, ?_⟩
  · intro body r h
    obtain ⟨f, m, hf, hm, hr⟩ := fn_ka10001_basic_ok body r h
    exact ⟨f, m, hf, hm, by rw [hr], by rw [hr]⟩
  · intro body b q c d r hb hr
    obtain ⟨f, m, _, _, hbeq⟩ := fn_ka10001_basic_ok body b hb
    obtain ⟨o, hh, l, cl, v, _, _, _, _, _, hreq⟩ := mkRow_ok q c d b r hr
    subst hbeq hreq
    refine ⟨abs_nonneg o, abs_nonneg hh, abs_nonneg l, abs_nonneg cl, abs_nonneg v, ?_, ?_⟩
    · exact mul_nonneg (abs_nonneg f) (by norm_num)
    · exact mul_nonneg (abs_nonneg m) (by norm_num)

theorem C8_witness :
    (∃ f m : ℤ,
      _normalize_int (Ka10001Body.mk (.str "1,234") (.str "-56") Option.none).flo_stk = .ok f
      ∧ _normalize_int (Ka10001Body.mk (.str "1,234") (.str "-56") Option.none).mac = .ok m
      ∧ (BasicInfo.mk 1234000 5600000000 Option.none).listed_shares = |f| * 1000
      ∧ (BasicInfo.mk 1234000 5600000000 Option.none).market_cap = |m| * 100000000)
    ∧ (0 : ℤ) ≤ (DailyRow.mk "005930" "20250101" 10 12 9 11 100 1234000 5600000000 "").«open» := by
  constructor
  · exact C8_unit_conversion.1 ⟨.str "1,234", .str "-56", Option.none⟩
      ⟨1234000, 5600000000, Option.none⟩ (by rfl)
  · exact (C8_unit_conversion.2.2 ⟨.str "1,234", .str "-56", Option.none⟩
      ⟨1234000, 5600000000, Option.none⟩ "20250101" "005930"
      ⟨.int 10, .int 12, .int 9, .int 11, .int 100⟩
      ⟨"005930", "20250101", 10, 12, 9, 11, 100, 1234000, 5600000000, ""⟩
      (by rfl) (by rfl)).1

/-- C10: `_normalize_int` returns 0 (and does not raise) on `None` /
an absent key and on the empty string, so a fundamentals response
missing `flo_stk` or `mac` yields `listed_shares = 0` and
`market_cap = 0`, and the pipeline emits a `DailyRow` with those zero
values for the code instead of treating it as a per-code failure. -/
theorem C10_missing_fundamentals :
    _normalize_int .none = .ok 0
    ∧ _normalize_int (.str "") = .ok 0
    ∧ (∀ body : Ka10001Body,
        (body.flo_stk = .none ∨ body.flo_stk = .str "") →
        (body.mac = .none ∨ body.mac = .str "") →
        fn_ka10001_basic body = .ok ⟨0, 0, body.stk_nm⟩)
    ∧ (∀ (o h l c v : ℤ) (qry_dt code : String) (stk_nm : Option String),
        collect_today_snapshot
          ⟨fun _ => .ok (some ⟨.int o, .int h, .int l, .int c, .int v⟩),
           fun _ => fn_ka10001_basic ⟨.none, .none, stk_nm⟩⟩
          qry_dt [code]
        = [⟨code, qry_dt, |o|, |h|, |l|, |c|, |v|, 0, 0, stk_nm.getD ""⟩]) := by
  have hnorm : ∀ x : PyVal, (x = .none ∨ x = .str "") → _normalize_int x = .ok 0 := by
    rintro x (rfl | rfl) <;> rfl
  refine ⟨rfl, rfl, ?_, ?_⟩
  · intro body hf hm
    have h1 := hnorm _ hf
    have h2 := hnorm _ hm
    simp only [fn_ka10001_basic, h1, h2, exceptBind_eq_ok]
    exact ⟨0, rfl, 0, rfl, by simp [pure, Except.pure]⟩
  · intro o h l c v qry_dt code stk_nm
    simp only [collect_today_snapshot, collect_loop, stepOutcome, mkRow,
      fn_ka10001_basic, _normalize_int]
    simp [Bind.bind, Except.bind, pure, Except.pure]

theorem C10_witness :
    fn_ka10001_basic ⟨.none, .str "", some "회사"⟩ = .ok ⟨0, 0, some "회사"⟩
    ∧ collect_today_snapshot
        ⟨fun _ => .ok (some ⟨.int 5, .int 7, .int 4, .int 6, .int (-3)⟩),
         fun _ => fn_ka10001_basic ⟨.none, .none, some "회사"⟩⟩
        "20250101" ["000001"]
      = [⟨"000001", "20250101", |(5 : ℤ)|, |(7 : ℤ)|, |(4 : ℤ)|, |(6 : ℤ)|, |(-3 : ℤ)|,
          0, 0, (some "회사").getD ""⟩] :=
  ⟨C10_missing_fundamentals.2.2.1 ⟨.none, .str "", some "회사"⟩ (Or.inl rfl) (Or.inr rfl),
   C10_missing_fundamentals.2.2.2 5 7 4 6 (-3) "20250101" "000001" (some "회사")⟩

/-- C7: `get_access_token` returns the cached token with no network
call whenever the first cache read yields a record with a non-empty
token; otherwise it performs exactly one credential-grant request and,
after a successful issuance, decides by re-reading the cache: a
re-read without a (non-empty) token fails with the
cache-verification error, and a re-read with one returns it —
the store call's own return value is never consulted (the model's
`cacheRead2` is independent of the write). -/
theorem C7_get_access_token :
    (∀ (env : TokenEnv) (c : CachedToken),
        env.cacheRead1 = some c → c.token ≠ "" →
        get_access_token env = ⟨.ok c.token, 0⟩)
    ∧ (∀ env : TokenEnv,
        (∀ c, env.cacheRead1 = some c → c.token = "") →
        (get_access_token env).networkCalls = 1
        ∧ (∀ body : AuBody, env.issue = .ok body →
            body.token ≠ "" → body.expires_dt ≠ "" →
            ((∀ c2, env.cacheRead2 = some c2 → c2.token = "") →
              (get_access_token env).result = .error .notFoundAfterWrite)
            ∧ (∀ c2, env.cacheRead2 = some c2 → c2.token ≠ "" →
              (get_access_token env).result = .ok c2.token))) := by
  constructor
  · intro env c hread htok
    unfold get_access_token
    rw [hread]
    simp [htok]
  · intro env hempty
    have hissue : get_access_token env = get_access_token.get_access_token_issue env := by
      unfold get_access_token
      cases hc : env.cacheRead1 with
      | none => rfl
      | some c => simp [hempty c hc]
    rw [hissue]
    unfold get_access_token.get_access_token_issue
    constructor
    · rcases env with ⟨r1, issue, r2⟩
      rcases issue with e | body
      · rfl
      · simp only []
        split
        · rfl
        · rcases r2 with _ | c2
          · rfl
          · simp only []
            split <;> rfl
    · intro body hbody htok hexp
      rw [hbody]
      simp only [htok, hexp, Bool.or_self, decide_eq_true_eq]
      rw [if_neg (by simp [htok, hexp])]
      constructor
      · intro hempty2
        cases hc2 : env.cacheRead2 with
        | none => rfl
        | some c2 => simp [hempty2 c2 hc2]
      · intro c2 hc2 htok2
        rw [hc2]
        simp [htok2]

theorem C7_witness :
    get_access_token ⟨some ⟨"tokA", "Bearer"⟩, .error "unused", Option.none⟩
      = ⟨.ok "tokA", 0⟩
    ∧ (get_access_token ⟨Option.none, .ok ⟨"tokB", "20991231235959"⟩, Option.none⟩).networkCalls
        = 1
    ∧ (get_access_token ⟨Option.none, .ok ⟨"tokB", "20991231235959"⟩, Option.none⟩).result
        = .error .notFoundAfterWrite := by
  refine ⟨C7_get_access_token.1 _ ⟨"tokA", "Bearer"⟩ rfl (by decide), ?_, ?_⟩
  · exact (C7_get_access_token.2 _ (fun c hc => Option.noConfusion hc)).1
  · exact ((C7_get_access_token.2 _ (fun c hc => Option.noConfusion hc)).2
      ⟨"tokB", "20991231235959"⟩ rfl (by decide) (by decide)).1
      (fun c2 hc2 => Option.noConfusion hc2)

theorem collect_loop_rows (env : CollectEnv) (q : String) (codes : List String) :
    (collect_loop env q codes).1 = codes.filterMap (stepRow env q) := by
  induction codes with
  | nil => rfl
  | cons code rest ih =>
    simp only [collect_loop, List.filterMap_cons]
    cases h : stepOutcome env q code <;> simp [stepRow, h, ih]

theorem collect_loop_sleeps (env : CollectEnv) (q : String) (codes : List String) :
    (collect_loop env q codes).2
      = codes.countP (fun c => decide (stepOutcome env q c ≠ CodeOutcome.skippedNoPrice)) := by
  induction codes with
  | nil => rfl
  | cons code rest ih =>
    simp only [collect_loop, List.countP_cons]
    cases h : stepOutcome env q code <;> simp [h, ih]

theorem stepRow_some (env : CollectEnv) (q code : String) (row : DailyRow)
    (h : stepRow env q code = some row) :
    ∃ daily basic, env.fetchDaily code = .ok (some daily)
      ∧ env.fetchBasic code = .ok basic ∧ mkRow q code daily basic = .ok row := by
  cases h1 : env.fetchDaily code with
  | error e => simp [stepRow, stepOutcome, h1] at h
  | ok od =>
    cases od with
    | none => simp [stepRow, stepOutcome, h1] at h
    | some daily =>
      cases h2 : env.fetchBasic code with
      | error e => simp [stepRow, stepOutcome, h1, h2] at h
      | ok basic =>
        cases h3 : mkRow q code daily basic with
        | error e => simp [stepRow, stepOutcome, h1, h2, h3] at h
        | ok row2 =>
          simp only [stepRow, stepOutcome, h1, h2, h3, Option.some.injEq] at h
          exact ⟨daily, basic, rfl, rfl, by rw [h3, h]⟩

/-- C2: the pipeline's output is exactly the in-order `filterMap` of
the per-code step, so a `DailyRow` appears only when both the price
lookup returned a record and the fundamentals lookup (and the merge)
succeeded; a code whose price lookup returns no record contributes no
row and raises nothing; and a code whose step contributes no row
(skipped or caught exception) leaves the rows of the codes before and
after it untouched. -/
theorem C2_per_code_isolation :
    (∀ (env : CollectEnv) (q : String) (codes : List String),
        collect_today_snapshot env q codes = codes.filterMap (stepRow env q))
    ∧ (∀ (env : CollectEnv) (q code : String) (row : DailyRow),
        stepRow env q code = some row →
        ∃ daily basic, env.fetchDaily code = .ok (some daily)
          ∧ env.fetchBasic code = .ok basic ∧ mkRow q code daily basic = .ok row)
    ∧ (∀ (env : CollectEnv) (q code : String),
        env.fetchDaily code = .ok Option.none → stepRow env q code = Option.none)
    ∧ (∀ (env : CollectEnv) (q code : String) (pre post : List String),
        stepRow env q code = Option.none →
        collect_today_snapshot env q (pre ++ code :: post)
          = collect_today_snapshot env q pre ++ collect_today_snapshot env q post) := by
  refine ⟨fun env q codes => collect_loop_rows env q codes, stepRow_some, ?_, ?_⟩
  · intro env q code h
    unfold stepRow stepOutcome
    rw [h]
  · intro env q code pre post h
    unfold collect_today_snapshot
    rw [collect_loop_rows, collect_loop_rows, collect_loop_rows,
      List.filterMap_append, List.filterMap_cons, h]

theorem C2_witness :
    stepRow envC2 "20250101" "000001" = Option.none
    ∧ collect_today_snapshot envC2 "20250101" (["005930"] ++ "000001" :: ["000660"])
        = collect_today_snapshot envC2 "20250101" ["005930"]
          ++ collect_today_snapshot envC2 "20250101" ["000660"] := by
  have h0 : envC2.fetchDaily "000001" = .ok Option.none := by rfl
  refine ⟨C2_per_code_isolation.2.2.1 envC2 "20250101" "000001" h0, ?_⟩
  exact C2_per_code_isolation.2.2.2 envC2 "20250101" "000001" ["005930"] ["000660"]
    (C2_per_code_isolation.2.2.1 envC2 "20250101" "000001" h0)

/-- C6 counterexample: a code skipped because the price lookup
returned no record performs no `per_code_sleep` sleep at all — the
`continue` jumps past the end-of-iteration sleep — so the sleep is not
performed "after each code regardless of the outcome". -/
theorem C6_counterexample :
    stepOutcome envSkipAll "20250101" "000001" = .skippedNoPrice
    ∧ (collect_loop envSkipAll "20250101" ["000001"]).2 = 0
    ∧ (collect_loop envSkipAll "20250101" ["000001"]).2 ≠ 1 := by
  exact ⟨rfl, rfl, by decide⟩

/-- C6 amended: the `perCodeDelaySeconds` sleep is performed after
each code whose iteration emits a row or catches an exception, but not
after a code skipped because no price record was returned (`continue`
bypasses the sleep); the number of sleeps is the number of non-skipped
codes. -/
theorem C6_sleep_after_non_skipped (env : CollectEnv) (q : String) (codes : List String) :
    (collect_loop env q codes).2
      = codes.countP (fun c => decide (stepOutcome env q c ≠ CodeOutcome.skippedNoPrice)) :=
  collect_loop_sleeps env q codes

theorem isPrefixChars_head (a : Char) (as bs : List Char)
    (h : isPrefixChars (a :: as) bs = true) : bs.head? = some a := by
  cases bs with
  | nil => simp [isPrefixChars] at h
  | cons b bs' =>
    simp only [isPrefixChars, Bool.and_eq_true, decide_eq_true_eq] at h
    simp [h.1]

theorem head?_mem_chars (l : List Char) (a : Char) (h : l.head? = some a) : a ∈ l := by
  cases l with
  | nil => simp at h
  | cons x xs => simp only [List.head?_cons, Option.some.injEq] at h; simp [h]

/-- The preferred-share regex search fires exactly on the strings that
contain the character '우' anywhere: the `\d*우[B-C]?` alternative can
take zero digits and no suffix, so a bare '우' matches, and every
alternative contains '우'. -/
theorem PREFERRED_SEARCH_iff (s : String) :
    PREFERRED_SEARCH s = true ↔ '우' ∈ s.data := by
  unfold PREFERRED_SEARCH
  rw [List.any_eq_true]
  constructor
  · rintro ⟨i, _, hmatch⟩
    simp only [Bool.or_eq_true, decide_eq_true_eq] at hmatch
    rcases hmatch with (h | h) | h
    · have h1 : '우' ∈ (s.data.drop i).dropWhile isPyDigit := head?_mem_chars _ _ h
      exact (List.drop_sublist _ _).subset ((List.dropWhile_sublist _).subset h1)
    · have h1 := isPrefixChars_head '우' ['선'] _ h
      exact (List.drop_sublist _ _).subset (head?_mem_chars _ _ h1)
    · have h1 := isPrefixChars_head '우' ['선', '주'] _ h
      exact (List.drop_sublist _ _).subset (head?_mem_chars _ _ h1)
  · intro hmem
    obtain ⟨⟨i, hilen⟩, hget⟩ := List.mem_iff_get.mp hmem
    refine ⟨i, List.mem_range.mpr hilen, ?_⟩
    have hdrop : s.data.drop i = '우' :: s.data.drop (i + 1) := by
      rw [List.drop_eq_getElem_cons hilen]
      congr 1
    simp only [Bool.or_eq_true, decide_eq_true_eq]
    left; left
    have hd : isPyDigit '우' = false := by decide
    rw [hdrop, List.dropWhile_cons, hd]
    simp

/-- C9: the preferred-share rule is an unanchored substring search, so
any name containing '우' anywhere — including ordinary company names
like "우리금융지주" — is classified as non-common stock and excluded
by the filter, whatever its company class. -/
theorem C9_preferred_rule_overreach :
    (∀ name company_class : String, '우' ∈ name.data →
        is_non_common_stock name company_class = true)
    ∧ is_non_common_stock "우리금융지주" "" = true
    ∧ (∀ company_class : String,
        filter_stock_list [⟨"316140", "우리금융지주", company_class⟩] = []) := by
  have hmain : ∀ name company_class : String, '우' ∈ name.data →
      is_non_common_stock name company_class = true := by
    intro name cc hmem
    have hU : upperChars '우' = ['우'] := by decide
    have hup : '우' ∈ (pyUpper name).data := by
      show '우' ∈ (name.data.map upperChars).flatten
      exact List.mem_flatten.mpr ⟨upperChars '우',
        List.mem_map.mpr ⟨'우', hmem, rfl⟩,
        by rw [hU]; exact List.mem_singleton.mpr rfl⟩
    unfold is_non_common_stock
    simp only [Bool.or_eq_true]
    exact Or.inl (Or.inl (Or.inl (Or.inl ((PREFERRED_SEARCH_iff _).mpr hup))))
  refine ⟨hmain, hmain "우리금융지주" "" (by decide), ?_⟩
  intro cc
  have h := hmain (pyStrip "우리금융지주") (pyStrip cc) (by decide)
  simp [filter_stock_list, h]

theorem C9_witness :
    is_non_common_stock "삼성전자우" "" = true
    ∧ is_non_common_stock "우리금융지주" "" = true
    ∧ filter_stock_list [⟨"316140", "우리금융지주", ""⟩] = [] :=
  ⟨C9_preferred_rule_overreach.1 "삼성전자우" "" (by decide),
   C9_preferred_rule_overreach.2.1,
   C9_preferred_rule_overreach.2.2 ""⟩

theorem post_tr_loop_attempts_le (resp : ℕ → HttpResponse) (jit : ℕ → ℚ) :
    ∀ (fuel i : ℕ) (b : ℚ), (post_tr_loop resp jit fuel i b).2.2 ≤ fuel := by
  intro fuel
  induction fuel with
  | zero => intro i b; simp [post_tr_loop]
  | succ n ih =>
    intro i b
    simp only [post_tr_loop]
    split
    · simp
    · split
      · rcases hrec : post_tr_loop resp jit n (i + 1) (min MAX_SLEEP (b * 2)) with ⟨o, sl, a⟩
        have := ih (i + 1) (min MAX_SLEEP (b * 2))
        rw [hrec] at this
        simp at this ⊢
        omega
      · simp

theorem post_tr_loop_congr (jit : ℕ → ℚ) :
    ∀ (fuel : ℕ) (resp rsp2 : ℕ → HttpResponse) (i : ℕ) (b : ℚ),
      (∀ k, k < fuel → resp (i + k) = rsp2 (i + k)) →
      post_tr_loop resp jit fuel i b = post_tr_loop rsp2 jit fuel i b := by
  intro fuel
  induction fuel with
  | zero => intro resp rsp2 i b _; rfl
  | succ n ih =>
    intro resp rsp2 i b hagree
    have h0 : resp i = rsp2 i := by simpa using hagree 0 (Nat.succ_pos n)
    have hrec := ih resp rsp2 (i + 1) (min MAX_SLEEP (b * 2)) (fun k hk => by
      have := hagree (k + 1) (by omega)
      rwa [show i + (k + 1) = i + 1 + k by omega] at this)
    simp only [post_tr_loop, h0, hrec]

theorem post_tr_loop_sleeps_get? (resp : ℕ → HttpResponse) (jit : ℕ → ℚ) :
    ∀ (fuel i : ℕ) (b : ℚ) (k : ℕ) (s : ℚ),
      (post_tr_loop resp jit fuel i b).2.1.get? k = some s →
      s = trSleep (resp (i + k)) (iterCap b k) (jit (i + k)) := by
  intro fuel
  induction fuel with
  | zero => intro i b k s h; simp [post_tr_loop] at h
  | succ n ih =>
    intro i b k s h
    by_cases h200 : (resp i).status = 200
    · simp [post_tr_loop, h200] at h
    · by_cases htr : isTransientStatus (resp i).status = true
      · rcases hrec : post_tr_loop resp jit n (i + 1) (min MAX_SLEEP (b * 2)) with ⟨o, sl, a⟩
        have hunf : post_tr_loop resp jit (n + 1) i b
            = (o, trSleep (resp i) b (jit i) :: sl, a + 1) := by
          simp only [post_tr_loop, hrec]
          rw [if_neg h200, if_pos htr]
        rw [hunf] at h
        cases k with
        | zero =>
          simp only [List.get?_cons_zero, Option.some.injEq] at h
          simpa [iterCap] using h.symm
        | succ m =>
          simp only [List.get?_cons_succ] at h
          have := ih (i + 1) (min MAX_SLEEP (b * 2)) m s (by rw [hrec]; exact h)
          rw [this]
          have harith : i + 1 + m = i + (m + 1) := by omega
          rw [harith]
          rfl
      · simp [post_tr_loop, h200, htr] at h

theorem iterCap_eq (k : ℕ) :
    ∀ b : ℚ, 0 < b → b ≤ MAX_SLEEP → iterCap b k = min MAX_SLEEP (b * 2 ^ k) := by
  induction k with
  | zero =>
    intro b _ hble
    simp only [iterCap, pow_zero, mul_one]
    exact (min_eq_right hble).symm
  | succ n ih =>
    intro b hb hble
    show iterCap (min MAX_SLEEP (b * 2)) n = min MAX_SLEEP (b * 2 ^ (n + 1))
    rw [ih (min MAX_SLEEP (b * 2)) (lt_min (by norm_num [MAX_SLEEP]) (by positivity))
      (min_le_left _ _)]
    have hpow : (1 : ℚ) ≤ 2 ^ n := one_le_pow₀ (by norm_num)
    rcases le_total (b * 2) MAX_SLEEP with h | h
    · rw [min_eq_right h, show b * 2 * 2 ^ n = b * 2 ^ (n + 1) by ring]
    · rw [min_eq_left h]
      have h1 : MAX_SLEEP ≤ MAX_SLEEP * 2 ^ n :=
        le_mul_of_one_le_right (by norm_num [MAX_SLEEP]) hpow
      have h2 : MAX_SLEEP ≤ b * 2 ^ (n + 1) := by
        calc MAX_SLEEP ≤ MAX_SLEEP * 2 ^ n := h1
        _ ≤ b * 2 * 2 ^ n := by
            have : (0 : ℚ) < 2 ^ n := by positivity
            nlinarith
        _ = b * 2 ^ (n + 1) := by ring
      rw [min_eq_left h1, min_eq_left h2]

theorem post_tr_token_ok (tenv : TokenEnv) (t : String)
    (h : (get_access_token tenv).result = .ok t) (resp : ℕ → HttpResponse) (jit : ℕ → ℚ) :
    post_tr tenv resp jit
      = ⟨(post_tr_loop resp jit MAX_RETRIES 0 BASE_SLEEP).1,
         (post_tr_loop resp jit MAX_RETRIES 0 BASE_SLEEP).2.1,
         (post_tr_loop resp jit MAX_RETRIES 0 BASE_SLEEP).2.2, 1⟩ := by
  rcases hX : post_tr_loop resp jit MAX_RETRIES 0 BASE_SLEEP with ⟨o, sl, a⟩
  unfold post_tr
  rw [h, hX]

/-- C1: `_post_tr` retries the transient statuses {429, 500, 502, 503,
504} for at most `MAX_RETRIES = 8` attempts; the k-th sleep equals the
`Retry-After` value when it parses, else the bare backoff when the
header is unparseable, else `min(15, backoff) + jitter` (`trSleep`),
with the backoff in force being `min(15, 0.6 · 2^k)` — doubling, capped
at 15 s, starting from 0.6 s; for [503, 503, 200] the 200 body is
returned after exactly 2 sleeps forming a non-decreasing sequence when
the jitters lie in [0, 0.3]; for 8 consecutive 503s the call ends in
retry-exhausted after exactly 8 attempts, and responses beyond the 8th
are never consulted (no 9th attempt). -/
theorem C1_retry_policy :
    (∀ (tenv : TokenEnv) (resp : ℕ → HttpResponse) (jit : ℕ → ℚ),
        (post_tr tenv resp jit).attempts ≤ MAX_RETRIES)
    ∧ (∀ (tenv : TokenEnv) (resp : ℕ → HttpResponse) (jit : ℕ → ℚ) (k : ℕ) (s : ℚ),
        (post_tr tenv resp jit).sleeps.get? k = some s →
        s = trSleep (resp k) (min MAX_SLEEP (BASE_SLEEP * 2 ^ k)) (jit k))
    ∧ (∀ (tenv : TokenEnv) (t : String) (jit : ℕ → ℚ),
        (get_access_token tenv).result = .ok t →
        post_tr tenv resp503twice jit
          = ⟨.ok "okbody", [6 / 10 + jit 0, 6 / 5 + jit 1], 3, 1⟩)
    ∧ (∀ (tenv : TokenEnv) (t : String) (jit : ℕ → ℚ),
        (get_access_token tenv).result = .ok t →
        (∀ i, 0 ≤ jit i ∧ jit i ≤ 3 / 10) →
        (post_tr tenv resp503twice jit).sleeps.length = 2
        ∧ List.Chain' (· ≤ ·) (post_tr tenv resp503twice jit).sleeps)
    ∧ (∀ (tenv : TokenEnv) (t : String) (jit : ℕ → ℚ),
        (get_access_token tenv).result = .ok t →
        post_tr tenv resp503always jit
          = ⟨.retryExhausted,
             [3 / 5 + jit 0, 6 / 5 + jit 1, 12 / 5 + jit 2, 24 / 5 + jit 3,
              48 / 5 + jit 4, 15 + jit 5, 15 + jit 6, 15 + jit 7], 8, 1⟩)
    ∧ (∀ (tenv : TokenEnv) (resp rsp2 : ℕ → HttpResponse) (jit : ℕ → ℚ),
        (∀ i, i < MAX_RETRIES → resp i = rsp2 i) →
        post_tr tenv resp jit = post_tr tenv rsp2 jit) := by
  have hscen1 : ∀ (tenv : TokenEnv) (t : String) (jit : ℕ → ℚ),
      (get_access_token tenv).result = .ok t →
      post_tr tenv resp503twice jit
        = ⟨.ok "okbody", [6 / 10 + jit 0, 6 / 5 + jit 1], 3, 1⟩ := by
    intro tenv t jit h
    rw [post_tr_token_ok tenv t h]
    simp [post_tr_loop, MAX_RETRIES, resp503twice, trSleep, isTransientStatus,
      MAX_SLEEP, BASE_SLEEP]
    norm_num
  refine ⟨?_, ?_, hscen1, ?_, ?_, ?_⟩
  · intro tenv resp jit
    unfold post_tr
    cases h : (get_access_token tenv).result
    · simp [MAX_RETRIES]
    · rcases hX : post_tr_loop resp jit MAX_RETRIES 0 BASE_SLEEP with ⟨o, sl, a⟩
      have := post_tr_loop_attempts_le resp jit MAX_RETRIES 0 BASE_SLEEP
      rw [hX] at this
      simpa using this
  · intro tenv resp jit k s h
    cases htok : (get_access_token tenv).result with
    | error e =>
      unfold post_tr at h
      rw [htok] at h
      simp at h
    | ok t =>
      rw [post_tr_token_ok tenv t htok] at h
      have := post_tr_loop_sleeps_get? resp jit MAX_RETRIES 0 BASE_SLEEP k s h
      rw [this, iterCap_eq k BASE_SLEEP (by norm_num [BASE_SLEEP]) (by norm_num [BASE_SLEEP, MAX_SLEEP])]
      simp
  · intro tenv t jit h hj
    rw [hscen1 tenv t jit h]
    refine ⟨rfl, ?_⟩
    have h0 := hj 0
    have h1 := hj 1
    simp only [List.chain'_cons, List.chain'_singleton, and_true]
    linarith
  · intro tenv t jit h
    rw [post_tr_token_ok tenv t h]
    simp [post_tr_loop, MAX_RETRIES, resp503always, trSleep, isTransientStatus,
      MAX_SLEEP, BASE_SLEEP]
    norm_num
  · intro tenv resp rsp2 jit h
    have hloop := post_tr_loop_congr jit MAX_RETRIES resp rsp2 0 BASE_SLEEP
      (fun k hk => by simpa using h k hk)
    unfold post_tr
    rw [hloop]

theorem C1_witness :
    post_tr tenvOK resp503twice (fun _ => 0)
      = ⟨.ok "okbody", [3 / 5, 6 / 5], 3, 1⟩
    ∧ (post_tr tenvOK resp503twice (fun _ => 0)).sleeps.length = 2
    ∧ List.Chain' (· ≤ ·) (post_tr tenvOK resp503twice (fun _ => 0)).sleeps
    ∧ (post_tr tenvOK resp503always (fun _ => 0)).outcome = .retryExhausted
    ∧ (post_tr tenvOK resp503always (fun _ => 0)).attempts = 8 := by
  have h1 := C1_retry_policy.2.2.1 tenvOK "tok" (fun _ => 0) rfl
  have h2 := C1_retry_policy.2.2.2.1 tenvOK "tok" (fun _ => 0) rfl
    (fun i => by norm_num)
  have h3 := C1_retry_policy.2.2.2.2.1 tenvOK "tok" (fun _ => 0) rfl
  norm_num at h1 h3
  exact ⟨h1, h2.1, h2.2, by rw [h3], by rw [h3]⟩

/-- C5 counterexample: for the [503, 503, 200] response sequence the
call makes 3 HTTP attempts but acquires a token through the token
manager only once — `get_access_token()` is called before the loop and
the same token/headers are reused by every retry attempt, so it is not
the case that every attempt performs a fresh token acquisition. -/
theorem C5_counterexample :
    (post_tr tenvOK resp503twice (fun _ => 0)).attempts = 3
    ∧ (post_tr tenvOK resp503twice (fun _ => 0)).tokenAcquisitions = 1
    ∧ (post_tr tenvOK resp503twice (fun _ => 0)).tokenAcquisitions
        ≠ (post_tr tenvOK resp503twice (fun _ => 0)).attempts := by
  exact ⟨rfl, rfl, by decide⟩

/-- C5 amended: within a single `_post_tr` call the bearer token is
obtained from the token manager exactly once, before the first
attempt; every retry attempt of the same call reuses that token and
the headers built from it. -/
theorem C5_token_once_per_call (tenv : TokenEnv) (resp : ℕ → HttpResponse)
    (jit : ℕ → ℚ) :
    (post_tr tenv resp jit).tokenAcquisitions = 1 := by
  unfold post_tr
  cases h : (get_access_token tenv).result
  · rfl
  · rcases hX : post_tr_loop resp jit MAX_RETRIES 0 BASE_SLEEP with ⟨o, sl, a⟩
    rfl
